import Mathlib

/-!
# Mini OS v1 master controller (ESP32-S3 mecanum robot)

Shallow embedding of the control core of `master/main`: the finite state
machine (`fsm.c`), the per-mode handlers (`modes/*.c`), the motor driver
(`drivers/motor.c`) and the control loop body (`main.c`).

Conventions of the embedding

* The C globals (`g_ctx` and the file-static variables of `motor.c`,
  `buzzer.c`, `mode_settings.c`) together with the observable peripheral
  outputs are gathered in one record, `system_t`; every C function with side
  effects becomes a function `system_t → system_t`.
* `int16_t` values are integers; every store into an `int16_t` object goes
  through `int16_of` (wrap-around modulo 2 ^ 16).  `uint32_t` tick
  arithmetic goes through `u32_sub`.
* Logging (`ESP_LOGx`) has no effect on the state and is dropped.
-/

namespace MiniOS

/-! ## config.h -/

def DEBOUNCE_MS : Nat := 50

def LONG_PRESS_MS : Nat := 1000

def DOUBLE_CLICK_MS : Nat := 400

def CONNECTION_TIMEOUT_MS : Nat := 500

def DEADZONE : Int := 25

def MAX_SPEED : Int := 255

def VOICE_CMD_STOP : Nat := 0

def VOICE_CMD_FORWARD : Nat := 1

def VOICE_CMD_BACKWARD : Nat := 2

def VOICE_CMD_LEFT : Nat := 3

def VOICE_CMD_RIGHT : Nat := 4

def VOICE_DEFAULT_SPEED : Nat := 150

def DEFAULT_VOLUME : Nat := 80

def DEFAULT_MOTOR_CAL : Nat := 255

/-! ## types.h -/

inductive system_state_t where
  | STATE_MAIN_MENU
  | STATE_MODE_MECANUM
  | STATE_MODE_RC
  | STATE_MODE_VOICE
  | STATE_MODE_SETTINGS
deriving DecidableEq, Repr

inductive settings_menu_t where
  | SETTINGS_MAIN
  | SETTINGS_BRIGHTNESS
  | SETTINGS_VOLUME
  | SETTINGS_MOTOR_CAL
  | SETTINGS_MOTOR_TEST
  | SETTINGS_ABOUT
deriving DecidableEq, Repr

inductive movement_type_t where
  | MOVEMENT_STOP
  | MOVEMENT_FORWARD
  | MOVEMENT_BACKWARD
  | MOVEMENT_STRAFE_LEFT
  | MOVEMENT_STRAFE_RIGHT
  | MOVEMENT_ROTATE_LEFT
  | MOVEMENT_ROTATE_RIGHT
  | MOVEMENT_TURN_LEFT
  | MOVEMENT_TURN_RIGHT
  | MOVEMENT_EMERGENCY
deriving DecidableEq, Repr

inductive button_event_t where
  | BTN_EVT_NONE
  | BTN_EVT_UP_PRESSED
  | BTN_EVT_DOWN_PRESSED
  | BTN_EVT_OK_SINGLE
  | BTN_EVT_OK_DOUBLE
  | BTN_EVT_OK_LONG
deriving DecidableEq, Repr

/-- Joystick frame received from the slave (`joystick_data_t`). -/
structure joystick_data_t where
  throttle : Int
  steering : Int
  aux_x : Int
  aux_y : Int
  btn1 : Bool
  btn2 : Bool
  mode : Nat
deriving DecidableEq, Repr

/-- Stored wheel speeds (`motor_speeds_t`), four `int16_t`. -/
structure motor_speeds_t where
  fl : Int
  fr : Int
  bl : Int
  br : Int
deriving DecidableEq, Repr

/-- Settings record (`settings_data_t`), six `uint8_t`. -/
structure settings_data_t where
  brightness : Nat
  volume : Nat
  motor_cal_fl : Nat
  motor_cal_fr : Nat
  motor_cal_bl : Nat
  motor_cal_br : Nat
deriving DecidableEq, Repr

/-- Global context (`system_context_t`, the C global `g_ctx`). -/
structure system_context_t where
  current_state : system_state_t
  settings_menu : settings_menu_t
  menu_index : Int
  settings_index : Int
  joystick_connected : Bool
  voice_connected : Bool
  last_joystick_time : Nat
  last_voice_time : Nat
  joystick : joystick_data_t
  voice_cmd : Nat
  voice_speed : Nat
  movement : movement_type_t
  motor_speeds : motor_speeds_t
  settings : settings_data_t
  display_dirty : Bool
deriving DecidableEq, Repr

/-! ## Peripheral outputs and file-static state -/

/-- What `set_motor` leaves on one H-bridge channel: the two direction pins
and the PWM duty written with `ledc_set_duty`. -/
structure motor_out_t where
  in1 : Bool
  in2 : Bool
  duty : Int
deriving DecidableEq, Repr

/-- Sound effects of `buzzer.h`; the trace of calls is what the rest of the
firmware can observe of the buzzer. -/
inductive buzzer_sound_t where
  | BUZZER_STARTUP
  | BUZZER_CLICK
  | BUZZER_DOUBLE_CLICK
  | BUZZER_ERROR
deriving DecidableEq, Repr

/-- Whole machine state: `g_ctx`, the static variables of `motor.c`
(`s_cal_*`), `buzzer.c` (`s_volume`), `mode_settings.c` (`s_motor_test_id`,
`s_motor_running`), the four motor channels, the trace of requested sounds,
the brightness last sent to the display and the settings record last written
to non-volatile storage (`none` until a save succeeds in this run). -/
structure system_t where
  g_ctx : system_context_t
  s_cal_fl : Nat
  s_cal_fr : Nat
  s_cal_bl : Nat
  s_cal_br : Nat
  out_fl : motor_out_t
  out_fr : motor_out_t
  out_bl : motor_out_t
  out_br : motor_out_t
  s_volume : Nat
  buzzer_log : List buzzer_sound_t
  s_motor_test_id : Int
  s_motor_running : Bool
  display_brightness : Nat
  nvs_writable : Bool
  nvs_saved : Option settings_data_t
deriving DecidableEq, Repr

/-! ## Machine integers -/

/-- Conversion of an `int` to `int16_t` (wrap-around, as GCC does). -/
def int16_of (x : Int) : Int := (x + 32768) % 65536 - 32768

/-- Difference `a - b` of two unsigned 32-bit tick values. -/
def u32_sub (a b : Nat) : Nat := (a % 4294967296 + 4294967296 - b % 4294967296) % 4294967296

/-- The `abs` of `<stdlib.h>` on an `int` promoted from `int16_t` (no
overflow is possible at that width). -/
def c_abs (x : Int) : Int := if x < 0 then -x else x

/-! ## Single-precision arithmetic used by `interpret_mecanum`

The only floating-point computation of the core is
`(float)abs(steering) / (float)(abs(throttle) + 1) > 0.6f`.  A non-negative
binary32 value is kept as `sig / 2 ^ scale`; the operands are integers below
`2 ^ 24`, hence exact, and the quotient is rounded to a 24-bit significand,
nearest-even, as IEEE 754 division does. -/

/-- Non-negative binary32 value `sig / 2 ^ scale`. -/
structure float32 where
  sig : Nat
  scale : Nat
deriving DecidableEq, Repr

/-- The cast `(float)n` of an integer `0 ≤ n < 2 ^ 24` (exact). -/
def float32.of_nat (n : Nat) : float32 := ⟨n, 0⟩

/-- Least `k` from the start value on (searching at most `fuel` steps) with
`2 ^ 23 ≤ n * 2 ^ k / d`: the scale that normalises the quotient to a 24-bit
significand. -/
def f32_norm_scale (n d : Nat) : Nat → Nat → Nat
  | 0, k => k
  | fuel + 1, k => if 2 ^ 23 * d ≤ n * 2 ^ k then k else f32_norm_scale n d fuel (k + 1)

/-- Round-to-nearest, ties-to-even of the rational `n / d` to an integer. -/
def round_half_even (n d : Nat) : Nat :=
  let q := n / d
  let r := n % d
  if 2 * r < d then q else if d < 2 * r then q + 1 else if q % 2 = 0 then q else q + 1

/-- Binary32 division `a / b` for `0 ≤ a`, `0 < b` with a quotient below
`2 ^ 24` (the firmware divides an integer in `[0, 32768]` by one in
`[1, 32769]`). -/
def float32.div (a b : float32) : float32 :=
  let n := a.sig * 2 ^ b.scale
  let d := b.sig * 2 ^ a.scale
  if n = 0 then ⟨0, 0⟩
  else
    let k := f32_norm_scale n d 128 0
    ⟨round_half_even (n * 2 ^ k) d, k⟩

/-- Comparison `a > b` of two binary32 values. -/
def float32.gt (a b : float32) : Bool := decide (b.sig * 2 ^ a.scale < a.sig * 2 ^ b.scale)

/-- The literal `0.6f` (bit pattern `0x3F19999A`): `10066330 / 2 ^ 24`. -/
def DIAGONAL_RATIO : float32 := ⟨10066330, 24⟩

/-! ## drivers/buzzer.c -/

/-- Call of `buzzer_click()`: appended to the sound trace. -/
def buzzer_click (s : system_t) : system_t :=
  { s with buzzer_log := s.buzzer_log ++ [buzzer_sound_t.BUZZER_CLICK] }

/-- Call of `buzzer_error()`: appended to the sound trace. -/
def buzzer_error (s : system_t) : system_t :=
  { s with buzzer_log := s.buzzer_log ++ [buzzer_sound_t.BUZZER_ERROR] }

/-- Clamp the volume to 100 and store it (`buzzer_set_volume`). -/
def buzzer_set_volume (volume : Nat) (s : system_t) : system_t :=
  { s with s_volume := if volume > 100 then 100 else volume }

/-! ## drivers/motor.c -/

/-- Drive one channel with a signed speed scaled by a calibration value
(`set_motor`): `(speed * cal) / 255` with the truncating division of C, stored in
an `int16_t`; the sign selects the direction pins, the magnitude is the
duty. -/
def set_motor (speed : Int) (cal : Nat) : motor_out_t :=
  let calibrated_speed := int16_of (Int.tdiv (speed * (cal : Int)) 255)
  if calibrated_speed > 0 then ⟨true, false, calibrated_speed⟩
  else if calibrated_speed < 0 then ⟨false, true, -calibrated_speed⟩
  else ⟨false, false, 0⟩

/-- Stop all four channels (`motor_stop_all`). -/
def motor_stop_all (s : system_t) : system_t :=
  { s with
    out_fl := set_motor 0 255
    out_fr := set_motor 0 255
    out_bl := set_motor 0 255
    out_br := set_motor 0 255 }

/-- Drive the four channels from a speed record, each with its calibration
(`motor_apply_speeds`). -/
def motor_apply_speeds (speeds : motor_speeds_t) (s : system_t) : system_t :=
  { s with
    out_fl := set_motor speeds.fl s.s_cal_fl
    out_fr := set_motor speeds.fr s.s_cal_fr
    out_bl := set_motor speeds.bl s.s_cal_bl
    out_br := set_motor speeds.br s.s_cal_br }

/-- Store the four calibration multipliers (`motor_set_calibration`). -/
def motor_set_calibration (fl fr bl br : Nat) (s : system_t) : system_t :=
  { s with s_cal_fl := fl, s_cal_fr := fr, s_cal_bl := bl, s_cal_br := br }

/-- Run a single motor uncalibrated after stopping all (`motor_test`). -/
def motor_test (motor_id : Int) (speed : Int) (s : system_t) : system_t :=
  let s := motor_stop_all s
  if motor_id = 0 then { s with out_fl := set_motor speed 255 }
  else if motor_id = 1 then { s with out_fr := set_motor speed 255 }
  else if motor_id = 2 then { s with out_bl := set_motor speed 255 }
  else if motor_id = 3 then { s with out_br := set_motor speed 255 }
  else s

/-! ## drivers/nvs_storage.c and display boundary -/

/-- Write the settings record to non-volatile storage (`nvs_storage_save`);
nothing is written when the namespace cannot be opened. -/
def nvs_storage_save (settings : settings_data_t) (s : system_t) : system_t :=
  if s.nvs_writable then { s with nvs_saved := some settings } else s

/-- Send a brightness to the display (`display_set_brightness`). -/
def display_set_brightness (b : Nat) (s : system_t) : system_t :=
  { s with display_brightness := b }

/-! ## fsm.c : state change -/

/-- Initialise the state machine (`fsm_init`). -/
def fsm_init (s : system_t) : system_t :=
  { s with g_ctx := { s.g_ctx with
      current_state := system_state_t.STATE_MAIN_MENU
      menu_index := 0
      settings_index := 0
      display_dirty := true } }

/-- Change the operating mode (`fsm_change_state`): nothing when the target
is the current state; otherwise the exit action of the old state (motors
stopped when leaving a driving mode), the state switch with the redraw flag,
the entry action of the new state, and one click. -/
def fsm_change_state (new_state : system_state_t) (s : system_t) : system_t :=
  if s.g_ctx.current_state = new_state then s
  else
    let s1 :=
      match s.g_ctx.current_state with
      | system_state_t.STATE_MODE_MECANUM => motor_stop_all s
      | system_state_t.STATE_MODE_RC => motor_stop_all s
      | system_state_t.STATE_MODE_VOICE => motor_stop_all s
      | _ => s
    let s2 := { s1 with g_ctx := { s1.g_ctx with current_state := new_state, display_dirty := true } }
    let s3 :=
      match new_state with
      | system_state_t.STATE_MAIN_MENU => { s2 with g_ctx := { s2.g_ctx with menu_index := 0 } }
      | system_state_t.STATE_MODE_SETTINGS =>
        { s2 with g_ctx := { s2.g_ctx with
            settings_menu := settings_menu_t.SETTINGS_MAIN
            settings_index := 0 } }
      | _ => s2
    buzzer_click s3

/-! ## modes/mode_menu.c -/

def MENU_ITEMS : Int := 4

/-- Main-menu button handler (`mode_menu_handle_button`). -/
def mode_menu_handle_button (evt : button_event_t) (s : system_t) : system_t :=
  match evt with
  | button_event_t.BTN_EVT_UP_PRESSED =>
    if s.g_ctx.menu_index > 0 then
      buzzer_click { s with g_ctx := { s.g_ctx with
        menu_index := s.g_ctx.menu_index - 1
        display_dirty := true } }
    else s
  | button_event_t.BTN_EVT_DOWN_PRESSED =>
    if s.g_ctx.menu_index < MENU_ITEMS - 1 then
      buzzer_click { s with g_ctx := { s.g_ctx with
        menu_index := s.g_ctx.menu_index + 1
        display_dirty := true } }
    else s
  | button_event_t.BTN_EVT_OK_SINGLE =>
    if s.g_ctx.menu_index = 0 then fsm_change_state system_state_t.STATE_MODE_MECANUM s
    else if s.g_ctx.menu_index = 1 then fsm_change_state system_state_t.STATE_MODE_RC s
    else if s.g_ctx.menu_index = 2 then fsm_change_state system_state_t.STATE_MODE_VOICE s
    else if s.g_ctx.menu_index = 3 then fsm_change_state system_state_t.STATE_MODE_SETTINGS s
    else s
  | _ => s

/-! ## modes/mode_mecanum.c -/

/-- Button handler of the mecanum mode (`mode_mecanum_handle_button`). -/
def mode_mecanum_handle_button (evt : button_event_t) (s : system_t) : system_t :=
  match evt with
  | button_event_t.BTN_EVT_OK_DOUBLE =>
    fsm_change_state system_state_t.STATE_MAIN_MENU (motor_stop_all s)
  | button_event_t.BTN_EVT_OK_LONG =>
    let s1 := motor_stop_all s
    buzzer_error { s1 with g_ctx := { s1.g_ctx with
      movement := movement_type_t.MOVEMENT_EMERGENCY
      display_dirty := true } }
  | _ => s

/-- Movement intent of the mecanum policy (`interpret_mecanum`); reads the
emergency button from the global joystick sample. -/
def interpret_mecanum (g : system_context_t) (throttle steering : Int) : movement_type_t :=
  let throttle := if c_abs throttle < DEADZONE then 0 else throttle
  let steering := if c_abs steering < DEADZONE then 0 else steering
  if g.joystick.btn1 then movement_type_t.MOVEMENT_EMERGENCY
  else if throttle = 0 ∧ steering = 0 then movement_type_t.MOVEMENT_STOP
  else if c_abs throttle < DEADZONE ∧ c_abs steering > DEADZONE then
    (if steering > 0 then movement_type_t.MOVEMENT_STRAFE_RIGHT
     else movement_type_t.MOVEMENT_STRAFE_LEFT)
  else
    let ratio :=
      float32.div (float32.of_nat (c_abs steering).toNat) (float32.of_nat (c_abs throttle + 1).toNat)
    if c_abs throttle > DEADZONE then
      if float32.gt ratio DIAGONAL_RATIO then
        (if steering > 0 then movement_type_t.MOVEMENT_ROTATE_RIGHT
         else movement_type_t.MOVEMENT_ROTATE_LEFT)
      else
        (if throttle > 0 then movement_type_t.MOVEMENT_FORWARD
         else movement_type_t.MOVEMENT_BACKWARD)
    else movement_type_t.MOVEMENT_STOP

/-- Wheel speeds of the mecanum policy (`calculate_mecanum_speeds`),
selected by the movement stored in the context. -/
def calculate_mecanum_speeds (g : system_context_t) (throttle steering : Int) : motor_speeds_t :=
  let throttle := if c_abs throttle < DEADZONE then 0 else throttle
  let steering := if c_abs steering < DEADZONE then 0 else steering
  let speed0 := int16_of (c_abs throttle)
  let speed1 := if speed0 = 0 then int16_of (c_abs steering) else speed0
  let speed := if speed1 > MAX_SPEED then MAX_SPEED else speed1
  let neg := int16_of (-speed)
  match g.movement with
  | movement_type_t.MOVEMENT_FORWARD => ⟨speed, speed, speed, speed⟩
  | movement_type_t.MOVEMENT_BACKWARD => ⟨neg, neg, neg, neg⟩
  | movement_type_t.MOVEMENT_STRAFE_LEFT => ⟨neg, speed, speed, neg⟩
  | movement_type_t.MOVEMENT_STRAFE_RIGHT => ⟨speed, neg, neg, speed⟩
  | movement_type_t.MOVEMENT_ROTATE_LEFT => ⟨neg, speed, neg, speed⟩
  | movement_type_t.MOVEMENT_ROTATE_RIGHT => ⟨speed, neg, speed, neg⟩
  | _ => ⟨0, 0, 0, 0⟩

/-- One interpretation step of the mecanum mode (`mode_mecanum_process`). -/
def mode_mecanum_process (s : system_t) : system_t :=
  let new_movement := interpret_mecanum s.g_ctx s.g_ctx.joystick.throttle s.g_ctx.joystick.steering
  let g1 :=
    if new_movement ≠ s.g_ctx.movement then
      { s.g_ctx with movement := new_movement, display_dirty := true }
    else s.g_ctx
  { s with g_ctx := { g1 with
      motor_speeds := calculate_mecanum_speeds g1 g1.joystick.throttle g1.joystick.steering } }

/-! ## modes/mode_rc.c -/

/-- Button handler of the RC mode (`mode_rc_handle_button`). -/
def mode_rc_handle_button (evt : button_event_t) (s : system_t) : system_t :=
  match evt with
  | button_event_t.BTN_EVT_OK_DOUBLE =>
    fsm_change_state system_state_t.STATE_MAIN_MENU (motor_stop_all s)
  | button_event_t.BTN_EVT_OK_LONG =>
    let s1 := motor_stop_all s
    buzzer_error { s1 with g_ctx := { s1.g_ctx with
      movement := movement_type_t.MOVEMENT_EMERGENCY
      display_dirty := true } }
  | _ => s

/-- Movement intent of the RC policy (`interpret_rc`). -/
def interpret_rc (g : system_context_t) (throttle steering : Int) : movement_type_t :=
  let throttle := if c_abs throttle < DEADZONE then 0 else throttle
  let steering := if c_abs steering < DEADZONE then 0 else steering
  if g.joystick.btn1 then movement_type_t.MOVEMENT_EMERGENCY
  else if throttle = 0 ∧ steering = 0 then movement_type_t.MOVEMENT_STOP
  else if c_abs throttle > DEADZONE then
    if c_abs steering > DEADZONE then
      if throttle > 0 then
        (if steering > 0 then movement_type_t.MOVEMENT_TURN_RIGHT
         else movement_type_t.MOVEMENT_TURN_LEFT)
      else
        (if steering > 0 then movement_type_t.MOVEMENT_TURN_LEFT
         else movement_type_t.MOVEMENT_TURN_RIGHT)
    else
      (if throttle > 0 then movement_type_t.MOVEMENT_FORWARD
       else movement_type_t.MOVEMENT_BACKWARD)
  else if c_abs steering > DEADZONE then
    (if steering > 0 then movement_type_t.MOVEMENT_ROTATE_RIGHT
     else movement_type_t.MOVEMENT_ROTATE_LEFT)
  else movement_type_t.MOVEMENT_STOP

/-- Differential mixing of the RC policy (`calculate_rc_speeds`). -/
def calculate_rc_speeds (g : system_context_t) (throttle steering : Int) : motor_speeds_t :=
  let throttle := if c_abs throttle < DEADZONE then 0 else throttle
  let steering := if c_abs steering < DEADZONE then 0 else steering
  let left0 := int16_of (throttle + steering)
  let right0 := int16_of (throttle - steering)
  let left1 := if left0 > MAX_SPEED then MAX_SPEED else left0
  let left_speed := if left1 < -MAX_SPEED then -MAX_SPEED else left1
  let right1 := if right0 > MAX_SPEED then MAX_SPEED else right0
  let right_speed := if right1 < -MAX_SPEED then -MAX_SPEED else right1
  if g.movement = movement_type_t.MOVEMENT_EMERGENCY then ⟨0, 0, 0, 0⟩
  else ⟨left_speed, right_speed, left_speed, right_speed⟩

/-- One interpretation step of the RC mode (`mode_rc_process`). -/
def mode_rc_process (s : system_t) : system_t :=
  let new_movement := interpret_rc s.g_ctx s.g_ctx.joystick.throttle s.g_ctx.joystick.steering
  let g1 :=
    if new_movement ≠ s.g_ctx.movement then
      { s.g_ctx with movement := new_movement, display_dirty := true }
    else s.g_ctx
  { s with g_ctx := { g1 with
      motor_speeds := calculate_rc_speeds g1 g1.joystick.throttle g1.joystick.steering } }

/-! ## modes/mode_voice.c -/

/-- Button handler of the voice mode (`mode_voice_handle_button`). -/
def mode_voice_handle_button (evt : button_event_t) (s : system_t) : system_t :=
  match evt with
  | button_event_t.BTN_EVT_OK_DOUBLE =>
    fsm_change_state system_state_t.STATE_MAIN_MENU (motor_stop_all s)
  | button_event_t.BTN_EVT_OK_LONG =>
    let s1 := motor_stop_all s
    buzzer_error { s1 with g_ctx := { s1.g_ctx with
      movement := movement_type_t.MOVEMENT_EMERGENCY
      display_dirty := true } }
  | _ => s

/-- One interpretation step of the voice mode (`mode_voice_process`). -/
def mode_voice_process (s : system_t) : system_t :=
  let speed : Int := int16_of (s.g_ctx.voice_speed : Int)
  let neg := int16_of (-speed)
  let new_movement :=
    if s.g_ctx.voice_cmd = VOICE_CMD_STOP then movement_type_t.MOVEMENT_STOP
    else if s.g_ctx.voice_cmd = VOICE_CMD_FORWARD then movement_type_t.MOVEMENT_FORWARD
    else if s.g_ctx.voice_cmd = VOICE_CMD_BACKWARD then movement_type_t.MOVEMENT_BACKWARD
    else if s.g_ctx.voice_cmd = VOICE_CMD_LEFT then movement_type_t.MOVEMENT_ROTATE_LEFT
    else if s.g_ctx.voice_cmd = VOICE_CMD_RIGHT then movement_type_t.MOVEMENT_ROTATE_RIGHT
    else movement_type_t.MOVEMENT_STOP
  let g1 :=
    if new_movement ≠ s.g_ctx.movement then
      { s.g_ctx with movement := new_movement, display_dirty := true }
    else s.g_ctx
  let speeds : motor_speeds_t :=
    match g1.movement with
    | movement_type_t.MOVEMENT_FORWARD => ⟨speed, speed, speed, speed⟩
    | movement_type_t.MOVEMENT_BACKWARD => ⟨neg, neg, neg, neg⟩
    | movement_type_t.MOVEMENT_ROTATE_LEFT => ⟨neg, speed, neg, speed⟩
    | movement_type_t.MOVEMENT_ROTATE_RIGHT => ⟨speed, neg, speed, neg⟩
    | _ => ⟨0, 0, 0, 0⟩
  { s with g_ctx := { g1 with motor_speeds := speeds } }

/-! ## modes/mode_settings.c -/

def SETTINGS_ITEMS : Int := 5

/-- Root of the settings menu (`handle_main_menu`).  The `Save & Exit` entry
returns before the trailing click and redraw flag. -/
def handle_main_menu (evt : button_event_t) (s : system_t) : system_t :=
  let dirty (x : system_t) : system_t := { x with g_ctx := { x.g_ctx with display_dirty := true } }
  match evt with
  | button_event_t.BTN_EVT_UP_PRESSED =>
    if s.g_ctx.settings_index > 0 then
      dirty (buzzer_click { s with g_ctx := { s.g_ctx with
        settings_index := s.g_ctx.settings_index - 1 } })
    else dirty s
  | button_event_t.BTN_EVT_DOWN_PRESSED =>
    if s.g_ctx.settings_index < SETTINGS_ITEMS - 1 then
      dirty (buzzer_click { s with g_ctx := { s.g_ctx with
        settings_index := s.g_ctx.settings_index + 1 } })
    else dirty s
  | button_event_t.BTN_EVT_OK_SINGLE =>
    if s.g_ctx.settings_index = 0 then
      dirty (buzzer_click { s with g_ctx := { s.g_ctx with
        settings_menu := settings_menu_t.SETTINGS_BRIGHTNESS } })
    else if s.g_ctx.settings_index = 1 then
      dirty (buzzer_click { s with g_ctx := { s.g_ctx with
        settings_menu := settings_menu_t.SETTINGS_VOLUME } })
    else if s.g_ctx.settings_index = 2 then
      dirty (buzzer_click { s with g_ctx := { s.g_ctx with
        settings_menu := settings_menu_t.SETTINGS_MOTOR_CAL } })
    else if s.g_ctx.settings_index = 3 then
      dirty (buzzer_click { s with
        g_ctx := { s.g_ctx with settings_menu := settings_menu_t.SETTINGS_MOTOR_TEST }
        s_motor_test_id := 0
        s_motor_running := false })
    else if s.g_ctx.settings_index = 4 then
      let s1 := nvs_storage_save s.g_ctx.settings s
      let s2 := motor_set_calibration s1.g_ctx.settings.motor_cal_fl s1.g_ctx.settings.motor_cal_fr
        s1.g_ctx.settings.motor_cal_bl s1.g_ctx.settings.motor_cal_br s1
      let s3 := display_set_brightness s2.g_ctx.settings.brightness s2
      let s4 := buzzer_set_volume s3.g_ctx.settings.volume s3
      fsm_change_state system_state_t.STATE_MAIN_MENU s4
    else dirty (buzzer_click s)
  | button_event_t.BTN_EVT_OK_DOUBLE =>
    dirty (fsm_change_state system_state_t.STATE_MAIN_MENU s)
  | _ => dirty s

/-- Brightness sub-menu (`handle_brightness`). -/
def handle_brightness (evt : button_event_t) (s : system_t) : system_t :=
  let dirty (x : system_t) : system_t := { x with g_ctx := { x.g_ctx with display_dirty := true } }
  let set_b (b : Nat) (x : system_t) : system_t :=
    { x with g_ctx := { x.g_ctx with settings := { x.g_ctx.settings with brightness := b } } }
  match evt with
  | button_event_t.BTN_EVT_UP_PRESSED =>
    let s1 :=
      if s.g_ctx.settings.brightness < 245 then set_b (s.g_ctx.settings.brightness + 10) s
      else set_b 255 s
    dirty (buzzer_click (display_set_brightness s1.g_ctx.settings.brightness s1))
  | button_event_t.BTN_EVT_DOWN_PRESSED =>
    let s1 :=
      if s.g_ctx.settings.brightness > 10 then set_b (s.g_ctx.settings.brightness - 10) s
      else set_b 5 s
    dirty (buzzer_click (display_set_brightness s1.g_ctx.settings.brightness s1))
  | button_event_t.BTN_EVT_OK_SINGLE =>
    dirty (buzzer_click { s with g_ctx := { s.g_ctx with settings_menu := settings_menu_t.SETTINGS_MAIN } })
  | button_event_t.BTN_EVT_OK_DOUBLE =>
    dirty (buzzer_click { s with g_ctx := { s.g_ctx with settings_menu := settings_menu_t.SETTINGS_MAIN } })
  | _ => dirty s

/-- Volume sub-menu (`handle_volume`). -/
def handle_volume (evt : button_event_t) (s : system_t) : system_t :=
  let dirty (x : system_t) : system_t := { x with g_ctx := { x.g_ctx with display_dirty := true } }
  let set_v (v : Nat) (x : system_t) : system_t :=
    { x with g_ctx := { x.g_ctx with settings := { x.g_ctx.settings with volume := v } } }
  match evt with
  | button_event_t.BTN_EVT_UP_PRESSED =>
    let s1 :=
      if s.g_ctx.settings.volume < 95 then set_v (s.g_ctx.settings.volume + 5) s
      else set_v 100 s
    dirty (buzzer_click (buzzer_set_volume s1.g_ctx.settings.volume s1))
  | button_event_t.BTN_EVT_DOWN_PRESSED =>
    let s1 :=
      if s.g_ctx.settings.volume > 5 then set_v (s.g_ctx.settings.volume - 5) s
      else set_v 0 s
    let s2 := buzzer_set_volume s1.g_ctx.settings.volume s1
    if s2.g_ctx.settings.volume > 0 then dirty (buzzer_click s2) else dirty s2
  | button_event_t.BTN_EVT_OK_SINGLE =>
    dirty (buzzer_click { s with g_ctx := { s.g_ctx with settings_menu := settings_menu_t.SETTINGS_MAIN } })
  | button_event_t.BTN_EVT_OK_DOUBLE =>
    dirty (buzzer_click { s with g_ctx := { s.g_ctx with settings_menu := settings_menu_t.SETTINGS_MAIN } })
  | _ => dirty s

/-- Read the calibration value selected by `settings_index`
(`*get_current_cal()`); `none` is the NULL pointer. -/
def get_current_cal (g : system_context_t) : Option Nat :=
  if g.settings_index = 0 then some g.settings.motor_cal_fl
  else if g.settings_index = 1 then some g.settings.motor_cal_fr
  else if g.settings_index = 2 then some g.settings.motor_cal_bl
  else if g.settings_index = 3 then some g.settings.motor_cal_br
  else none

/-- Store through the pointer returned by `get_current_cal()`. -/
def set_current_cal (v : Nat) (g : system_context_t) : system_context_t :=
  if g.settings_index = 0 then { g with settings := { g.settings with motor_cal_fl := v } }
  else if g.settings_index = 1 then { g with settings := { g.settings with motor_cal_fr := v } }
  else if g.settings_index = 2 then { g with settings := { g.settings with motor_cal_bl := v } }
  else if g.settings_index = 3 then { g with settings := { g.settings with motor_cal_br := v } }
  else g

/-- Motor-calibration sub-menu (`handle_motor_cal`). -/
def handle_motor_cal (evt : button_event_t) (s : system_t) : system_t :=
  let dirty (x : system_t) : system_t := { x with g_ctx := { x.g_ctx with display_dirty := true } }
  match evt with
  | button_event_t.BTN_EVT_UP_PRESSED =>
    let s1 :=
      if s.g_ctx.settings_index < 4 then
        match get_current_cal s.g_ctx with
        | some c =>
          if c < 245 then { s with g_ctx := set_current_cal (c + 10) s.g_ctx }
          else { s with g_ctx := set_current_cal 255 s.g_ctx }
        | none => s
      else s
    dirty (buzzer_click s1)
  | button_event_t.BTN_EVT_DOWN_PRESSED =>
    let s1 :=
      if s.g_ctx.settings_index < 4 then
        match get_current_cal s.g_ctx with
        | some c =>
          if c > 10 then { s with g_ctx := set_current_cal (c - 10) s.g_ctx }
          else { s with g_ctx := set_current_cal 0 s.g_ctx }
        | none => s
      else s
    dirty (buzzer_click s1)
  | button_event_t.BTN_EVT_OK_SINGLE =>
    let s1 :=
      if s.g_ctx.settings_index < 3 then
        { s with g_ctx := { s.g_ctx with settings_index := s.g_ctx.settings_index + 1 } }
      else
        { s with g_ctx := { s.g_ctx with
            settings_index := 0
            settings_menu := settings_menu_t.SETTINGS_MAIN } }
    dirty (buzzer_click s1)
  | button_event_t.BTN_EVT_OK_DOUBLE =>
    dirty (buzzer_click { s with g_ctx := { s.g_ctx with
      settings_index := 0
      settings_menu := settings_menu_t.SETTINGS_MAIN } })
  | _ => dirty s

/-- Motor-test sub-menu (`handle_motor_test`). -/
def handle_motor_test (evt : button_event_t) (s : system_t) : system_t :=
  let dirty (x : system_t) : system_t := { x with g_ctx := { x.g_ctx with display_dirty := true } }
  let halt (x : system_t) : system_t :=
    if x.s_motor_running then { motor_stop_all x with s_motor_running := false } else x
  match evt with
  | button_event_t.BTN_EVT_UP_PRESSED =>
    let s1 := if s.s_motor_test_id > 0 then { s with s_motor_test_id := s.s_motor_test_id - 1 } else s
    dirty (buzzer_click (halt s1))
  | button_event_t.BTN_EVT_DOWN_PRESSED =>
    let s1 := if s.s_motor_test_id < 4 then { s with s_motor_test_id := s.s_motor_test_id + 1 } else s
    dirty (buzzer_click (halt s1))
  | button_event_t.BTN_EVT_OK_SINGLE =>
    let s1 :=
      if s.s_motor_running then { motor_stop_all s with s_motor_running := false }
      else
        let s2 :=
          if s.s_motor_test_id = 4 then motor_apply_speeds ⟨150, 150, 150, 150⟩ s
          else motor_test (s.s_motor_test_id % 256) 150 s
        { s2 with s_motor_running := true }
    dirty (buzzer_click s1)
  | button_event_t.BTN_EVT_OK_DOUBLE =>
    let s1 := { motor_stop_all s with s_motor_running := false }
    dirty (buzzer_click { s1 with g_ctx := { s1.g_ctx with settings_menu := settings_menu_t.SETTINGS_MAIN } })
  | _ => dirty s

/-- Settings-mode button handler (`mode_settings_handle_button`). -/
def mode_settings_handle_button (evt : button_event_t) (s : system_t) : system_t :=
  match s.g_ctx.settings_menu with
  | settings_menu_t.SETTINGS_MAIN => handle_main_menu evt s
  | settings_menu_t.SETTINGS_BRIGHTNESS => handle_brightness evt s
  | settings_menu_t.SETTINGS_VOLUME => handle_volume evt s
  | settings_menu_t.SETTINGS_MOTOR_CAL => handle_motor_cal evt s
  | settings_menu_t.SETTINGS_MOTOR_TEST => handle_motor_test evt s
  | settings_menu_t.SETTINGS_ABOUT => s

/-! ## fsm.c : dispatch and supervision -/

/-- Route a button event to the handler of the current state
(`fsm_process_button`). -/
def fsm_process_button (evt : button_event_t) (s : system_t) : system_t :=
  if evt = button_event_t.BTN_EVT_NONE then s
  else
    match s.g_ctx.current_state with
    | system_state_t.STATE_MAIN_MENU => mode_menu_handle_button evt s
    | system_state_t.STATE_MODE_MECANUM => mode_mecanum_handle_button evt s
    | system_state_t.STATE_MODE_RC => mode_rc_handle_button evt s
    | system_state_t.STATE_MODE_VOICE => mode_voice_handle_button evt s
    | system_state_t.STATE_MODE_SETTINGS => mode_settings_handle_button evt s

/-- Run the joystick interpreter of the current state
(`fsm_process_joystick`). -/
def fsm_process_joystick (s : system_t) : system_t :=
  match s.g_ctx.current_state with
  | system_state_t.STATE_MODE_MECANUM => mode_mecanum_process s
  | system_state_t.STATE_MODE_RC => mode_rc_process s
  | _ => s

/-- Run the voice interpreter when in voice mode (`fsm_process_voice`). -/
def fsm_process_voice (s : system_t) : system_t :=
  if s.g_ctx.current_state = system_state_t.STATE_MODE_VOICE then mode_voice_process s else s

/-- Connection supervision (`fsm_update`); `now` is the value of
`xTaskGetTickCount() * portTICK_PERIOD_MS` read at entry. -/
def fsm_update (now : Nat) (s : system_t) : system_t :=
  let s1 :=
    if s.g_ctx.joystick_connected = true ∧
        u32_sub now s.g_ctx.last_joystick_time > CONNECTION_TIMEOUT_MS then
      let a := { s with g_ctx := { s.g_ctx with joystick_connected := false } }
      let b :=
        if a.g_ctx.current_state = system_state_t.STATE_MODE_MECANUM ∨
            a.g_ctx.current_state = system_state_t.STATE_MODE_RC then
          motor_stop_all { a with g_ctx := { a.g_ctx with movement := movement_type_t.MOVEMENT_STOP } }
        else a
      { b with g_ctx := { b.g_ctx with display_dirty := true } }
    else s
  if s1.g_ctx.voice_connected = true ∧
      u32_sub now s1.g_ctx.last_voice_time > CONNECTION_TIMEOUT_MS then
    let a := { s1 with g_ctx := { s1.g_ctx with voice_connected := false } }
    let b :=
      if a.g_ctx.current_state = system_state_t.STATE_MODE_VOICE then
        motor_stop_all { a with g_ctx := { a.g_ctx with movement := movement_type_t.MOVEMENT_STOP } }
      else a
    { b with g_ctx := { b.g_ctx with display_dirty := true } }
  else s1

/-! ## main.c : one iteration of the control loop -/

/-- Body of the `while (1)` loop of `control_task`, run at tick value `now`:
the supervision step, then the interpreter of the current driving mode and
the actuation of the stored speeds, both only while the peer the mode needs
is connected. -/
def control_task_step (now : Nat) (s : system_t) : system_t :=
  let s1 := fsm_update now s
  match s1.g_ctx.current_state with
  | system_state_t.STATE_MODE_MECANUM =>
    if s1.g_ctx.joystick_connected then
      let s2 := fsm_process_joystick s1
      motor_apply_speeds s2.g_ctx.motor_speeds s2
    else s1
  | system_state_t.STATE_MODE_RC =>
    if s1.g_ctx.joystick_connected then
      let s2 := fsm_process_joystick s1
      motor_apply_speeds s2.g_ctx.motor_speeds s2
    else s1
  | system_state_t.STATE_MODE_VOICE =>
    if s1.g_ctx.voice_connected then
      let s2 := fsm_process_voice s1
      motor_apply_speeds s2.g_ctx.motor_speeds s2
    else s1
  | _ => s1

/-! ## Observations used in the statements -/

/-- Channel state left by `set_motor` for a zero speed: both direction pins
low and duty 0. -/
def motor_out_stopped : motor_out_t := ⟨false, false, 0⟩

/-- All four motor channels are commanded to zero. -/
def motors_stopped (s : system_t) : Prop :=
  s.out_fl = motor_out_stopped ∧ s.out_fr = motor_out_stopped ∧
    s.out_bl = motor_out_stopped ∧ s.out_br = motor_out_stopped

instance (s : system_t) : Decidable (motors_stopped s) := by
  unfold motors_stopped
  infer_instance

/-- The three driving modes. -/
def is_driving_mode (st : system_state_t) : Prop :=
  st = system_state_t.STATE_MODE_MECANUM ∨ st = system_state_t.STATE_MODE_RC ∨
    st = system_state_t.STATE_MODE_VOICE

instance (st : system_state_t) : Decidable (is_driving_mode st) := by
  unfold is_driving_mode
  infer_instance

/-- Deadzone rule of the specification: an axis of magnitude below 25 reads
as zero, any other value is kept. -/
def deadzoned (v : Int) : Int := if c_abs v < 25 then 0 else v

/-- Saturation to `[lo, hi]`. -/
def clamp (v lo hi : Int) : Int := if v < lo then lo else if hi < v then hi else v

/-! ## Concrete machine states used as test inputs -/

/-- State after the initialisation sequence of `app_main` when nothing is
stored in non-volatile memory: zeroed `g_ctx` with default settings, default
calibration and volume, motors stopped by `motor_init`; the first redraw is
done (flag clear) and the start-up sound is left out of the trace. -/
def boot_system : system_t :=
  { g_ctx :=
      { current_state := system_state_t.STATE_MAIN_MENU
        settings_menu := settings_menu_t.SETTINGS_MAIN
        menu_index := 0
        settings_index := 0
        joystick_connected := false
        voice_connected := false
        last_joystick_time := 0
        last_voice_time := 0
        joystick := ⟨0, 0, 0, 0, false, false, 0⟩
        voice_cmd := 0
        voice_speed := 0
        movement := movement_type_t.MOVEMENT_STOP
        motor_speeds := ⟨0, 0, 0, 0⟩
        settings := ⟨255, 80, 255, 255, 255, 255⟩
        display_dirty := false }
    s_cal_fl := DEFAULT_MOTOR_CAL
    s_cal_fr := DEFAULT_MOTOR_CAL
    s_cal_bl := DEFAULT_MOTOR_CAL
    s_cal_br := DEFAULT_MOTOR_CAL
    out_fl := motor_out_stopped
    out_fr := motor_out_stopped
    out_bl := motor_out_stopped
    out_br := motor_out_stopped
    s_volume := DEFAULT_VOLUME
    buzzer_log := []
    s_motor_test_id := 0
    s_motor_running := false
    display_brightness := 255
    nvs_writable := true
    nvs_saved := none }

/-- A robot driving forward at full speed in the given mode with both peers
connected (last frames at tick 1000); the stored joystick frame has the
given throttle, steering and emergency button. -/
def driving_system (mode : system_state_t) (throttle steering : Int) (btn1 : Bool) : system_t :=
  let m : motor_out_t := ⟨true, false, 255⟩
  { boot_system with
    g_ctx := { boot_system.g_ctx with
      current_state := mode
      menu_index := 2
      joystick_connected := true
      voice_connected := true
      last_joystick_time := 1000
      last_voice_time := 1000
      joystick := ⟨throttle, steering, 0, 0, btn1, false, 0⟩
      voice_cmd := 1
      voice_speed := 200
      movement := movement_type_t.MOVEMENT_FORWARD
      motor_speeds := ⟨255, 255, 255, 255⟩ }
    out_fl := m
    out_fr := m
    out_bl := m
    out_br := m }

/-! ## Specification-side definitions -/

/-- The joystick peer is connected and silent for more than the timeout. -/
def joystick_timed_out (now : Nat) (s : system_t) : Prop :=
  s.g_ctx.joystick_connected = true ∧ u32_sub now s.g_ctx.last_joystick_time > 500

/-- The voice peer is connected and silent for more than the timeout. -/
def voice_timed_out (now : Nat) (s : system_t) : Prop :=
  s.g_ctx.voice_connected = true ∧ u32_sub now s.g_ctx.last_voice_time > 500

instance (now : Nat) (s : system_t) : Decidable (joystick_timed_out now s) := by
  unfold joystick_timed_out
  infer_instance

instance (now : Nat) (s : system_t) : Decidable (voice_timed_out now s) := by
  unfold voice_timed_out
  infer_instance

/-- A peer timed out and it is the one the current mode needs. -/
def required_peer_timed_out (now : Nat) (s : system_t) : Prop :=
  (joystick_timed_out now s ∧
      (s.g_ctx.current_state = system_state_t.STATE_MODE_MECANUM ∨
        s.g_ctx.current_state = system_state_t.STATE_MODE_RC)) ∨
    (voice_timed_out now s ∧ s.g_ctx.current_state = system_state_t.STATE_MODE_VOICE)

instance (now : Nat) (s : system_t) : Decidable (required_peer_timed_out now s) := by
  unfold required_peer_timed_out
  infer_instance

/-- Per-intent wheel sign pattern `(fl, fr, bl, br)` of the mecanum table in
the specification; the two differential-turn intents, which the table does
not list, carry the all-zero pattern. -/
def mecanum_sign_pattern : movement_type_t → Int × Int × Int × Int
  | movement_type_t.MOVEMENT_FORWARD => (1, 1, 1, 1)
  | movement_type_t.MOVEMENT_BACKWARD => (-1, -1, -1, -1)
  | movement_type_t.MOVEMENT_STRAFE_LEFT => (-1, 1, 1, -1)
  | movement_type_t.MOVEMENT_STRAFE_RIGHT => (1, -1, -1, 1)
  | movement_type_t.MOVEMENT_ROTATE_LEFT => (-1, 1, -1, 1)
  | movement_type_t.MOVEMENT_ROTATE_RIGHT => (1, -1, 1, -1)
  | _ => (0, 0, 0, 0)

/-- Wheel-speed magnitude of the specification: `min(|t|, 255)` when the
deadzoned throttle `t` is non-zero, `min(|s|, 255)` of the deadzoned
steering otherwise. -/
def mecanum_magnitude (throttle steering : Int) : Int :=
  if deadzoned throttle ≠ 0 then min (c_abs (deadzoned throttle)) 255
  else min (c_abs (deadzoned steering)) 255

/-- Decision procedure of the specification for the mecanum intent with the
emergency button clear, on the deadzoned axes; the diagonal ratio
`|s| / (|t| + 1)` is compared with `0.6` as exact rationals. -/
def mecanum_intent_spec (throttle steering : Int) : movement_type_t :=
  if deadzoned throttle = 0 ∧ deadzoned steering = 0 then movement_type_t.MOVEMENT_STOP
  else if deadzoned throttle = 0 then
    (if deadzoned steering > 0 then movement_type_t.MOVEMENT_STRAFE_RIGHT
     else movement_type_t.MOVEMENT_STRAFE_LEFT)
  else if ((c_abs (deadzoned steering) : Int) : ℚ) / (((c_abs (deadzoned throttle) : Int) : ℚ) + 1)
      > 3 / 5 then
    (if steering > 0 then movement_type_t.MOVEMENT_ROTATE_RIGHT
     else movement_type_t.MOVEMENT_ROTATE_LEFT)
  else if deadzoned throttle > 0 then movement_type_t.MOVEMENT_FORWARD
  else movement_type_t.MOVEMENT_BACKWARD

/-- Inputs on the edge of the deadzone as the mecanum interpreter sees it:
throttle of magnitude exactly 25, or throttle inside the deadzone with
steering of magnitude exactly 25. -/
def mecanum_deadzone_edge (throttle steering : Int) : Prop :=
  c_abs throttle = 25 ∨ (c_abs throttle < 25 ∧ c_abs steering = 25)

instance (t s : Int) : Decidable (mecanum_deadzone_edge t s) := by
  unfold mecanum_deadzone_edge
  infer_instance

/-- Decision table of the specification for the RC intent with the
emergency button clear, on the deadzoned axes. -/
def rc_intent_spec (throttle steering : Int) : movement_type_t :=
  if deadzoned throttle = 0 ∧ deadzoned steering = 0 then movement_type_t.MOVEMENT_STOP
  else if deadzoned steering = 0 then
    (if deadzoned throttle > 0 then movement_type_t.MOVEMENT_FORWARD
     else movement_type_t.MOVEMENT_BACKWARD)
  else if deadzoned throttle = 0 then
    (if deadzoned steering > 0 then movement_type_t.MOVEMENT_ROTATE_RIGHT
     else movement_type_t.MOVEMENT_ROTATE_LEFT)
  else if deadzoned throttle > 0 then
    (if deadzoned steering > 0 then movement_type_t.MOVEMENT_TURN_RIGHT
     else movement_type_t.MOVEMENT_TURN_LEFT)
  else
    (if deadzoned steering > 0 then movement_type_t.MOVEMENT_TURN_LEFT
     else movement_type_t.MOVEMENT_TURN_RIGHT)

/-- Inputs on the edge of the deadzone as the RC interpreter sees it: an
axis of magnitude exactly 25. -/
def rc_deadzone_edge (throttle steering : Int) : Prop :=
  c_abs throttle = 25 ∨ c_abs steering = 25

instance (t s : Int) : Decidable (rc_deadzone_edge t s) := by
  unfold rc_deadzone_edge
  infer_instance

/-! ## Specification-side definitions for the voice policy -/

/-- Command table of the specification for the voice policy: 0 stop,
1 forward, 2 backward, 3 rotate left, 4 rotate right, any other byte stop. -/
def voice_intent_spec (c : Nat) : movement_type_t :=
  if c = 1 then movement_type_t.MOVEMENT_FORWARD
  else if c = 2 then movement_type_t.MOVEMENT_BACKWARD
  else if c = 3 then movement_type_t.MOVEMENT_ROTATE_LEFT
  else if c = 4 then movement_type_t.MOVEMENT_ROTATE_RIGHT
  else movement_type_t.MOVEMENT_STOP

/-- Wheel speeds of the specification for a voice intent at speed `v`. -/
def voice_speeds_spec (m : movement_type_t) (v : Int) : motor_speeds_t :=
  match m with
  | movement_type_t.MOVEMENT_FORWARD => ⟨v, v, v, v⟩
  | movement_type_t.MOVEMENT_BACKWARD => ⟨-v, -v, -v, -v⟩
  | movement_type_t.MOVEMENT_ROTATE_LEFT => ⟨-v, v, -v, v⟩
  | movement_type_t.MOVEMENT_ROTATE_RIGHT => ⟨v, -v, v, -v⟩
  | _ => ⟨0, 0, 0, 0⟩

/-- A machine in voice mode holding the given command byte and speed. -/
def voice_system (cmd speed : Nat) : system_t :=
  { driving_system system_state_t.STATE_MODE_VOICE 0 0 false with
    g_ctx := { (driving_system system_state_t.STATE_MODE_VOICE 0 0 false).g_ctx with
      voice_cmd := cmd
      voice_speed := speed } }

/-! ## drivers/buttons.c -/

/-- Tracking record of one button (`button_state_t`). -/
structure button_state_t where
  last_state : Bool
  current_state : Bool
  last_press_time : Nat
  press_start_time : Nat
  waiting_for_double : Bool
  long_press_fired : Bool
deriving DecidableEq, Repr

/-- The three file-static records `s_btn_up`, `s_btn_down`, `s_btn_ok`. -/
structure buttons_t where
  s_btn_up : button_state_t
  s_btn_down : button_state_t
  s_btn_ok : button_state_t
deriving DecidableEq, Repr

/-- What one call of `buttons_poll` reads from its environment: the tick
value `xTaskGetTickCount() * portTICK_PERIOD_MS` and the three levels
returned by `read_button` (true = pressed, the active-low polarity is
already resolved). -/
structure poll_input_t where
  now : Nat
  up_pressed : Bool
  down_pressed : Bool
  ok_pressed : Bool
deriving DecidableEq, Repr

/-- One call of `buttons_poll`: the new static records and the returned
event.  The local variable `result` is threaded through the three blocks in
source order; each assignment overwrites the previous value. -/
def buttons_poll (i : poll_input_t) (b : buttons_t) : buttons_t × button_event_t :=
  let now := i.now
  let result0 := button_event_t.BTN_EVT_NONE
  -- UP BUTTON
  let r1 : button_state_t × button_event_t :=
    if i.up_pressed = true ∧ b.s_btn_up.current_state = false then
      if u32_sub now b.s_btn_up.last_press_time > DEBOUNCE_MS then
        ({ b.s_btn_up with press_start_time := now }, button_event_t.BTN_EVT_UP_PRESSED)
      else (b.s_btn_up, result0)
    else (b.s_btn_up, result0)
  let up : button_state_t :=
    { r1.1 with
      last_state := r1.1.current_state
      current_state := i.up_pressed
      last_press_time := if i.up_pressed = true then now else r1.1.last_press_time }
  -- DOWN BUTTON
  let r2 : button_state_t × button_event_t :=
    if i.down_pressed = true ∧ b.s_btn_down.current_state = false then
      if u32_sub now b.s_btn_down.last_press_time > DEBOUNCE_MS then
        ({ b.s_btn_down with press_start_time := now }, button_event_t.BTN_EVT_DOWN_PRESSED)
      else (b.s_btn_down, r1.2)
    else (b.s_btn_down, r1.2)
  let down : button_state_t :=
    { r2.1 with
      last_state := r2.1.current_state
      current_state := i.down_pressed
      last_press_time := if i.down_pressed = true then now else r2.1.last_press_time }
  -- OK BUTTON (with double-click and long-press)
  let ok0 := b.s_btn_ok
  let r3 : button_state_t × button_event_t :=
    if i.ok_pressed = true ∧ ok0.current_state = false then
      if u32_sub now ok0.last_press_time > DEBOUNCE_MS then
        ({ ok0 with press_start_time := now, long_press_fired := false }, r2.2)
      else (ok0, r2.2)
    else if i.ok_pressed = true ∧ ok0.current_state = true then
      if ok0.long_press_fired = false ∧ u32_sub now ok0.press_start_time > LONG_PRESS_MS then
        ({ ok0 with long_press_fired := true, waiting_for_double := false },
          button_event_t.BTN_EVT_OK_LONG)
      else (ok0, r2.2)
    else if i.ok_pressed = false ∧ ok0.current_state = true then
      if ok0.long_press_fired = false then
        if ok0.waiting_for_double = true then
          ({ ok0 with waiting_for_double := false }, button_event_t.BTN_EVT_OK_DOUBLE)
        else ({ ok0 with waiting_for_double := true }, r2.2)
      else (ok0, r2.2)
    else (ok0, r2.2)
  -- Check for single click timeout
  let r4 : button_state_t × button_event_t :=
    if r3.1.waiting_for_double = true ∧ i.ok_pressed = false then
      if u32_sub now r3.1.last_press_time > DOUBLE_CLICK_MS then
        ({ r3.1 with waiting_for_double := false }, button_event_t.BTN_EVT_OK_SINGLE)
      else r3
    else r3
  let ok : button_state_t :=
    { r4.1 with
      last_state := r4.1.current_state
      current_state := i.ok_pressed
      last_press_time := if i.ok_pressed = true then now else r4.1.last_press_time }
  ({ s_btn_up := up, s_btn_down := down, s_btn_ok := ok }, r4.2)

/-- The static records after a sequence of calls of `buttons_poll` (the loop
of `button_task`). -/
def buttons_run (b : buttons_t) : List poll_input_t → buttons_t
  | [] => b
  | i :: rest => buttons_run (buttons_poll i b).1 rest

/-- The events returned by a sequence of calls of `buttons_poll`, in call
order. -/
def buttons_events (b : buttons_t) : List poll_input_t → List button_event_t
  | [] => []
  | i :: rest => (buttons_poll i b).2 :: buttons_events (buttons_poll i b).1 rest

/-- The all-zero record of a button at start-up (`= {0}`). -/
def button_state_zero : button_state_t := ⟨false, false, 0, 0, false, false⟩

/-- The three records at start-up. -/
def buttons_zero : buttons_t := ⟨button_state_zero, button_state_zero, button_state_zero⟩

/-! ### Blocks of `buttons_poll` named for the statements -/

/-- Press edge of a simple button (Up or Down) accepted by the debounce test
of `buttons_poll`: pressed now, not pressed at the previous call, and more
than `DEBOUNCE_MS` since `last_press_time`. -/
def simple_accepts (now : Nat) (pressed : Bool) (c : button_state_t) : Prop :=
  pressed = true ∧ c.current_state = false ∧ u32_sub now c.last_press_time > DEBOUNCE_MS

instance (now : Nat) (pressed : Bool) (c : button_state_t) :
    Decidable (simple_accepts now pressed c) := by
  unfold simple_accepts
  infer_instance

/-- Block of a simple button before the bookkeeping lines; `evt` is the event
the block assigns and `res` the incoming value of `result`. -/
def simple_block (evt res : button_event_t) (now : Nat) (pressed : Bool) (c : button_state_t) :
    button_state_t × button_event_t :=
  if pressed = true ∧ c.current_state = false then
    if u32_sub now c.last_press_time > DEBOUNCE_MS then ({ c with press_start_time := now }, evt)
    else (c, res)
  else (c, res)

/-- The three bookkeeping lines that close the block of every button. -/
def button_bookkeep (now : Nat) (pressed : Bool) (c : button_state_t) : button_state_t :=
  { c with
    last_state := c.current_state
    current_state := pressed
    last_press_time := if pressed = true then now else c.last_press_time }

/-- The Ok block with the single-click timeout check, before the bookkeeping
lines; `res` is the incoming value of `result`. -/
def ok_block (res : button_event_t) (now : Nat) (pressed : Bool) (c : button_state_t) :
    button_state_t × button_event_t :=
  let r3 : button_state_t × button_event_t :=
    if pressed = true ∧ c.current_state = false then
      if u32_sub now c.last_press_time > DEBOUNCE_MS then
        ({ c with press_start_time := now, long_press_fired := false }, res)
      else (c, res)
    else if pressed = true ∧ c.current_state = true then
      if c.long_press_fired = false ∧ u32_sub now c.press_start_time > LONG_PRESS_MS then
        ({ c with long_press_fired := true, waiting_for_double := false },
          button_event_t.BTN_EVT_OK_LONG)
      else (c, res)
    else if pressed = false ∧ c.current_state = true then
      if c.long_press_fired = false then
        if c.waiting_for_double = true then
          ({ c with waiting_for_double := false }, button_event_t.BTN_EVT_OK_DOUBLE)
        else ({ c with waiting_for_double := true }, res)
      else (c, res)
    else (c, res)
  if r3.1.waiting_for_double = true ∧ pressed = false then
    if u32_sub now r3.1.last_press_time > DOUBLE_CLICK_MS then
      ({ r3.1 with waiting_for_double := false }, button_event_t.BTN_EVT_OK_SINGLE)
    else r3
  else r3

/-- Event the Ok block of one call leaves in `result`, `BTN_EVT_NONE` when it
assigns nothing. -/
def ok_event (now : Nat) (pressed : Bool) (c : button_state_t) : button_event_t :=
  (ok_block button_event_t.BTN_EVT_NONE now pressed c).2

/-- Record of the Ok button after one call. -/
def ok_next (now : Nat) (pressed : Bool) (c : button_state_t) : button_state_t :=
  button_bookkeep now pressed (ok_block button_event_t.BTN_EVT_NONE now pressed c).1

/-- Polls at a 10 ms cadence starting at tick `t`, with Up and Down released
and the Ok level constant: `n` calls. -/
def ok_polls (t : Nat) (pressed : Bool) : Nat → List poll_input_t
  | 0 => []
  | n + 1 => ⟨t, false, false, pressed⟩ :: ok_polls (t + 10) pressed n

/-- Press, release, press, release of Ok polled every 10 ms from tick `t0`:
`n1` polls pressed, `g` polls released, `n2` polls pressed, `m` polls
released. -/
def double_click_trace (t0 n1 g n2 m : Nat) : List poll_input_t :=
  ok_polls t0 true n1 ++ (ok_polls (t0 + 10 * n1) false g ++
    (ok_polls (t0 + 10 * (n1 + g)) true n2 ++ ok_polls (t0 + 10 * (n1 + g + n2)) false m))

/-- Raw level of a button at the call before the next one: the level read by
the last call of the trace, or the recorded level when the trace is empty.
`sel` picks the button out of the inputs of a call. -/
def level_before (sel : poll_input_t → Bool) : Bool → List poll_input_t → Bool
  | init, [] => init
  | _, q :: rest => level_before sel (sel q) rest

/-- Tick of the last call of the trace that read the button pressed, or the
recorded tick when no call of the trace did. -/
def last_seen_pressed (sel : poll_input_t → Bool) : Nat → List poll_input_t → Nat
  | init, [] => init
  | init, q :: rest => last_seen_pressed sel (if sel q = true then q.now else init) rest

/-! ## comm/espnow_handler.c -/

/-- Size in bytes of `joystick_data_t` on the target: four 16-bit fields,
two booleans and one byte, rounded up to the 2-byte alignment of the
structure (the structure is not packed). -/
def sizeof_joystick_data_t : Nat := 12

/-- Byte `i` of a received frame; a frame is a list of bytes, and a position
past the end reads as 0 (never reached by `on_data_recv`, which checks the
length first). -/
def frame_byte (data : List Nat) (i : Nat) : Nat := data.getD i 0 % 256

/-- Little-endian signed 16-bit field at offset `i` of a frame. -/
def frame_int16 (data : List Nat) (i : Nat) : Int :=
  int16_of ((frame_byte data i : Int) + 256 * (frame_byte data (i + 1) : Int))

/-- Result of the `memcpy` of a frame over `g_ctx.joystick`: the fields at
their offsets in the structure (0, 2, 4, 6, 8, 9, 10); a boolean reads as true
when its byte is not zero; the padding byte at offset 11 is not part of any
field. -/
def joystick_of_frame (data : List Nat) : joystick_data_t :=
  { throttle := frame_int16 data 0
    steering := frame_int16 data 2
    aux_x := frame_int16 data 4
    aux_y := frame_int16 data 6
    btn1 := decide (frame_byte data 8 ≠ 0)
    btn2 := decide (frame_byte data 9 ≠ 0)
    mode := frame_byte data 10 }

/-- Receive callback (`on_data_recv`) for a frame `data` whose length is the
`len` of the callback, run while the tick-derived time is `now`.  Log output
is not modelled. -/
def on_data_recv (now : Nat) (data : List Nat) (s : system_t) : system_t :=
  if data.length = sizeof_joystick_data_t then
    let g1 := { s.g_ctx with
      joystick := joystick_of_frame data
      last_joystick_time := now }
    let g2 :=
      if ¬ g1.joystick_connected then
        { g1 with joystick_connected := true, display_dirty := true }
      else g1
    { s with g_ctx := g2 }
  else if data.length = 1 ∨ data.length = 2 then
    let g1 := { s.g_ctx with
      voice_cmd := frame_byte data 0
      voice_speed := if data.length = 2 then frame_byte data 1 else VOICE_DEFAULT_SPEED
      last_voice_time := now }
    let g2 :=
      if ¬ g1.voice_connected then
        { g1 with voice_connected := true, display_dirty := true }
      else g1
    { s with g_ctx := g2 }
  else s

/-! ## More observations and test inputs -/

/-- The peer the current mode needs is marked connected: the joystick in
the mecanum and RC modes, the voice peer in the voice mode; no peer counts in
the main menu and the settings mode. -/
def required_peer_connected (s : system_t) : Prop :=
  ((s.g_ctx.current_state = system_state_t.STATE_MODE_MECANUM ∨
      s.g_ctx.current_state = system_state_t.STATE_MODE_RC) ∧ s.g_ctx.joystick_connected = true) ∨
    (s.g_ctx.current_state = system_state_t.STATE_MODE_VOICE ∧ s.g_ctx.voice_connected = true)

instance (s : system_t) : Decidable (required_peer_connected s) := by
  unfold required_peer_connected
  infer_instance

/-- A machine in the settings mode, inside the motor-calibration sub-menu
with the settings cursor on the last wheel and the menu cursor at 3. -/
def settings_system : system_t :=
  { boot_system with
    g_ctx := { boot_system.g_ctx with
      current_state := system_state_t.STATE_MODE_SETTINGS
      settings_menu := settings_menu_t.SETTINGS_MOTOR_CAL
      menu_index := 3
      settings_index := 3 } }

/-- The machine `s` right after an emergency stop was recorded: movement
emergency, stored wheel speeds zero. -/
def with_emergency (s : system_t) : system_t :=
  { s with g_ctx := { s.g_ctx with
      movement := movement_type_t.MOVEMENT_EMERGENCY
      motor_speeds := ⟨0, 0, 0, 0⟩ } }

/-- A machine with both peers marked disconnected, nothing pending on the
display, and the last frames at tick 1000. -/
def disconnected_system : system_t :=
  { driving_system system_state_t.STATE_MAIN_MENU 0 0 false with
    g_ctx := { (driving_system system_state_t.STATE_MAIN_MENU 0 0 false).g_ctx with
      joystick_connected := false
      voice_connected := false
      display_dirty := false } }

/-- One click of Ok polled every 10 ms from tick `t0`: `n1` polls pressed,
then `m` polls released. -/
def single_click_trace (t0 n1 m : Nat) : List poll_input_t :=
  ok_polls t0 true n1 ++ ok_polls (t0 + 10 * n1) false m

/-! ## drivers/nvs_storage.c : load, and the start-up sequence of main.c -/

def DEFAULT_BRIGHTNESS : Nat := 255

/-- What `nvs_storage_load` finds in non-volatile storage: whether the
namespace opens, and for each key the stored byte (`none` when `nvs_get_u8`
does not return `ESP_OK`). -/
structure nvs_flash_t where
  namespace_found : Bool
  brightness : Option Nat
  volume : Option Nat
  cal_fl : Option Nat
  cal_fr : Option Nat
  cal_bl : Option Nat
  cal_br : Option Nat
deriving DecidableEq, Repr

/-- Fill a settings record from non-volatile storage (`nvs_storage_load`):
all defaults when the namespace cannot be opened, otherwise each stored byte
or the default of its key. -/
def nvs_storage_load (flash : nvs_flash_t) : settings_data_t :=
  if ¬ flash.namespace_found then
    ⟨DEFAULT_BRIGHTNESS, DEFAULT_VOLUME, DEFAULT_MOTOR_CAL, DEFAULT_MOTOR_CAL, DEFAULT_MOTOR_CAL,
      DEFAULT_MOTOR_CAL⟩
  else
    { brightness := flash.brightness.getD DEFAULT_BRIGHTNESS
      volume := flash.volume.getD DEFAULT_VOLUME
      motor_cal_fl := flash.cal_fl.getD DEFAULT_MOTOR_CAL
      motor_cal_fr := flash.cal_fr.getD DEFAULT_MOTOR_CAL
      motor_cal_bl := flash.cal_bl.getD DEFAULT_MOTOR_CAL
      motor_cal_br := flash.cal_br.getD DEFAULT_MOTOR_CAL }

/-- Storage content after a successful `nvs_storage_save` of the record:
the namespace exists and every key holds its byte. -/
def nvs_flash_of (r : settings_data_t) : nvs_flash_t :=
  { namespace_found := true
    brightness := some r.brightness
    volume := some r.volume
    cal_fl := some r.motor_cal_fl
    cal_fr := some r.motor_cal_fr
    cal_bl := some r.motor_cal_bl
    cal_br := some r.motor_cal_br }

/-- Machine at reset, before `app_main` runs: `g_ctx = {0}`, the static
variables at their initialisers (`s_cal_* = DEFAULT_MOTOR_CAL`,
`s_volume = DEFAULT_VOLUME`, `s_motor_test_id = 0`, `s_motor_running = false`),
the motor pins and duties low, no sound requested. -/
def power_on_system : system_t :=
  { g_ctx :=
      { current_state := system_state_t.STATE_MAIN_MENU
        settings_menu := settings_menu_t.SETTINGS_MAIN
        menu_index := 0
        settings_index := 0
        joystick_connected := false
        voice_connected := false
        last_joystick_time := 0
        last_voice_time := 0
        joystick := ⟨0, 0, 0, 0, false, false, 0⟩
        voice_cmd := 0
        voice_speed := 0
        movement := movement_type_t.MOVEMENT_STOP
        motor_speeds := ⟨0, 0, 0, 0⟩
        settings := ⟨0, 0, 0, 0, 0, 0⟩
        display_dirty := false }
    s_cal_fl := DEFAULT_MOTOR_CAL
    s_cal_fr := DEFAULT_MOTOR_CAL
    s_cal_bl := DEFAULT_MOTOR_CAL
    s_cal_br := DEFAULT_MOTOR_CAL
    out_fl := ⟨false, false, 0⟩
    out_fr := ⟨false, false, 0⟩
    out_bl := ⟨false, false, 0⟩
    out_br := ⟨false, false, 0⟩
    s_volume := DEFAULT_VOLUME
    buzzer_log := []
    s_motor_test_id := 0
    s_motor_running := false
    display_brightness := 0
    nvs_writable := true
    nvs_saved := none }

/-- Modelled from the spec: `display.c` is not among the sources (only
`display.h` is).  The spec places pixel-level display rendering outside the
core, as an I/O wrapper without algorithmic content, so `display_init` is
taken to change nothing the core keeps: not `g_ctx`, not the static
variables of the other drivers (which are private to their files). -/
def display_init (s : system_t) : system_t := s

/-- Modelled from the spec: `display_splash` of the absent `display.c`, taken
like `display_init` to draw only. -/
def display_splash (s : system_t) : system_t := s

/-- Call of `buzzer_startup()`: appended to the sound trace. -/
def buzzer_startup (s : system_t) : system_t :=
  { s with buzzer_log := s.buzzer_log ++ [buzzer_sound_t.BUZZER_STARTUP] }

/-- Motor driver set-up (`motor_init`): pin and PWM configuration, then
`motor_stop_all`. -/
def motor_init (s : system_t) : system_t := motor_stop_all s

/-- The initialisation sequence of `app_main` up to the creation of the
tasks: settings loaded into `g_ctx.settings`, `display_init`, `buttons_init`
and `buzzer_init` (pin and timer configuration only), `motor_init`,
`wifi_init` and `espnow_handler_init` (radio set-up and registration of the
receive callback), `fsm_init`, splash screen and start-up sound, redraw
flag. -/
def app_main_init (flash : nvs_flash_t) (s : system_t) : system_t :=
  let s1 := { s with g_ctx := { s.g_ctx with settings := nvs_storage_load flash } }
  let s2 := display_init s1
  let s3 := motor_init s2
  let s4 := fsm_init s3
  let s5 := buzzer_startup (display_splash s4)
  { s5 with g_ctx := { s5.g_ctx with display_dirty := true } }

/-! ## main.c : the button task -/

/-- Button events handled one after the other by `fsm_process_button`, as
`button_task` does with the results of `buttons_poll`. -/
def fsm_run (s : system_t) : List button_event_t → system_t
  | [] => s
  | e :: rest => fsm_run (fsm_process_button e s) rest

/-! ## Left-right mirror -/

/-- Movement with left and right exchanged. -/
def mirror_movement : movement_type_t → movement_type_t
  | movement_type_t.MOVEMENT_STRAFE_LEFT => movement_type_t.MOVEMENT_STRAFE_RIGHT
  | movement_type_t.MOVEMENT_STRAFE_RIGHT => movement_type_t.MOVEMENT_STRAFE_LEFT
  | movement_type_t.MOVEMENT_ROTATE_LEFT => movement_type_t.MOVEMENT_ROTATE_RIGHT
  | movement_type_t.MOVEMENT_ROTATE_RIGHT => movement_type_t.MOVEMENT_ROTATE_LEFT
  | movement_type_t.MOVEMENT_TURN_LEFT => movement_type_t.MOVEMENT_TURN_RIGHT
  | movement_type_t.MOVEMENT_TURN_RIGHT => movement_type_t.MOVEMENT_TURN_LEFT
  | m => m

/-- Wheel speeds with the left and right wheels exchanged:
(fl, fr, bl, br) becomes (fr, fl, br, bl). -/
def mirror_speeds (v : motor_speeds_t) : motor_speeds_t := ⟨v.fr, v.fl, v.br, v.bl⟩

/-- The machine `s` holding a joystick sample with the given throttle and
steering and the emergency button clear. -/
def with_axes (throttle steering : Int) (s : system_t) : system_t :=
  { s with g_ctx := { s.g_ctx with
      joystick := { s.g_ctx.joystick with
        throttle := throttle
        steering := steering
        btn1 := false } } }

/-! ## Auxiliary lemmas -/

theorem set_motor_zero : set_motor 0 255 = motor_out_stopped := by decide

theorem int16_of_small (x : Int) (h : -32768 ≤ x ∧ x < 32768) : int16_of x = x := by
  unfold int16_of
  omega

theorem c_abs_deadzoned_bounds (v : Int) (h : -255 ≤ v ∧ v ≤ 255) :
    0 ≤ c_abs (deadzoned v) ∧ c_abs (deadzoned v) ≤ 255 ∧
      (c_abs (deadzoned v) = 0 ↔ deadzoned v = 0) := by
  unfold deadzoned c_abs
  split_ifs <;> omega

theorem deadzoned_bounds (v : Int) (h : -255 ≤ v ∧ v ≤ 255) :
    -255 ≤ deadzoned v ∧ deadzoned v ≤ 255 := by
  unfold deadzoned
  split_ifs <;> omega

theorem mecanum_magnitude_bounds (t st : Int) (ht : -255 ≤ t ∧ t ≤ 255) (hs : -255 ≤ st ∧ st ≤ 255) :
    0 ≤ mecanum_magnitude t st ∧ mecanum_magnitude t st ≤ 255 := by
  have h1 := c_abs_deadzoned_bounds t ht
  have h2 := c_abs_deadzoned_bounds st hs
  unfold mecanum_magnitude
  split_ifs <;> omega

theorem axis_regimes (v : Int) :
    (deadzoned v = 0 ∧ c_abs (deadzoned v) = 0 ∧ c_abs v ≠ 25 ∧ c_abs v < 25) ∨
    (0 < v ∧ deadzoned v = 25 ∧ c_abs (deadzoned v) = 25 ∧ c_abs v = 25) ∨
    (¬ 0 < v ∧ deadzoned v = -25 ∧ c_abs (deadzoned v) = 25 ∧ c_abs v = 25) ∨
    (25 < v ∧ 0 < v ∧ v ≠ 0 ∧ deadzoned v = v ∧ c_abs (deadzoned v) = v ∧ c_abs v ≠ 25 ∧
      ¬ c_abs v < 25) ∨
    (v < -25 ∧ ¬ 0 < v ∧ v ≠ 0 ∧ 25 < -v ∧ deadzoned v = v ∧ c_abs (deadzoned v) = -v ∧
      c_abs v ≠ 25 ∧ ¬ c_abs v < 25) := by
  unfold deadzoned c_abs
  split_ifs <;> omega

theorem mode_mecanum_process_movement (s : system_t) :
    (mode_mecanum_process s).g_ctx.movement
      = interpret_mecanum s.g_ctx s.g_ctx.joystick.throttle s.g_ctx.joystick.steering := by
  unfold mode_mecanum_process
  by_cases h : interpret_mecanum s.g_ctx s.g_ctx.joystick.throttle s.g_ctx.joystick.steering
      = s.g_ctx.movement
  · simp [h]
  · simp [h]

theorem mode_mecanum_process_speeds (s : system_t) :
    (mode_mecanum_process s).g_ctx.motor_speeds
      = calculate_mecanum_speeds
          { s.g_ctx with movement :=
              interpret_mecanum s.g_ctx s.g_ctx.joystick.throttle s.g_ctx.joystick.steering }
          s.g_ctx.joystick.throttle s.g_ctx.joystick.steering := by
  unfold mode_mecanum_process
  by_cases h : interpret_mecanum s.g_ctx s.g_ctx.joystick.throttle s.g_ctx.joystick.steering
      = s.g_ctx.movement
  · simp [h, calculate_mecanum_speeds]
  · simp [h, calculate_mecanum_speeds]

theorem mode_rc_process_movement (s : system_t) :
    (mode_rc_process s).g_ctx.movement
      = interpret_rc s.g_ctx s.g_ctx.joystick.throttle s.g_ctx.joystick.steering := by
  unfold mode_rc_process
  by_cases h : interpret_rc s.g_ctx s.g_ctx.joystick.throttle s.g_ctx.joystick.steering
      = s.g_ctx.movement
  · simp [h]
  · simp [h]

theorem mode_rc_process_speeds (s : system_t) :
    (mode_rc_process s).g_ctx.motor_speeds
      = calculate_rc_speeds
          { s.g_ctx with movement :=
              interpret_rc s.g_ctx s.g_ctx.joystick.throttle s.g_ctx.joystick.steering }
          s.g_ctx.joystick.throttle s.g_ctx.joystick.steering := by
  unfold mode_rc_process
  by_cases h : interpret_rc s.g_ctx s.g_ctx.joystick.throttle s.g_ctx.joystick.steering
      = s.g_ctx.movement
  · simp [h, calculate_rc_speeds]
  · simp [h, calculate_rc_speeds]

theorem calculate_mecanum_speeds_in_range (g : system_context_t) (t st : Int)
    (ht : -255 ≤ t ∧ t ≤ 255) (hs : -255 ≤ st ∧ st ≤ 255) :
    calculate_mecanum_speeds g t st =
      ⟨mecanum_magnitude t st * (mecanum_sign_pattern g.movement).1,
        mecanum_magnitude t st * (mecanum_sign_pattern g.movement).2.1,
        mecanum_magnitude t st * (mecanum_sign_pattern g.movement).2.2.1,
        mecanum_magnitude t st * (mecanum_sign_pattern g.movement).2.2.2⟩ := by
  have h1 := c_abs_deadzoned_bounds t ht
  have h2 := c_abs_deadzoned_bounds st hs
  have hb := mecanum_magnitude_bounds t st ht hs
  have e1 : int16_of (c_abs (deadzoned t)) = c_abs (deadzoned t) := int16_of_small _ (by omega)
  have e2 : int16_of (c_abs (deadzoned st)) = c_abs (deadzoned st) := int16_of_small _ (by omega)
  have hspeed : (if (if int16_of (c_abs (deadzoned t)) = 0 then int16_of (c_abs (deadzoned st))
        else int16_of (c_abs (deadzoned t))) > MAX_SPEED then MAX_SPEED
      else (if int16_of (c_abs (deadzoned t)) = 0 then int16_of (c_abs (deadzoned st))
        else int16_of (c_abs (deadzoned t)))) = mecanum_magnitude t st := by
    rw [e1, e2]
    unfold mecanum_magnitude MAX_SPEED
    split_ifs <;> omega
  have hneg : int16_of (-mecanum_magnitude t st) = -mecanum_magnitude t st :=
    int16_of_small _ (by omega)
  have hd : ∀ v : Int, (if c_abs v < DEADZONE then 0 else v) = deadzoned v := fun v => rfl
  unfold calculate_mecanum_speeds
  simp only [hd, hspeed, hneg]
  cases g.movement <;> simp [mecanum_sign_pattern]

/-! ### Single-precision ratio test -/

theorem f32_norm_scale_spec (n d : Nat) :
    ∀ fuel k : Nat, 2 ^ 23 * d ≤ n * 2 ^ (k + fuel) →
      2 ^ 23 * d ≤ n * 2 ^ (f32_norm_scale n d fuel k) := by
  intro fuel
  induction fuel with
  | zero => intro k h; simpa [f32_norm_scale] using h
  | succ f ih =>
    intro k h
    unfold f32_norm_scale
    split_ifs with hk
    · exact hk
    · apply ih
      have : k + 1 + f = k + (f + 1) := by omega
      rw [this]
      exact h

theorem round_half_even_error (N d : Nat) (hd : 0 < d) :
    2 * (round_half_even N d * d) ≤ 2 * N + d ∧ 2 * N ≤ 2 * (round_half_even N d * d) + d := by
  have hN : d * (N / d) + N % d = N := Nat.div_add_mod N d
  have hr : N % d < d := Nat.mod_lt N hd
  have hc : N / d * d = d * (N / d) := Nat.mul_comm _ _
  have hc1 : (N / d + 1) * d = d * (N / d) + d := by rw [Nat.add_mul, hc]; omega
  unfold round_half_even
  simp only []
  split_ifs <;> simp only [hc, hc1] <;> omega

theorem f32_ratio_gt_iff (n d : Nat) (hd : 0 < d) (hd2 : d ≤ 32769) :
    float32.gt (float32.div (float32.of_nat n) (float32.of_nat d)) DIAGONAL_RATIO = true ↔
      3 * d < 5 * n := by
  unfold float32.gt float32.div float32.of_nat DIAGONAL_RATIO
  simp only [pow_zero, mul_one, decide_eq_true_eq]
  by_cases hn : n = 0
  · simp [hn]
  · simp only [hn, if_false]
    have hnpos : 0 < n := Nat.pos_of_ne_zero hn
    have hnorm : 2 ^ 23 * d ≤ n * 2 ^ (f32_norm_scale n d 128 0) := by
      apply f32_norm_scale_spec
      have h1 : 2 ^ 23 * d ≤ 2 ^ 23 * 2 ^ 16 := Nat.mul_le_mul_left _ (by omega)
      have h2 : (2:Nat) ^ 23 * 2 ^ 16 ≤ 1 * 2 ^ (0 + 128) := by norm_num
      have h3 : 1 * 2 ^ (0 + 128) ≤ n * 2 ^ (0 + 128) := Nat.mul_le_mul_right _ hnpos
      omega
    generalize f32_norm_scale n d 128 0 = k at hnorm ⊢
    obtain ⟨hr1, hr2⟩ := round_half_even_error (n * 2 ^ k) d hd
    generalize round_half_even (n * 2 ^ k) d = m at hr1 hr2 ⊢
    by_cases hk : k ≤ 23
    · -- quotient at least 1: both sides hold
      have hP : 2 ^ k ≤ 2 ^ 23 := Nat.pow_le_pow_right (by norm_num) hk
      have hP0 : 0 < 2 ^ k := Nat.pow_pos (by norm_num)
      have h1 : n * 2 ^ k ≤ n * 2 ^ 23 := Nat.mul_le_mul_left _ hP
      have h2 : 2 ^ 23 * d ≤ n * 2 ^ 23 := le_trans hnorm h1
      have h3 : d ≤ n := by omega
      have h4 : 2 ^ 24 * d ≤ (2 * m + 1) * d := by
        have : (2 * m + 1) * d = 2 * (m * d) + d := by ring
        omega
      have h5 : 2 ^ 24 ≤ 2 * m + 1 := Nat.le_of_mul_le_mul_right h4 hd
      have h6 : 10066330 * 2 ^ k ≤ 10066330 * 2 ^ 23 := Nat.mul_le_mul_left _ hP
      constructor
      · intro _; omega
      · intro _; omega
    · -- quotient below 1: scale 2 ^ k = 2 ^ 24 * J
      have hk2 : k = 24 + (k - 24) := by omega
      generalize k - 24 = j at hk2
      subst hk2
      have hJ : 0 < 2 ^ j := Nat.pow_pos (by norm_num)
      have hPJ : (2:Nat) ^ (24 + j) = 2 ^ 24 * 2 ^ j := by rw [pow_add]
      rw [hPJ] at hr1 hr2 ⊢
      generalize 2 ^ j = J at hJ hr1 hr2 ⊢
      have hZ : J * d ≤ J * 32769 := Nat.mul_le_mul_left _ hd2
      have hnP : n * (2 ^ 24 * J) = 2 ^ 24 * (n * J) := by ring
      rw [hnP] at hr1 hr2
      have hgoal : 10066330 * (2 ^ 24 * J) < m * 2 ^ 24 ↔ 10066330 * J < m := by
        constructor <;> intro h <;> omega
      rw [hgoal]
      constructor
      · intro hm
        by_contra hcon
        have h5 : 5 * n ≤ 3 * d := by omega
        have h6 : 5 * (n * J) ≤ 3 * (J * d) := by
          have := Nat.mul_le_mul_right J h5
          have e1 : 5 * n * J = 5 * (n * J) := by ring
          have e2 : 3 * d * J = 3 * (J * d) := by ring
          omega
        have h7 : (10066330 * J + 1) * d ≤ m * d := Nat.mul_le_mul_right d hm
        have e3 : (10066330 * J + 1) * d = 10066330 * (J * d) + d := by ring
        omega
      · intro h5
        by_contra hcon
        have hm : m ≤ 10066330 * J := by omega
        have h7 : m * d ≤ 10066330 * J * d := Nat.mul_le_mul_right d hm
        have e3 : 10066330 * J * d = 10066330 * (J * d) := by ring
        have h6 : (3 * d + 1) * J ≤ 5 * n * J := Nat.mul_le_mul_right J h5
        have e1 : 5 * n * J = 5 * (n * J) := by ring
        have e2 : (3 * d + 1) * J = 3 * (J * d) + J := by ring
        omega

theorem rat_ratio_gt_iff (a b : Int) (hb : 0 ≤ b) :
    ((a : ℚ) / ((b : ℚ) + 1) > 3 / 5) ↔ 3 * (b + 1) < 5 * a := by
  have hpos : (0 : ℚ) < (b : ℚ) + 1 := by
    have : (0 : ℚ) ≤ (b : ℚ) := by exact_mod_cast hb
    linarith
  rw [gt_iff_lt, lt_div_iff₀ hpos]
  constructor
  · intro h
    have h2 : (3 : ℚ) * ((b : ℚ) + 1) < 5 * (a : ℚ) := by linarith
    exact_mod_cast h2
  · intro h
    have h2 : (3 : ℚ) * ((b : ℚ) + 1) < 5 * (a : ℚ) := by exact_mod_cast h
    linarith

theorem f32_ratio_gt_iff_int (a b : Int) (ha : 0 ≤ a) (hb : 0 ≤ b) (hb2 : b ≤ 32768) :
    float32.gt (float32.div (float32.of_nat a.toNat) (float32.of_nat (b + 1).toNat)) DIAGONAL_RATIO
        = true ↔ 3 * (b + 1) < 5 * a := by
  rw [f32_ratio_gt_iff a.toNat (b + 1).toNat (by omega) (by omega)]
  omega

/-! ### Intent interpreters against the decision procedures of the specification -/

theorem interpret_mecanum_unfold (g : system_context_t) (t st : Int) :
    interpret_mecanum g t st =
      if g.joystick.btn1 = true then movement_type_t.MOVEMENT_EMERGENCY
      else if deadzoned t = 0 ∧ deadzoned st = 0 then movement_type_t.MOVEMENT_STOP
      else if c_abs (deadzoned t) < 25 ∧ c_abs (deadzoned st) > 25 then
        (if deadzoned st > 0 then movement_type_t.MOVEMENT_STRAFE_RIGHT
         else movement_type_t.MOVEMENT_STRAFE_LEFT)
      else if c_abs (deadzoned t) > 25 then
        if float32.gt (float32.div (float32.of_nat (c_abs (deadzoned st)).toNat)
            (float32.of_nat (c_abs (deadzoned t) + 1).toNat)) DIAGONAL_RATIO = true then
          (if deadzoned st > 0 then movement_type_t.MOVEMENT_ROTATE_RIGHT
           else movement_type_t.MOVEMENT_ROTATE_LEFT)
        else
          (if deadzoned t > 0 then movement_type_t.MOVEMENT_FORWARD
           else movement_type_t.MOVEMENT_BACKWARD)
      else movement_type_t.MOVEMENT_STOP := rfl

theorem interpret_rc_unfold (g : system_context_t) (t st : Int) :
    interpret_rc g t st =
      if g.joystick.btn1 = true then movement_type_t.MOVEMENT_EMERGENCY
      else if deadzoned t = 0 ∧ deadzoned st = 0 then movement_type_t.MOVEMENT_STOP
      else if c_abs (deadzoned t) > 25 then
        if c_abs (deadzoned st) > 25 then
          if deadzoned t > 0 then
            (if deadzoned st > 0 then movement_type_t.MOVEMENT_TURN_RIGHT
             else movement_type_t.MOVEMENT_TURN_LEFT)
          else
            (if deadzoned st > 0 then movement_type_t.MOVEMENT_TURN_LEFT
             else movement_type_t.MOVEMENT_TURN_RIGHT)
        else
          (if deadzoned t > 0 then movement_type_t.MOVEMENT_FORWARD
           else movement_type_t.MOVEMENT_BACKWARD)
      else if c_abs (deadzoned st) > 25 then
        (if deadzoned st > 0 then movement_type_t.MOVEMENT_ROTATE_RIGHT
         else movement_type_t.MOVEMENT_ROTATE_LEFT)
      else movement_type_t.MOVEMENT_STOP := rfl

theorem interpret_mecanum_vs_spec (g : system_context_t) (t st : Int)
    (ht : -255 ≤ t ∧ t ≤ 255) (hs : -255 ≤ st ∧ st ≤ 255) (hbtn : g.joystick.btn1 = false) :
    (¬ mecanum_deadzone_edge t st → interpret_mecanum g t st = mecanum_intent_spec t st) ∧
    (mecanum_deadzone_edge t st →
      interpret_mecanum g t st = movement_type_t.MOVEMENT_STOP ∧
        mecanum_intent_spec t st ≠ movement_type_t.MOVEMENT_STOP) := by
  have hT := c_abs_deadzoned_bounds t ht
  have hS := c_abs_deadzoned_bounds st hs
  have hf := f32_ratio_gt_iff_int (c_abs (deadzoned st)) (c_abs (deadzoned t)) (by omega) (by omega)
    (by omega)
  have hq := rat_ratio_gt_iff (c_abs (deadzoned st)) (c_abs (deadzoned t)) (by omega)
  clear hT hS
  rw [interpret_mecanum_unfold]
  unfold mecanum_intent_spec mecanum_deadzone_edge
  simp only [hbtn, Bool.false_eq_true, if_false]
  by_cases hlin : 3 * (c_abs (deadzoned t) + 1) < 5 * c_abs (deadzoned st)
  · have hfv := hf.mpr hlin
    have hqv := hq.mpr hlin
    simp only [if_pos hfv, if_pos hqv]
    clear hf hq hfv hqv
    rcases axis_regimes t with ⟨e1, e2, e3, e8⟩ | ⟨e5, e1, e2, e3⟩ | ⟨e5, e1, e2, e3⟩ |
        ⟨e4, e5, e6, e1, e2, e3, e8⟩ | ⟨e4, e5, e6, e7, e1, e2, e3, e8⟩ <;>
    rcases axis_regimes st with ⟨f1, f2, f3, f8⟩ | ⟨f5, f1, f2, f3⟩ | ⟨f5, f1, f2, f3⟩ |
        ⟨f4, f5, f6, f1, f2, f3, f8⟩ | ⟨f4, f5, f6, f7, f1, f2, f3, f8⟩ <;>
    simp only [e2, f2] at hlin ⊢ <;>
    simp only [e1, f1] <;>
    simp [*] <;> omega
  · have hfv : ¬ _ := fun h => hlin (hf.mp h)
    have hqv : ¬ _ := fun h => hlin (hq.mp h)
    simp only [if_neg hfv, if_neg hqv]
    clear hf hq hfv hqv
    rcases axis_regimes t with ⟨e1, e2, e3, e8⟩ | ⟨e5, e1, e2, e3⟩ | ⟨e5, e1, e2, e3⟩ |
        ⟨e4, e5, e6, e1, e2, e3, e8⟩ | ⟨e4, e5, e6, e7, e1, e2, e3, e8⟩ <;>
    rcases axis_regimes st with ⟨f1, f2, f3, f8⟩ | ⟨f5, f1, f2, f3⟩ | ⟨f5, f1, f2, f3⟩ |
        ⟨f4, f5, f6, f1, f2, f3, f8⟩ | ⟨f4, f5, f6, f7, f1, f2, f3, f8⟩ <;>
    simp only [e2, f2] at hlin ⊢ <;>
    simp only [e1, f1] <;>
    simp [*] <;> omega

theorem interpret_rc_vs_spec (g : system_context_t) (t st : Int)
    (hbtn : g.joystick.btn1 = false) :
    (¬ rc_deadzone_edge t st → interpret_rc g t st = rc_intent_spec t st) ∧
    (rc_deadzone_edge t st → interpret_rc g t st ≠ rc_intent_spec t st) := by
  rw [interpret_rc_unfold]
  unfold rc_intent_spec rc_deadzone_edge
  simp only [hbtn, Bool.false_eq_true, if_false]
  rcases axis_regimes t with ⟨e1, e2, e3, e8⟩ | ⟨e5, e1, e2, e3⟩ | ⟨e5, e1, e2, e3⟩ |
      ⟨e4, e5, e6, e1, e2, e3, e8⟩ | ⟨e4, e5, e6, e7, e1, e2, e3, e8⟩ <;>
  rcases axis_regimes st with ⟨f1, f2, f3, f8⟩ | ⟨f5, f1, f2, f3⟩ | ⟨f5, f1, f2, f3⟩ |
      ⟨f4, f5, f6, f1, f2, f3, f8⟩ | ⟨f4, f5, f6, f7, f1, f2, f3, f8⟩ <;>
  simp only [e2, f2] <;>
  simp only [e1, f1] <;>
  simp [*]
theorem interpret_rc_not_emergency (g : system_context_t) (t st : Int)
    (hbtn : g.joystick.btn1 = false) :
    interpret_rc g t st ≠ movement_type_t.MOVEMENT_EMERGENCY := by
  rw [interpret_rc_unfold]
  simp only [hbtn, Bool.false_eq_true, if_false]
  split_ifs <;> simp

theorem interpret_mecanum_not_turn (g : system_context_t) (t st : Int) :
    interpret_mecanum g t st ≠ movement_type_t.MOVEMENT_TURN_LEFT ∧
      interpret_mecanum g t st ≠ movement_type_t.MOVEMENT_TURN_RIGHT := by
  rw [interpret_mecanum_unfold]
  split_ifs <;> simp

/-! ## Connection supervision and mode changes -/

/-- C1: in mecanum mode with the joystick marked connected and silent for
more than 500 ms, one iteration of the control loop clears the connection
flag, sets the movement to stop and leaves all four motor channels at zero,
whatever the stored joystick frame holds. -/
theorem joystick_loss_stops_mecanum (s : system_t) (now : Nat)
    (hmode : s.g_ctx.current_state = system_state_t.STATE_MODE_MECANUM)
    (hconn : s.g_ctx.joystick_connected = true)
    (hlate : u32_sub now s.g_ctx.last_joystick_time > 500) :
    (control_task_step now s).g_ctx.joystick_connected = false ∧
      (control_task_step now s).g_ctx.movement = movement_type_t.MOVEMENT_STOP ∧
      motors_stopped (control_task_step now s) := by
  have hupd : (fsm_update now s).g_ctx.current_state = system_state_t.STATE_MODE_MECANUM ∧
      (fsm_update now s).g_ctx.joystick_connected = false ∧
      (fsm_update now s).g_ctx.movement = movement_type_t.MOVEMENT_STOP ∧
      motors_stopped (fsm_update now s) := by
    simp only [fsm_update, hmode, hconn, hlate, CONNECTION_TIMEOUT_MS, motors_stopped, motor_stop_all,
      set_motor_zero]
    split_ifs <;> simp_all
  obtain ⟨h1, h2, h3, h4⟩ := hupd
  simp only [control_task_step, h1, h2]
  simp [h2, h3, h4]

/-- Witness for C1: full throttle with the emergency flag set, last frame at
tick 1000, control iteration at tick 1501. -/
theorem joystick_loss_stops_mecanum_witness :
    ((driving_system system_state_t.STATE_MODE_MECANUM 255 0 true).g_ctx.current_state
        = system_state_t.STATE_MODE_MECANUM ∧
      (driving_system system_state_t.STATE_MODE_MECANUM 255 0 true).g_ctx.joystick_connected = true ∧
      u32_sub 1501 (driving_system system_state_t.STATE_MODE_MECANUM 255 0 true).g_ctx.last_joystick_time
        > 500) ∧
    ((control_task_step 1501
          (driving_system system_state_t.STATE_MODE_MECANUM 255 0 true)).g_ctx.joystick_connected
        = false ∧
      (control_task_step 1501 (driving_system system_state_t.STATE_MODE_MECANUM 255 0 true)).g_ctx.movement
        = movement_type_t.MOVEMENT_STOP ∧
      motors_stopped
        (control_task_step 1501 (driving_system system_state_t.STATE_MODE_MECANUM 255 0 true))) :=
  ⟨by decide,
    joystick_loss_stops_mecanum (driving_system system_state_t.STATE_MODE_MECANUM 255 0 true) 1501
      (by decide) (by decide) (by decide)⟩

/-- C2: leaving any of the three driving modes for a different state leaves
all four motor channels at zero as soon as the state change returns, and the
machine is in the destination state. -/
theorem leaving_driving_mode_stops_motors (s : system_t) (d : system_state_t)
    (hdrive : is_driving_mode s.g_ctx.current_state) (hne : d ≠ s.g_ctx.current_state) :
    motors_stopped (fsm_change_state d s) ∧ (fsm_change_state d s).g_ctx.current_state = d := by
  have hne2 : ¬ s.g_ctx.current_state = d := fun h => hne h.symm
  unfold is_driving_mode at hdrive
  rcases hdrive with h | h | h <;>
    cases d <;>
    simp_all [fsm_change_state, buzzer_click, motors_stopped, motor_stop_all, set_motor_zero]

/-- Witness for C2: RC mode at full speed, destination settings. -/
theorem leaving_driving_mode_stops_motors_witness :
    (is_driving_mode (driving_system system_state_t.STATE_MODE_RC 255 0 false).g_ctx.current_state ∧
      system_state_t.STATE_MODE_SETTINGS ≠
        (driving_system system_state_t.STATE_MODE_RC 255 0 false).g_ctx.current_state) ∧
    (motors_stopped
        (fsm_change_state system_state_t.STATE_MODE_SETTINGS
          (driving_system system_state_t.STATE_MODE_RC 255 0 false)) ∧
      (fsm_change_state system_state_t.STATE_MODE_SETTINGS
          (driving_system system_state_t.STATE_MODE_RC 255 0 false)).g_ctx.current_state
        = system_state_t.STATE_MODE_SETTINGS) :=
  ⟨by decide,
    leaving_driving_mode_stops_motors (driving_system system_state_t.STATE_MODE_RC 255 0 false)
      system_state_t.STATE_MODE_SETTINGS (by decide) (by decide)⟩

/-- C3: after the supervision step each peer is connected exactly when it
was connected before and its silence does not exceed 500 ms, independently
for the two peers; the last-seen ticks and the state are untouched; the
movement becomes stop and the four motor channels go to zero when the peer
that timed out is the one the current mode needs, and otherwise movement
and motor channels are unchanged. -/
theorem fsm_update_timeout_rule (s : system_t) (now : Nat) :
    ((fsm_update now s).g_ctx.joystick_connected = true ↔
        (s.g_ctx.joystick_connected = true ∧ ¬ u32_sub now s.g_ctx.last_joystick_time > 500)) ∧
    ((fsm_update now s).g_ctx.voice_connected = true ↔
        (s.g_ctx.voice_connected = true ∧ ¬ u32_sub now s.g_ctx.last_voice_time > 500)) ∧
    (fsm_update now s).g_ctx.last_joystick_time = s.g_ctx.last_joystick_time ∧
    (fsm_update now s).g_ctx.last_voice_time = s.g_ctx.last_voice_time ∧
    (fsm_update now s).g_ctx.current_state = s.g_ctx.current_state ∧
    (if required_peer_timed_out now s then
      (fsm_update now s).g_ctx.movement = movement_type_t.MOVEMENT_STOP ∧
        motors_stopped (fsm_update now s)
    else
      (fsm_update now s).g_ctx.movement = s.g_ctx.movement ∧
        (fsm_update now s).out_fl = s.out_fl ∧ (fsm_update now s).out_fr = s.out_fr ∧
        (fsm_update now s).out_bl = s.out_bl ∧ (fsm_update now s).out_br = s.out_br) := by
  by_cases hj : s.g_ctx.joystick_connected = true ∧ u32_sub now s.g_ctx.last_joystick_time > 500 <;>
  by_cases hv : s.g_ctx.voice_connected = true ∧ u32_sub now s.g_ctx.last_voice_time > 500 <;>
  cases hs : s.g_ctx.current_state <;>
  simp [fsm_update, CONNECTION_TIMEOUT_MS, motors_stopped, motor_stop_all, set_motor_zero,
    required_peer_timed_out, joystick_timed_out, voice_timed_out, hj, hv, hs] <;>
  simp_all

/-! ## Emergency stop and return to the menu -/

/-- C4: with the emergency button of the joystick frame set, the mecanum
and the RC interpretation steps both yield the emergency movement and the
stored wheel speeds (0,0,0,0), for any throttle and steering. -/
theorem joystick_emergency_overrides (s : system_t) (hbtn : s.g_ctx.joystick.btn1 = true) :
    (mode_mecanum_process s).g_ctx.movement = movement_type_t.MOVEMENT_EMERGENCY ∧
      (mode_mecanum_process s).g_ctx.motor_speeds = ⟨0, 0, 0, 0⟩ ∧
      (mode_rc_process s).g_ctx.movement = movement_type_t.MOVEMENT_EMERGENCY ∧
      (mode_rc_process s).g_ctx.motor_speeds = ⟨0, 0, 0, 0⟩ := by
  have hm : interpret_mecanum s.g_ctx s.g_ctx.joystick.throttle s.g_ctx.joystick.steering
      = movement_type_t.MOVEMENT_EMERGENCY := by
    simp [interpret_mecanum, hbtn]
  have hr : interpret_rc s.g_ctx s.g_ctx.joystick.throttle s.g_ctx.joystick.steering
      = movement_type_t.MOVEMENT_EMERGENCY := by
    simp [interpret_rc, hbtn]
  refine ⟨?_, ?_, ?_, ?_⟩
  · rw [mode_mecanum_process_movement, hm]
  · rw [mode_mecanum_process_speeds, hm]
    simp [calculate_mecanum_speeds]
  · rw [mode_rc_process_movement, hr]
  · rw [mode_rc_process_speeds, hr]
    simp [calculate_rc_speeds]

/-- Witness for C4: extreme 16-bit axis values with the button set. -/
theorem joystick_emergency_overrides_witness :
    (driving_system system_state_t.STATE_MODE_MECANUM (-32768) 32767 true).g_ctx.joystick.btn1 = true ∧
    ((mode_mecanum_process
          (driving_system system_state_t.STATE_MODE_MECANUM (-32768) 32767 true)).g_ctx.movement
        = movement_type_t.MOVEMENT_EMERGENCY ∧
      (mode_mecanum_process
          (driving_system system_state_t.STATE_MODE_MECANUM (-32768) 32767 true)).g_ctx.motor_speeds
        = ⟨0, 0, 0, 0⟩ ∧
      (mode_rc_process
          (driving_system system_state_t.STATE_MODE_MECANUM (-32768) 32767 true)).g_ctx.movement
        = movement_type_t.MOVEMENT_EMERGENCY ∧
      (mode_rc_process
          (driving_system system_state_t.STATE_MODE_MECANUM (-32768) 32767 true)).g_ctx.motor_speeds
        = ⟨0, 0, 0, 0⟩) :=
  ⟨by decide,
    joystick_emergency_overrides (driving_system system_state_t.STATE_MODE_MECANUM (-32768) 32767 true)
      (by decide)⟩

/-- C5: in each driving mode a long press of Ok sets the movement to
emergency, puts all four motor channels at zero, appends exactly one error
sound to the buzzer trace and keeps the operating mode. -/
theorem long_press_emergency_stop (s : system_t) (hdrive : is_driving_mode s.g_ctx.current_state) :
    (fsm_process_button button_event_t.BTN_EVT_OK_LONG s).g_ctx.movement
        = movement_type_t.MOVEMENT_EMERGENCY ∧
      motors_stopped (fsm_process_button button_event_t.BTN_EVT_OK_LONG s) ∧
      (fsm_process_button button_event_t.BTN_EVT_OK_LONG s).buzzer_log
        = s.buzzer_log ++ [buzzer_sound_t.BUZZER_ERROR] ∧
      (fsm_process_button button_event_t.BTN_EVT_OK_LONG s).g_ctx.current_state
        = s.g_ctx.current_state := by
  unfold is_driving_mode at hdrive
  rcases hdrive with h | h | h <;>
    simp [fsm_process_button, h, mode_mecanum_handle_button, mode_rc_handle_button,
      mode_voice_handle_button, buzzer_error, motors_stopped, motor_stop_all, set_motor_zero]

/-- Witness for C5: voice mode at full speed. -/
theorem long_press_emergency_stop_witness :
    is_driving_mode (driving_system system_state_t.STATE_MODE_VOICE 255 0 false).g_ctx.current_state ∧
    ((fsm_process_button button_event_t.BTN_EVT_OK_LONG
          (driving_system system_state_t.STATE_MODE_VOICE 255 0 false)).g_ctx.movement
        = movement_type_t.MOVEMENT_EMERGENCY ∧
      motors_stopped (fsm_process_button button_event_t.BTN_EVT_OK_LONG
          (driving_system system_state_t.STATE_MODE_VOICE 255 0 false)) ∧
      (fsm_process_button button_event_t.BTN_EVT_OK_LONG
          (driving_system system_state_t.STATE_MODE_VOICE 255 0 false)).buzzer_log
        = (driving_system system_state_t.STATE_MODE_VOICE 255 0 false).buzzer_log
            ++ [buzzer_sound_t.BUZZER_ERROR] ∧
      (fsm_process_button button_event_t.BTN_EVT_OK_LONG
          (driving_system system_state_t.STATE_MODE_VOICE 255 0 false)).g_ctx.current_state
        = (driving_system system_state_t.STATE_MODE_VOICE 255 0 false).g_ctx.current_state) :=
  ⟨by decide,
    long_press_emergency_stop (driving_system system_state_t.STATE_MODE_VOICE 255 0 false) (by decide)⟩

/-- C6: in each driving mode a double click of Ok ends in the main menu with
the menu cursor at index 0 and all four motor channels at zero. -/
theorem double_click_returns_to_menu (s : system_t) (hdrive : is_driving_mode s.g_ctx.current_state) :
    (fsm_process_button button_event_t.BTN_EVT_OK_DOUBLE s).g_ctx.current_state
        = system_state_t.STATE_MAIN_MENU ∧
      (fsm_process_button button_event_t.BTN_EVT_OK_DOUBLE s).g_ctx.menu_index = 0 ∧
      motors_stopped (fsm_process_button button_event_t.BTN_EVT_OK_DOUBLE s) := by
  unfold is_driving_mode at hdrive
  rcases hdrive with h | h | h <;>
    simp [fsm_process_button, h, mode_mecanum_handle_button, mode_rc_handle_button,
      mode_voice_handle_button, fsm_change_state, buzzer_click, motors_stopped, motor_stop_all,
      set_motor_zero]

/-- Witness for C6: mecanum mode at full speed, menu cursor at 2 before. -/
theorem double_click_returns_to_menu_witness :
    is_driving_mode (driving_system system_state_t.STATE_MODE_MECANUM 255 0 false).g_ctx.current_state ∧
    ((fsm_process_button button_event_t.BTN_EVT_OK_DOUBLE
          (driving_system system_state_t.STATE_MODE_MECANUM 255 0 false)).g_ctx.current_state
        = system_state_t.STATE_MAIN_MENU ∧
      (fsm_process_button button_event_t.BTN_EVT_OK_DOUBLE
          (driving_system system_state_t.STATE_MODE_MECANUM 255 0 false)).g_ctx.menu_index = 0 ∧
      motors_stopped (fsm_process_button button_event_t.BTN_EVT_OK_DOUBLE
          (driving_system system_state_t.STATE_MODE_MECANUM 255 0 false))) :=
  ⟨by decide,
    double_click_returns_to_menu (driving_system system_state_t.STATE_MODE_MECANUM 255 0 false)
      (by decide)⟩

/-! ## Motion interpreters -/

/-- C7 (the code departs from the claim): at a throttle of exactly 25 with
steering 0 the mecanum interpreter returns stop where the decision procedure
of the claim gives forward, and at throttle 0 with a steering of exactly 25
it returns stop where the procedure gives strafe right.  A magnitude of 25
is kept by the deadzone test (below 25) but fails the later tests (above
25). -/
theorem mecanum_intent_at_deadzone_edge :
    interpret_mecanum (driving_system system_state_t.STATE_MODE_MECANUM 25 0 false).g_ctx 25 0
        = movement_type_t.MOVEMENT_STOP ∧
      mecanum_intent_spec 25 0 = movement_type_t.MOVEMENT_FORWARD ∧
    interpret_mecanum (driving_system system_state_t.STATE_MODE_MECANUM 0 25 false).g_ctx 0 25
        = movement_type_t.MOVEMENT_STOP ∧
      mecanum_intent_spec 0 25 = movement_type_t.MOVEMENT_STRAFE_RIGHT := by
  have h1 : deadzoned 25 = 25 := by decide
  have h2 : deadzoned 0 = 0 := by decide
  have h3 : c_abs 25 = 25 := by decide
  have h4 : c_abs 0 = 0 := by decide
  refine ⟨by decide, ?_, by decide, ?_⟩
  · simp only [mecanum_intent_spec, h1, h2, h3, h4]
    norm_num
  · simp only [mecanum_intent_spec, h1, h2]
    norm_num

/-- C8: for axes within [-255, 255] the wheel speeds stored by the mecanum
step are the magnitude (|t| capped at 255 when the deadzoned throttle t is
non-zero, else the capped |s| of the deadzoned steering) times the sign
pattern of the resulting movement, and that movement is never one of the two
differential-turn intents, which the table does not list. -/
theorem mecanum_speeds_follow_sign_table (s : system_t)
    (ht : -255 ≤ s.g_ctx.joystick.throttle ∧ s.g_ctx.joystick.throttle ≤ 255)
    (hs : -255 ≤ s.g_ctx.joystick.steering ∧ s.g_ctx.joystick.steering ≤ 255) :
    (mode_mecanum_process s).g_ctx.motor_speeds =
      ⟨mecanum_magnitude s.g_ctx.joystick.throttle s.g_ctx.joystick.steering
          * (mecanum_sign_pattern (mode_mecanum_process s).g_ctx.movement).1,
        mecanum_magnitude s.g_ctx.joystick.throttle s.g_ctx.joystick.steering
          * (mecanum_sign_pattern (mode_mecanum_process s).g_ctx.movement).2.1,
        mecanum_magnitude s.g_ctx.joystick.throttle s.g_ctx.joystick.steering
          * (mecanum_sign_pattern (mode_mecanum_process s).g_ctx.movement).2.2.1,
        mecanum_magnitude s.g_ctx.joystick.throttle s.g_ctx.joystick.steering
          * (mecanum_sign_pattern (mode_mecanum_process s).g_ctx.movement).2.2.2⟩ ∧
      (mode_mecanum_process s).g_ctx.movement ≠ movement_type_t.MOVEMENT_TURN_LEFT ∧
      (mode_mecanum_process s).g_ctx.movement ≠ movement_type_t.MOVEMENT_TURN_RIGHT := by
  refine ⟨?_, ?_⟩
  · rw [mode_mecanum_process_speeds, mode_mecanum_process_movement,
      calculate_mecanum_speeds_in_range _ _ _ ht hs]
  · rw [mode_mecanum_process_movement]
    exact interpret_mecanum_not_turn _ _ _

/-- Witness for C8: the two worked examples, (200, 0) gives forward with
(200,200,200,200) and (0, 200) gives strafe right with
(200,-200,-200,200). -/
theorem mecanum_speeds_follow_sign_table_witness :
    ((-255 ≤ (driving_system system_state_t.STATE_MODE_MECANUM 200 0 false).g_ctx.joystick.throttle ∧
        (driving_system system_state_t.STATE_MODE_MECANUM 200 0 false).g_ctx.joystick.throttle ≤ 255) ∧
      (-255 ≤ (driving_system system_state_t.STATE_MODE_MECANUM 200 0 false).g_ctx.joystick.steering ∧
        (driving_system system_state_t.STATE_MODE_MECANUM 200 0 false).g_ctx.joystick.steering ≤ 255)) ∧
    (mode_mecanum_process (driving_system system_state_t.STATE_MODE_MECANUM 200 0 false)).g_ctx.movement
      = movement_type_t.MOVEMENT_FORWARD ∧
    (mode_mecanum_process (driving_system system_state_t.STATE_MODE_MECANUM 200 0 false)).g_ctx.motor_speeds
      = ⟨200, 200, 200, 200⟩ ∧
    (mode_mecanum_process (driving_system system_state_t.STATE_MODE_MECANUM 0 200 false)).g_ctx.movement
      = movement_type_t.MOVEMENT_STRAFE_RIGHT ∧
    (mode_mecanum_process (driving_system system_state_t.STATE_MODE_MECANUM 0 200 false)).g_ctx.motor_speeds
      = ⟨200, -200, -200, 200⟩ := by
  have h200 := mecanum_speeds_follow_sign_table
    (driving_system system_state_t.STATE_MODE_MECANUM 200 0 false) (by decide) (by decide)
  have h0 := mecanum_speeds_follow_sign_table
    (driving_system system_state_t.STATE_MODE_MECANUM 0 200 false) (by decide) (by decide)
  have m200 : (mode_mecanum_process
      (driving_system system_state_t.STATE_MODE_MECANUM 200 0 false)).g_ctx.movement
      = movement_type_t.MOVEMENT_FORWARD := by decide
  have m0 : (mode_mecanum_process
      (driving_system system_state_t.STATE_MODE_MECANUM 0 200 false)).g_ctx.movement
      = movement_type_t.MOVEMENT_STRAFE_RIGHT := by decide
  refine ⟨by decide, m200, ?_, m0, ?_⟩
  · rw [h200.1, m200]
    decide
  · rw [h0.1, m0]
    decide

/-- C9 (the code departs from the claim): at a throttle of exactly 25 with
steering 0 the RC interpreter returns stop where the decision table of the
claim gives forward; at (25, 100) it returns rotate right where the table
gives turn right; at (100, 25) it returns forward where the table gives turn
right. -/
theorem rc_intent_at_deadzone_edge :
    interpret_rc (driving_system system_state_t.STATE_MODE_RC 25 0 false).g_ctx 25 0
        = movement_type_t.MOVEMENT_STOP ∧
      rc_intent_spec 25 0 = movement_type_t.MOVEMENT_FORWARD ∧
    interpret_rc (driving_system system_state_t.STATE_MODE_RC 25 100 false).g_ctx 25 100
        = movement_type_t.MOVEMENT_ROTATE_RIGHT ∧
      rc_intent_spec 25 100 = movement_type_t.MOVEMENT_TURN_RIGHT ∧
    interpret_rc (driving_system system_state_t.STATE_MODE_RC 100 25 false).g_ctx 100 25
        = movement_type_t.MOVEMENT_FORWARD ∧
      rc_intent_spec 100 25 = movement_type_t.MOVEMENT_TURN_RIGHT := by
  decide

/-- C10: for axes within [-255, 255] and the emergency button clear, the RC
step stores left = clamp(t + s) on the front-left and back-left wheels and
right = clamp(t - s) on the front-right and back-right wheels, with t and s
the deadzoned axes and the clamp to [-255, 255]. -/
theorem rc_differential_mixing (s : system_t)
    (ht : -255 ≤ s.g_ctx.joystick.throttle ∧ s.g_ctx.joystick.throttle ≤ 255)
    (hs : -255 ≤ s.g_ctx.joystick.steering ∧ s.g_ctx.joystick.steering ≤ 255)
    (hbtn : s.g_ctx.joystick.btn1 = false) :
    (mode_rc_process s).g_ctx.motor_speeds.fl
        = clamp (deadzoned s.g_ctx.joystick.throttle + deadzoned s.g_ctx.joystick.steering) (-255) 255 ∧
      (mode_rc_process s).g_ctx.motor_speeds.bl
        = clamp (deadzoned s.g_ctx.joystick.throttle + deadzoned s.g_ctx.joystick.steering) (-255) 255 ∧
      (mode_rc_process s).g_ctx.motor_speeds.fr
        = clamp (deadzoned s.g_ctx.joystick.throttle - deadzoned s.g_ctx.joystick.steering) (-255) 255 ∧
      (mode_rc_process s).g_ctx.motor_speeds.br
        = clamp (deadzoned s.g_ctx.joystick.throttle - deadzoned s.g_ctx.joystick.steering) (-255) 255 := by
  have hne := interpret_rc_not_emergency s.g_ctx s.g_ctx.joystick.throttle s.g_ctx.joystick.steering hbtn
  rw [mode_rc_process_speeds]
  generalize s.g_ctx.joystick.throttle = t at *
  generalize s.g_ctx.joystick.steering = st at *
  have hcalc : ∀ g : system_context_t, g.movement ≠ movement_type_t.MOVEMENT_EMERGENCY →
      calculate_rc_speeds g t st =
        ⟨clamp (deadzoned t + deadzoned st) (-255) 255, clamp (deadzoned t - deadzoned st) (-255) 255,
          clamp (deadzoned t + deadzoned st) (-255) 255, clamp (deadzoned t - deadzoned st) (-255) 255⟩ := by
    intro g hg
    have hd : ∀ v : Int, (if c_abs v < DEADZONE then 0 else v) = deadzoned v := fun v => rfl
    have b1 := deadzoned_bounds t ht
    have b2 := deadzoned_bounds st hs
    have e1 : int16_of (deadzoned t + deadzoned st) = deadzoned t + deadzoned st :=
      int16_of_small _ (by omega)
    have e2 : int16_of (deadzoned t - deadzoned st) = deadzoned t - deadzoned st :=
      int16_of_small _ (by omega)
    unfold calculate_rc_speeds
    simp only [hd, e1, e2, hg, if_false, MAX_SPEED, clamp, motor_speeds_t.mk.injEq]
    generalize deadzoned t + deadzoned st = a
    generalize deadzoned t - deadzoned st = b
    refine ⟨?_, ?_, ?_, ?_⟩ <;> split_ifs <;> omega
  rw [hcalc _ hne]
  simp

/-- Witness for C10: throttle 100 and steering 50 give left 150 and right
50. -/
theorem rc_differential_mixing_witness :
    ((-255 ≤ (driving_system system_state_t.STATE_MODE_RC 100 50 false).g_ctx.joystick.throttle ∧
        (driving_system system_state_t.STATE_MODE_RC 100 50 false).g_ctx.joystick.throttle ≤ 255) ∧
      (-255 ≤ (driving_system system_state_t.STATE_MODE_RC 100 50 false).g_ctx.joystick.steering ∧
        (driving_system system_state_t.STATE_MODE_RC 100 50 false).g_ctx.joystick.steering ≤ 255) ∧
      (driving_system system_state_t.STATE_MODE_RC 100 50 false).g_ctx.joystick.btn1 = false) ∧
    clamp (deadzoned 100 + deadzoned 50) (-255) 255 = 150 ∧
    clamp (deadzoned 100 - deadzoned 50) (-255) 255 = 50 ∧
    (mode_rc_process (driving_system system_state_t.STATE_MODE_RC 100 50 false)).g_ctx.motor_speeds.fl
      = clamp (deadzoned 100 + deadzoned 50) (-255) 255 ∧
    (mode_rc_process (driving_system system_state_t.STATE_MODE_RC 100 50 false)).g_ctx.motor_speeds.fr
      = clamp (deadzoned 100 - deadzoned 50) (-255) 255 :=
  ⟨by decide, by decide, by decide,
    (rc_differential_mixing (driving_system system_state_t.STATE_MODE_RC 100 50 false)
      (by decide) (by decide) (by decide)).1,
    (rc_differential_mixing (driving_system system_state_t.STATE_MODE_RC 100 50 false)
      (by decide) (by decide) (by decide)).2.2.1⟩

/-! ## Voice policy, deadzone and out-of-range joystick input -/

/-- C11: for every command byte and every speed v in 0..255 the voice step
sets the movement by the command table (0 stop, 1 forward, 2 backward,
3 rotate left, 4 rotate right, any other byte stop) and stores the wheel
speeds v times the sign pattern of that movement, all zero for stop. -/
theorem voice_policy_table (s : system_t) (hv : s.g_ctx.voice_speed ≤ 255) :
    (mode_voice_process s).g_ctx.movement = voice_intent_spec s.g_ctx.voice_cmd ∧
      (mode_voice_process s).g_ctx.motor_speeds
        = voice_speeds_spec (voice_intent_spec s.g_ctx.voice_cmd) (s.g_ctx.voice_speed : Int) := by
  have e1 : int16_of (s.g_ctx.voice_speed : Int) = (s.g_ctx.voice_speed : Int) :=
    int16_of_small _ (by omega)
  have e2 : int16_of (-(s.g_ctx.voice_speed : Int)) = -(s.g_ctx.voice_speed : Int) :=
    int16_of_small _ (by omega)
  have hm : (if s.g_ctx.voice_cmd = VOICE_CMD_STOP then movement_type_t.MOVEMENT_STOP
      else if s.g_ctx.voice_cmd = VOICE_CMD_FORWARD then movement_type_t.MOVEMENT_FORWARD
      else if s.g_ctx.voice_cmd = VOICE_CMD_BACKWARD then movement_type_t.MOVEMENT_BACKWARD
      else if s.g_ctx.voice_cmd = VOICE_CMD_LEFT then movement_type_t.MOVEMENT_ROTATE_LEFT
      else if s.g_ctx.voice_cmd = VOICE_CMD_RIGHT then movement_type_t.MOVEMENT_ROTATE_RIGHT
      else movement_type_t.MOVEMENT_STOP) = voice_intent_spec s.g_ctx.voice_cmd := by
    unfold voice_intent_spec VOICE_CMD_STOP VOICE_CMD_FORWARD VOICE_CMD_BACKWARD VOICE_CMD_LEFT
      VOICE_CMD_RIGHT
    split_ifs <;> first | rfl | omega
  unfold mode_voice_process
  simp only [hm, e1, e2]
  generalize voice_intent_spec s.g_ctx.voice_cmd = m
  by_cases h : m = s.g_ctx.movement
  · subst h
    simp only [ne_eq, not_true_eq_false, if_false, true_and]
    cases s.g_ctx.movement <;> rfl
  · simp only [ne_eq, h, not_false_eq_true, if_true, true_and]
    cases m <;> rfl

/-- Witness for C11: command Left (3) at speed 150 gives rotate left and
(-150, 150, -150, 150). -/
theorem voice_policy_table_witness :
    (voice_system 3 150).g_ctx.voice_speed ≤ 255 ∧
    (mode_voice_process (voice_system 3 150)).g_ctx.movement
      = movement_type_t.MOVEMENT_ROTATE_LEFT ∧
    (mode_voice_process (voice_system 3 150)).g_ctx.motor_speeds = ⟨-150, 150, -150, 150⟩ ∧
    (mode_voice_process (voice_system 3 150)).g_ctx.motor_speeds
      = voice_speeds_spec (voice_intent_spec (voice_system 3 150).g_ctx.voice_cmd)
          ((voice_system 3 150).g_ctx.voice_speed : Int) :=
  ⟨by decide, by decide, by decide, (voice_policy_table (voice_system 3 150) (by decide)).2⟩

/-- C12: with both axes of magnitude below 25 and the emergency button
clear, the mecanum step and the RC step both yield the stop movement and the
stored wheel speeds (0,0,0,0). -/
theorem deadzone_yields_stop (s : system_t)
    (ht : c_abs s.g_ctx.joystick.throttle < 25) (hs : c_abs s.g_ctx.joystick.steering < 25)
    (hbtn : s.g_ctx.joystick.btn1 = false) :
    (mode_mecanum_process s).g_ctx.movement = movement_type_t.MOVEMENT_STOP ∧
      (mode_mecanum_process s).g_ctx.motor_speeds = ⟨0, 0, 0, 0⟩ ∧
      (mode_rc_process s).g_ctx.movement = movement_type_t.MOVEMENT_STOP ∧
      (mode_rc_process s).g_ctx.motor_speeds = ⟨0, 0, 0, 0⟩ := by
  have dt : deadzoned s.g_ctx.joystick.throttle = 0 := by simp [deadzoned, ht]
  have ds : deadzoned s.g_ctx.joystick.steering = 0 := by simp [deadzoned, hs]
  have hm : interpret_mecanum s.g_ctx s.g_ctx.joystick.throttle s.g_ctx.joystick.steering
      = movement_type_t.MOVEMENT_STOP := by
    rw [interpret_mecanum_unfold]
    simp [hbtn, dt, ds]
  have hr : interpret_rc s.g_ctx s.g_ctx.joystick.throttle s.g_ctx.joystick.steering
      = movement_type_t.MOVEMENT_STOP := by
    rw [interpret_rc_unfold]
    simp [hbtn, dt, ds]
  have hd : ∀ v : Int, (if c_abs v < DEADZONE then 0 else v) = deadzoned v := fun v => rfl
  refine ⟨?_, ?_, ?_, ?_⟩
  · rw [mode_mecanum_process_movement, hm]
  · rw [mode_mecanum_process_speeds, hm]
    simp [calculate_mecanum_speeds]
  · rw [mode_rc_process_movement, hr]
  · rw [mode_rc_process_speeds, hr]
    unfold calculate_rc_speeds
    simp only [hd, dt, ds]
    decide

/-- Witness for C12: throttle 24 and steering -24. -/
theorem deadzone_yields_stop_witness :
    (c_abs (driving_system system_state_t.STATE_MODE_MECANUM 24 (-24) false).g_ctx.joystick.throttle
        < 25 ∧
      c_abs (driving_system system_state_t.STATE_MODE_MECANUM 24 (-24) false).g_ctx.joystick.steering
        < 25 ∧
      (driving_system system_state_t.STATE_MODE_MECANUM 24 (-24) false).g_ctx.joystick.btn1 = false) ∧
    ((mode_mecanum_process
          (driving_system system_state_t.STATE_MODE_MECANUM 24 (-24) false)).g_ctx.movement
        = movement_type_t.MOVEMENT_STOP ∧
      (mode_mecanum_process
          (driving_system system_state_t.STATE_MODE_MECANUM 24 (-24) false)).g_ctx.motor_speeds
        = ⟨0, 0, 0, 0⟩ ∧
      (mode_rc_process
          (driving_system system_state_t.STATE_MODE_MECANUM 24 (-24) false)).g_ctx.movement
        = movement_type_t.MOVEMENT_STOP ∧
      (mode_rc_process
          (driving_system system_state_t.STATE_MODE_MECANUM 24 (-24) false)).g_ctx.motor_speeds
        = ⟨0, 0, 0, 0⟩) :=
  ⟨by decide,
    deadzone_yields_stop (driving_system system_state_t.STATE_MODE_MECANUM 24 (-24) false)
      (by decide) (by decide) (by decide)⟩

/-- Range of the mecanum wheel speeds for every 16-bit input other than the
minimum value -32768: each of the four speeds lies in [-255, 255]. -/
theorem mecanum_speeds_range_off_min (g : system_context_t) (t st : Int)
    (ht : -32768 < t ∧ t ≤ 32767) (hs : -32768 < st ∧ st ≤ 32767) :
    (-255 ≤ (calculate_mecanum_speeds g t st).fl ∧ (calculate_mecanum_speeds g t st).fl ≤ 255) ∧
    (-255 ≤ (calculate_mecanum_speeds g t st).fr ∧ (calculate_mecanum_speeds g t st).fr ≤ 255) ∧
    (-255 ≤ (calculate_mecanum_speeds g t st).bl ∧ (calculate_mecanum_speeds g t st).bl ≤ 255) ∧
    (-255 ≤ (calculate_mecanum_speeds g t st).br ∧ (calculate_mecanum_speeds g t st).br ≤ 255) := by
  have hd : ∀ v : Int, (if c_abs v < DEADZONE then 0 else v) = deadzoned v := fun v => rfl
  have bT : 0 ≤ c_abs (deadzoned t) ∧ c_abs (deadzoned t) ≤ 32767 := by
    unfold deadzoned c_abs; split_ifs <;> omega
  have bS : 0 ≤ c_abs (deadzoned st) ∧ c_abs (deadzoned st) ≤ 32767 := by
    unfold deadzoned c_abs; split_ifs <;> omega
  have e1 : int16_of (c_abs (deadzoned t)) = c_abs (deadzoned t) := int16_of_small _ (by omega)
  have e2 : int16_of (c_abs (deadzoned st)) = c_abs (deadzoned st) := int16_of_small _ (by omega)
  unfold calculate_mecanum_speeds
  simp only [hd, e1, e2, MAX_SPEED]
  generalize c_abs (deadzoned t) = a at bT ⊢
  generalize c_abs (deadzoned st) = b at bS ⊢
  have hsp : ∀ sp : Int, sp = (if (if a = 0 then b else a) > 255 then 255 else if a = 0 then b else a) →
      0 ≤ sp ∧ sp ≤ 255 ∧ int16_of (-sp) = -sp := by
    intro sp h
    have h1 : 0 ≤ sp ∧ sp ≤ 255 := by
      rw [h]; split_ifs <;> omega
    exact ⟨h1.1, h1.2, int16_of_small _ (by omega)⟩
  obtain ⟨h0, h1, h2⟩ := hsp _ rfl
  generalize (if (if a = 0 then b else a) > 255 then 255 else if a = 0 then b else a) = sp at h0 h1 h2 ⊢
  rw [h2]
  cases g.movement <;> simp <;> omega

/-- C13 (the code departs from the claim): with throttle -32768 the magnitude
`abs(throttle)` is 32768, which wraps to -32768 when stored in the 16-bit
`speed`; the cap `speed > MAX_SPEED` does not catch it and the mecanum step
stores -32768 on all four wheels (movement backward).  The same happens for
steering -32768 with the throttle inside the deadzone (strafe left). -/
theorem mecanum_speed_wraps_at_int16_min :
    (mode_mecanum_process
        (driving_system system_state_t.STATE_MODE_MECANUM (-32768) 0 false)).g_ctx.movement
      = movement_type_t.MOVEMENT_BACKWARD ∧
    (mode_mecanum_process
        (driving_system system_state_t.STATE_MODE_MECANUM (-32768) 0 false)).g_ctx.motor_speeds
      = ⟨-32768, -32768, -32768, -32768⟩ ∧
    (mode_mecanum_process
        (driving_system system_state_t.STATE_MODE_MECANUM 0 (-32768) false)).g_ctx.movement
      = movement_type_t.MOVEMENT_STRAFE_LEFT ∧
    (mode_mecanum_process
        (driving_system system_state_t.STATE_MODE_MECANUM 0 (-32768) false)).g_ctx.motor_speeds
      = ⟨-32768, -32768, -32768, -32768⟩ := by
  decide

/-- RC mixing when neither 16-bit sum wraps: the stored speeds are the exact
sums clamped to [-255, 255]. -/
theorem rc_speeds_exact_when_no_wrap (g : system_context_t) (t st : Int)
    (hg : g.movement ≠ movement_type_t.MOVEMENT_EMERGENCY)
    (hl : -32768 ≤ deadzoned t + deadzoned st ∧ deadzoned t + deadzoned st ≤ 32767)
    (hr : -32768 ≤ deadzoned t - deadzoned st ∧ deadzoned t - deadzoned st ≤ 32767) :
    calculate_rc_speeds g t st =
      ⟨clamp (deadzoned t + deadzoned st) (-255) 255, clamp (deadzoned t - deadzoned st) (-255) 255,
        clamp (deadzoned t + deadzoned st) (-255) 255, clamp (deadzoned t - deadzoned st) (-255) 255⟩ := by
  have hd : ∀ v : Int, (if c_abs v < DEADZONE then 0 else v) = deadzoned v := fun v => rfl
  have e1 : int16_of (deadzoned t + deadzoned st) = deadzoned t + deadzoned st :=
    int16_of_small _ (by omega)
  have e2 : int16_of (deadzoned t - deadzoned st) = deadzoned t - deadzoned st :=
    int16_of_small _ (by omega)
  unfold calculate_rc_speeds
  simp only [hd, e1, e2, hg, if_false, MAX_SPEED, clamp, motor_speeds_t.mk.injEq]
  generalize deadzoned t + deadzoned st = a
  generalize deadzoned t - deadzoned st = b
  refine ⟨?_, ?_, ?_, ?_⟩ <;> split_ifs <;> omega

/-- C14 (the code departs from the claim): with throttle 20000 and steering
20000 the sum 40000 wraps to -25536 in the 16-bit `left_speed` before the
clamp, so the RC step stores -255 on the left wheels where the exact sum
clamped gives 255. -/
theorem rc_mixing_wraps_before_clamp :
    (mode_rc_process
        (driving_system system_state_t.STATE_MODE_RC 20000 20000 false)).g_ctx.motor_speeds
      = ⟨-255, 0, -255, 0⟩ ∧
    clamp (deadzoned 20000 + deadzoned 20000) (-255) 255 = 255 ∧
    clamp (deadzoned 20000 - deadzoned 20000) (-255) 255 = 0 ∧
    int16_of (20000 + 20000) = -25536 := by
  decide

/-! ## Button polling: auxiliary lemmas -/

theorem buttons_poll_blocks (i : poll_input_t) (b : buttons_t) :
    buttons_poll i b =
      ({ s_btn_up := button_bookkeep i.now i.up_pressed
            (simple_block button_event_t.BTN_EVT_UP_PRESSED button_event_t.BTN_EVT_NONE
              i.now i.up_pressed b.s_btn_up).1
         s_btn_down := button_bookkeep i.now i.down_pressed
            (simple_block button_event_t.BTN_EVT_DOWN_PRESSED button_event_t.BTN_EVT_NONE
              i.now i.down_pressed b.s_btn_down).1
         s_btn_ok := button_bookkeep i.now i.ok_pressed
            (ok_block button_event_t.BTN_EVT_NONE i.now i.ok_pressed b.s_btn_ok).1 },
       (ok_block
          (simple_block button_event_t.BTN_EVT_DOWN_PRESSED
            (simple_block button_event_t.BTN_EVT_UP_PRESSED button_event_t.BTN_EVT_NONE
              i.now i.up_pressed b.s_btn_up).2
            i.now i.down_pressed b.s_btn_down).2
          i.now i.ok_pressed b.s_btn_ok).2) := by
  have h1 : ∀ (e r r2 : button_event_t) (n : Nat) (p : Bool) (c : button_state_t),
      (simple_block e r n p c).1 = (simple_block e r2 n p c).1 := by
    intro e r r2 n p c
    unfold simple_block
    split_ifs <;> rfl
  have h2 : ∀ (r r2 : button_event_t) (n : Nat) (p : Bool) (c : button_state_t),
      (ok_block r n p c).1 = (ok_block r2 n p c).1 := by
    intro r r2 n p c
    unfold ok_block
    simp only []
    split_ifs <;> simp_all
  rw [h1 _ button_event_t.BTN_EVT_NONE
      (simple_block button_event_t.BTN_EVT_UP_PRESSED button_event_t.BTN_EVT_NONE
          i.now i.up_pressed b.s_btn_up).2 i.now i.down_pressed b.s_btn_down,
    h2 button_event_t.BTN_EVT_NONE
      (simple_block button_event_t.BTN_EVT_DOWN_PRESSED
            (simple_block button_event_t.BTN_EVT_UP_PRESSED button_event_t.BTN_EVT_NONE
              i.now i.up_pressed b.s_btn_up).2
            i.now i.down_pressed b.s_btn_down).2]
  rfl

theorem simple_block_event (e r : button_event_t) (n : Nat) (p : Bool) (c : button_state_t) :
    (simple_block e r n p c).2 = if simple_accepts n p c then e else r := by
  unfold simple_block simple_accepts
  by_cases h1 : p = true ∧ c.current_state = false
  · by_cases h2 : u32_sub n c.last_press_time > DEBOUNCE_MS
    · simp [h1, h2]
    · simp [h1, h2]
  · have h3 : ¬ (p = true ∧ c.current_state = false ∧ u32_sub n c.last_press_time > DEBOUNCE_MS) :=
      fun h => h1 ⟨h.1, h.2.1⟩
    rw [if_neg h1, if_neg h3]

theorem ok_block_event (r : button_event_t) (n : Nat) (p : Bool) (c : button_state_t) :
    (ok_block r n p c).2 =
      if ok_event n p c ≠ button_event_t.BTN_EVT_NONE then ok_event n p c else r := by
  obtain ⟨ls, cur, lpt, pst, w, f⟩ := c
  by_cases h1 : u32_sub n lpt > DEBOUNCE_MS <;>
  by_cases h2 : u32_sub n pst > LONG_PRESS_MS <;>
  by_cases h3 : u32_sub n lpt > DOUBLE_CLICK_MS <;>
  cases p <;> cases cur <;> cases w <;> cases f <;>
  simp [ok_event, ok_block, h1, h2, h3]

theorem buttons_poll_event (i : poll_input_t) (b : buttons_t) :
    (buttons_poll i b).2 =
      if ok_event i.now i.ok_pressed b.s_btn_ok ≠ button_event_t.BTN_EVT_NONE then
        ok_event i.now i.ok_pressed b.s_btn_ok
      else if simple_accepts i.now i.down_pressed b.s_btn_down then
        button_event_t.BTN_EVT_DOWN_PRESSED
      else if simple_accepts i.now i.up_pressed b.s_btn_up then
        button_event_t.BTN_EVT_UP_PRESSED
      else button_event_t.BTN_EVT_NONE := by
  rw [buttons_poll_blocks]
  simp only [ok_block_event, simple_block_event]

theorem buttons_poll_ok_state (i : poll_input_t) (b : buttons_t) :
    (buttons_poll i b).1.s_btn_ok = ok_next i.now i.ok_pressed b.s_btn_ok := by
  rw [buttons_poll_blocks]
  rfl

theorem buttons_poll_up_state (i : poll_input_t) (b : buttons_t) :
    (buttons_poll i b).1.s_btn_up.current_state = i.up_pressed ∧
      (buttons_poll i b).1.s_btn_up.last_press_time
        = (if i.up_pressed = true then i.now else b.s_btn_up.last_press_time) := by
  rw [buttons_poll_blocks]
  unfold button_bookkeep simple_block
  split_ifs <;> simp_all

theorem buttons_poll_down_state (i : poll_input_t) (b : buttons_t) :
    (buttons_poll i b).1.s_btn_down.current_state = i.down_pressed ∧
      (buttons_poll i b).1.s_btn_down.last_press_time
        = (if i.down_pressed = true then i.now else b.s_btn_down.last_press_time) := by
  rw [buttons_poll_blocks]
  unfold button_bookkeep simple_block
  split_ifs <;> simp_all

theorem buttons_poll_long_iff (i : poll_input_t) (b : buttons_t) :
    (buttons_poll i b).2 = button_event_t.BTN_EVT_OK_LONG ↔
      ok_event i.now i.ok_pressed b.s_btn_ok = button_event_t.BTN_EVT_OK_LONG := by
  rw [buttons_poll_event]
  split_ifs with h1 h2 h3
  · rfl
  · simp [not_not.mp h1]
  · simp [not_not.mp h1]
  · simp [not_not.mp h1]

theorem ok_held_step (n : Nat) (c : button_state_t) (hc : c.current_state = true) :
    (ok_next n true c).current_state = true ∧
    (ok_next n true c).press_start_time = c.press_start_time ∧
    ((c.long_press_fired = false ∧ u32_sub n c.press_start_time > LONG_PRESS_MS) →
      ok_event n true c = button_event_t.BTN_EVT_OK_LONG ∧
        (ok_next n true c).long_press_fired = true ∧
        (ok_next n true c).waiting_for_double = false) ∧
    (¬ (c.long_press_fired = false ∧ u32_sub n c.press_start_time > LONG_PRESS_MS) →
      ok_event n true c = button_event_t.BTN_EVT_NONE ∧
        (ok_next n true c).long_press_fired = c.long_press_fired ∧
        (ok_next n true c).waiting_for_double = c.waiting_for_double) := by
  obtain ⟨ls, cur, lpt, pst, w, f⟩ := c
  simp only at hc
  subst hc
  by_cases h2 : u32_sub n pst > LONG_PRESS_MS <;>
  cases w <;> cases f <;>
  simp [ok_next, ok_event, ok_block, button_bookkeep, h2]

theorem ok_edge_step (n : Nat) (c : button_state_t) (hc : c.current_state = false) :
    ok_event n true c = button_event_t.BTN_EVT_NONE ∧
    (ok_next n true c).current_state = true ∧
    (ok_next n true c).last_press_time = n ∧
    (ok_next n true c).waiting_for_double = c.waiting_for_double ∧
    (u32_sub n c.last_press_time > DEBOUNCE_MS →
      (ok_next n true c).press_start_time = n ∧ (ok_next n true c).long_press_fired = false) ∧
    (¬ u32_sub n c.last_press_time > DEBOUNCE_MS →
      (ok_next n true c).press_start_time = c.press_start_time ∧
        (ok_next n true c).long_press_fired = c.long_press_fired) := by
  obtain ⟨ls, cur, lpt, pst, w, f⟩ := c
  simp only at hc
  subst hc
  by_cases h1 : u32_sub n lpt > DEBOUNCE_MS <;>
  cases w <;> cases f <;>
  simp [ok_next, ok_event, ok_block, button_bookkeep, h1]

theorem buttons_events_append (tr1 tr2 : List poll_input_t) :
    ∀ b : buttons_t,
      buttons_events b (tr1 ++ tr2) = buttons_events b tr1 ++ buttons_events (buttons_run b tr1) tr2 := by
  induction tr1 with
  | nil => intro b; rfl
  | cons q rest ih =>
    intro b
    show (buttons_poll q b).2 :: buttons_events (buttons_poll q b).1 (rest ++ tr2) = _
    rw [ih]
    rfl

theorem buttons_run_append (tr1 tr2 : List poll_input_t) :
    ∀ b : buttons_t, buttons_run b (tr1 ++ tr2) = buttons_run (buttons_run b tr1) tr2 := by
  induction tr1 with
  | nil => intro b; rfl
  | cons q rest ih =>
    intro b
    show buttons_run (buttons_poll q b).1 (rest ++ tr2) = _
    rw [ih]
    rfl

/-- Number of `OkLong` events over a run of polls with Ok pressed throughout,
starting with Ok already seen pressed: the count is one exactly when the
long-press flag goes from clear to set, zero otherwise. -/
theorem ok_held_run (tr : List poll_input_t) :
    ∀ b : buttons_t, (∀ q ∈ tr, q.ok_pressed = true) → b.s_btn_ok.current_state = true →
      (buttons_run b tr).s_btn_ok.current_state = true ∧
      (buttons_run b tr).s_btn_ok.press_start_time = b.s_btn_ok.press_start_time ∧
      (buttons_events b tr).count button_event_t.BTN_EVT_OK_LONG
          + (if b.s_btn_ok.long_press_fired = true then 1 else 0)
        = (if (buttons_run b tr).s_btn_ok.long_press_fired = true then 1 else 0) ∧
      (b.s_btn_ok.long_press_fired = false →
        (buttons_run b tr).s_btn_ok.long_press_fired = true →
        (buttons_run b tr).s_btn_ok.waiting_for_double = false) ∧
      (b.s_btn_ok.waiting_for_double = false →
        (buttons_run b tr).s_btn_ok.waiting_for_double = false) := by
  induction tr with
  | nil =>
    intro b _ hc
    refine ⟨hc, rfl, by simp [buttons_events, buttons_run], ?_, fun h => h⟩
    intro h1 h2
    rw [buttons_run, h1] at h2
    exact absurd h2 (by decide)
  | cons q rest ih =>
    intro b hall hc
    have hq : q.ok_pressed = true := hall q (List.mem_cons_self _ _)
    have hrest : ∀ x ∈ rest, x.ok_pressed = true := fun x hx => hall x (List.mem_cons_of_mem _ hx)
    have hst := buttons_poll_ok_state q b
    rw [hq] at hst
    obtain ⟨s1, s2, s3, s4⟩ := ok_held_step q.now b.s_btn_ok hc
    rw [← hst] at s1 s2 s3 s4
    have hl := buttons_poll_long_iff q b
    rw [hq] at hl
    obtain ⟨i1, i2, i3, i4, i5⟩ := ih (buttons_poll q b).1 hrest s1
    simp only [buttons_run, buttons_events, List.count_cons]
    refine ⟨i1, by rw [i2, s2], ?_, ?_, ?_⟩
    · by_cases hf : b.s_btn_ok.long_press_fired = false ∧
          u32_sub q.now b.s_btn_ok.press_start_time > LONG_PRESS_MS
      · obtain ⟨e1, e2, e3⟩ := s3 hf
        have hev : (buttons_poll q b).2 = button_event_t.BTN_EVT_OK_LONG := hl.mpr e1
        rw [e2] at i3
        simp only [hev, hf.1, beq_self_eq_true, if_true] at i3 ⊢
        simp at i3 ⊢
        omega
      · obtain ⟨e1, e2, e3⟩ := s4 hf
        have hev : ¬ (buttons_poll q b).2 = button_event_t.BTN_EVT_OK_LONG := by
          intro h
          rw [hl.mp h] at e1
          exact absurd e1 (by decide)
        rw [e2] at i3
        have hb : ((buttons_poll q b).2 == button_event_t.BTN_EVT_OK_LONG) = false := by
          simpa using hev
        simp only [hb] at i3 ⊢
        simp at i3 ⊢
        omega
    · intro hb0 hfin
      by_cases hf : b.s_btn_ok.long_press_fired = false ∧
          u32_sub q.now b.s_btn_ok.press_start_time > LONG_PRESS_MS
      · obtain ⟨e1, e2, e3⟩ := s3 hf
        exact i5 e3
      · obtain ⟨e1, e2, e3⟩ := s4 hf
        rw [hb0] at e2
        exact i4 e2 hfin
    · intro hw
      by_cases hf : b.s_btn_ok.long_press_fired = false ∧
          u32_sub q.now b.s_btn_ok.press_start_time > LONG_PRESS_MS
      · exact i5 (s3 hf).2.2
      · obtain ⟨e1, e2, e3⟩ := s4 hf
        rw [hw] at e3
        exact i5 e3

theorem ok_long_clears_wait (n : Nat) (p : Bool) (c : button_state_t)
    (h : ok_event n p c = button_event_t.BTN_EVT_OK_LONG) :
    (ok_next n p c).waiting_for_double = false := by
  obtain ⟨ls, cur, lpt, pst, w, f⟩ := c
  revert h
  by_cases h1 : u32_sub n lpt > DEBOUNCE_MS <;>
  by_cases h2 : u32_sub n pst > LONG_PRESS_MS <;>
  by_cases h3 : u32_sub n lpt > DOUBLE_CLICK_MS <;>
  cases p <;> cases cur <;> cases w <;> cases f <;>
  simp [ok_next, ok_event, ok_block, button_bookkeep, h1, h2, h3]

theorem buttons_poll_ok_only (i : poll_input_t) (b : buttons_t)
    (hu : i.up_pressed = false) (hd : i.down_pressed = false) :
    (buttons_poll i b).2 = ok_event i.now i.ok_pressed b.s_btn_ok := by
  rw [buttons_poll_event]
  have h1 : ¬ simple_accepts i.now i.up_pressed b.s_btn_up := by
    unfold simple_accepts; rw [hu]; simp
  have h2 : ¬ simple_accepts i.now i.down_pressed b.s_btn_down := by
    unfold simple_accepts; rw [hd]; simp
  by_cases h : ok_event i.now i.ok_pressed b.s_btn_ok = button_event_t.BTN_EVT_NONE
  · simp [h, h1, h2]
  · simp [h]

theorem ok_next_pressed_time (n : Nat) (c : button_state_t) :
    (ok_next n true c).last_press_time = n := by
  obtain ⟨ls, cur, lpt, pst, w, f⟩ := c
  by_cases h1 : u32_sub n lpt > DEBOUNCE_MS <;>
  by_cases h2 : u32_sub n pst > LONG_PRESS_MS <;>
  cases cur <;> cases w <;> cases f <;>
  simp [ok_next, ok_block, button_bookkeep, h1, h2]

/-- Release of Ok after a hold without long press: starts the double-click
wait, or ends it with the double-click event. -/
theorem ok_release_step (n : Nat) (c : button_state_t) (hc : c.current_state = true)
    (hf : c.long_press_fired = false) :
    (ok_next n false c).current_state = false ∧
    (ok_next n false c).last_press_time = c.last_press_time ∧
    (ok_next n false c).press_start_time = c.press_start_time ∧
    (ok_next n false c).long_press_fired = false ∧
    (c.waiting_for_double = true →
      ok_event n false c = button_event_t.BTN_EVT_OK_DOUBLE ∧
        (ok_next n false c).waiting_for_double = false) ∧
    (c.waiting_for_double = false → ¬ u32_sub n c.last_press_time > DOUBLE_CLICK_MS →
      ok_event n false c = button_event_t.BTN_EVT_NONE ∧
        (ok_next n false c).waiting_for_double = true) := by
  obtain ⟨ls, cur, lpt, pst, w, f⟩ := c
  simp only at hc hf
  subst hc hf
  by_cases h3 : u32_sub n lpt > DOUBLE_CLICK_MS <;>
  cases w <;>
  simp [ok_next, ok_event, ok_block, button_bookkeep, h3]

/-- A call with Ok released after a call with Ok released: only the
single-click timeout can act. -/
theorem ok_idle_step (n : Nat) (c : button_state_t) (hc : c.current_state = false) :
    (ok_next n false c).current_state = false ∧
    (ok_next n false c).last_press_time = c.last_press_time ∧
    (ok_next n false c).press_start_time = c.press_start_time ∧
    (ok_next n false c).long_press_fired = c.long_press_fired ∧
    (c.waiting_for_double = false →
      ok_event n false c = button_event_t.BTN_EVT_NONE ∧
        (ok_next n false c).waiting_for_double = false) ∧
    (c.waiting_for_double = true → ¬ u32_sub n c.last_press_time > DOUBLE_CLICK_MS →
      ok_event n false c = button_event_t.BTN_EVT_NONE ∧
        (ok_next n false c).waiting_for_double = true) ∧
    (c.waiting_for_double = true → u32_sub n c.last_press_time > DOUBLE_CLICK_MS →
      ok_event n false c = button_event_t.BTN_EVT_OK_SINGLE ∧
        (ok_next n false c).waiting_for_double = false) := by
  obtain ⟨ls, cur, lpt, pst, w, f⟩ := c
  simp only at hc
  subst hc
  by_cases h3 : u32_sub n lpt > DOUBLE_CLICK_MS <;>
  cases w <;> cases f <;>
  simp [ok_next, ok_event, ok_block, button_bookkeep, h3]

/-- A run of polls with Ok held, no long press pending to fire: no event, the
record only follows the clock. -/
theorem ok_polls_held_quiet (n : Nat) :
    ∀ (t : Nat) (b : buttons_t), b.s_btn_ok.current_state = true →
      b.s_btn_ok.long_press_fired = false →
      (∀ k, k < n → ¬ u32_sub (t + 10 * k) b.s_btn_ok.press_start_time > LONG_PRESS_MS) →
      buttons_events b (ok_polls t true n) = List.replicate n button_event_t.BTN_EVT_NONE ∧
      (buttons_run b (ok_polls t true n)).s_btn_ok.current_state = true ∧
      (buttons_run b (ok_polls t true n)).s_btn_ok.long_press_fired = false ∧
      (buttons_run b (ok_polls t true n)).s_btn_ok.press_start_time = b.s_btn_ok.press_start_time ∧
      (buttons_run b (ok_polls t true n)).s_btn_ok.waiting_for_double
        = b.s_btn_ok.waiting_for_double ∧
      (buttons_run b (ok_polls t true n)).s_btn_ok.last_press_time
        = (if n = 0 then b.s_btn_ok.last_press_time else t + 10 * (n - 1)) := by
  induction n with
  | zero =>
    intro t b hc hf _
    simp [ok_polls, buttons_events, buttons_run, hc, hf]
  | succ m ih =>
    intro t b hc hf hq
    have h0 : ¬ (b.s_btn_ok.long_press_fired = false ∧
        u32_sub t b.s_btn_ok.press_start_time > LONG_PRESS_MS) := by
      intro h
      have := hq 0 (Nat.succ_pos m)
      simp only [Nat.mul_zero, Nat.add_zero] at this
      exact this h.2
    obtain ⟨s1, s2, _, s4⟩ := ok_held_step t b.s_btn_ok hc
    obtain ⟨e1, e2, e3⟩ := s4 h0
    have hst := buttons_poll_ok_state ⟨t, false, false, true⟩ b
    have hev := buttons_poll_ok_only ⟨t, false, false, true⟩ b rfl rfl
    simp only at hst hev
    have hlpt := ok_next_pressed_time t b.s_btn_ok
    rw [← hst] at s1 s2 e2 e3 hlpt
    rw [hf] at e2
    have hq2 : ∀ k, k < m → ¬ u32_sub (t + 10 + 10 * k)
        (buttons_poll ⟨t, false, false, true⟩ b).1.s_btn_ok.press_start_time > LONG_PRESS_MS := by
      intro k hk
      rw [s2]
      have := hq (k + 1) (Nat.succ_lt_succ hk)
      have e : t + 10 * (k + 1) = t + 10 + 10 * k := by omega
      rw [e] at this
      exact this
    obtain ⟨i1, i2, i3, i4, i5, i6⟩ := ih (t + 10) (buttons_poll ⟨t, false, false, true⟩ b).1 s1 e2 hq2
    simp only [ok_polls, buttons_events, buttons_run]
    refine ⟨?_, i2, i3, by rw [i4, s2], by rw [i5, e3], ?_⟩
    · rw [i1, hev, e1]
      rfl
    · rw [i6, hlpt]
      by_cases hm : m = 0
      · simp [hm]
      · simp only [hm, if_false, Nat.succ_ne_zero]
        omega

/-- A run of polls with Ok released and seen released before, while the
single-click window has not run out: no event, nothing changes. -/
theorem ok_polls_idle_quiet (n : Nat) :
    ∀ (t : Nat) (b : buttons_t), b.s_btn_ok.current_state = false →
      (b.s_btn_ok.waiting_for_double = true →
        ∀ k, k < n → ¬ u32_sub (t + 10 * k) b.s_btn_ok.last_press_time > DOUBLE_CLICK_MS) →
      buttons_events b (ok_polls t false n) = List.replicate n button_event_t.BTN_EVT_NONE ∧
      (buttons_run b (ok_polls t false n)).s_btn_ok.current_state = false ∧
      (buttons_run b (ok_polls t false n)).s_btn_ok.long_press_fired
        = b.s_btn_ok.long_press_fired ∧
      (buttons_run b (ok_polls t false n)).s_btn_ok.press_start_time = b.s_btn_ok.press_start_time ∧
      (buttons_run b (ok_polls t false n)).s_btn_ok.waiting_for_double
        = b.s_btn_ok.waiting_for_double ∧
      (buttons_run b (ok_polls t false n)).s_btn_ok.last_press_time
        = b.s_btn_ok.last_press_time := by
  induction n with
  | zero =>
    intro t b hc _
    simp [ok_polls, buttons_events, buttons_run, hc]
  | succ m ih =>
    intro t b hc hq
    obtain ⟨s1, s2, s3, s4, s5, s6, _⟩ := ok_idle_step t b.s_btn_ok hc
    have hst := buttons_poll_ok_state ⟨t, false, false, false⟩ b
    have hev := buttons_poll_ok_only ⟨t, false, false, false⟩ b rfl rfl
    simp only at hst hev
    have hstep : ok_event t false b.s_btn_ok = button_event_t.BTN_EVT_NONE ∧
        (ok_next t false b.s_btn_ok).waiting_for_double = b.s_btn_ok.waiting_for_double := by
      by_cases hw : b.s_btn_ok.waiting_for_double = true
      · have h0 := hq hw 0 (Nat.succ_pos m)
        simp only [Nat.mul_zero, Nat.add_zero] at h0
        obtain ⟨a1, a2⟩ := s6 hw h0
        exact ⟨a1, by rw [a2, hw]⟩
      · have hw2 : b.s_btn_ok.waiting_for_double = false := by simpa using hw
        obtain ⟨a1, a2⟩ := s5 hw2
        exact ⟨a1, by rw [a2, hw2]⟩
    obtain ⟨e1, e2⟩ := hstep
    rw [← hst] at s1 s2 s3 s4 e2
    have hq2 : (buttons_poll ⟨t, false, false, false⟩ b).1.s_btn_ok.waiting_for_double = true →
        ∀ k, k < m → ¬ u32_sub (t + 10 + 10 * k)
          (buttons_poll ⟨t, false, false, false⟩ b).1.s_btn_ok.last_press_time > DOUBLE_CLICK_MS := by
      intro hw k hk
      rw [e2] at hw
      rw [s2]
      have := hq hw (k + 1) (Nat.succ_lt_succ hk)
      have e : t + 10 * (k + 1) = t + 10 + 10 * k := by omega
      rw [e] at this
      exact this
    obtain ⟨i1, i2, i3, i4, i5, i6⟩ := ih (t + 10) (buttons_poll ⟨t, false, false, false⟩ b).1 s1 hq2
    simp only [ok_polls, buttons_events, buttons_run]
    refine ⟨?_, i2, by rw [i3, s4], by rw [i4, s3], by rw [i5, e2], by rw [i6, s2]⟩
    rw [i1, hev, e1]
    rfl

theorem u32_sub_add (a d : Nat) (hd : d < 4294967296) : u32_sub (a + d) a = d := by
  unfold u32_sub
  omega

/-- One hold of Ok starting with an accepted press edge at tick `t` and
lasting `a + 1` polls, short enough for no long press: no event. -/
theorem ok_press_phase (a t : Nat) (b : buttons_t) (ha : a ≤ 100)
    (hc : b.s_btn_ok.current_state = false)
    (hacc : u32_sub t b.s_btn_ok.last_press_time > DEBOUNCE_MS) :
    buttons_events b (ok_polls t true (a + 1))
        = List.replicate (a + 1) button_event_t.BTN_EVT_NONE ∧
      (buttons_run b (ok_polls t true (a + 1))).s_btn_ok.current_state = true ∧
      (buttons_run b (ok_polls t true (a + 1))).s_btn_ok.long_press_fired = false ∧
      (buttons_run b (ok_polls t true (a + 1))).s_btn_ok.waiting_for_double
        = b.s_btn_ok.waiting_for_double ∧
      (buttons_run b (ok_polls t true (a + 1))).s_btn_ok.last_press_time = t + 10 * a := by
  obtain ⟨e1, e2, e3, e4, e5, _⟩ := ok_edge_step t b.s_btn_ok hc
  obtain ⟨e5a, e5b⟩ := e5 hacc
  have hst := buttons_poll_ok_state ⟨t, false, false, true⟩ b
  have hev := buttons_poll_ok_only ⟨t, false, false, true⟩ b rfl rfl
  simp only at hst hev
  rw [← hst] at e2 e3 e4 e5a e5b
  have hq : ∀ k, k < a → ¬ u32_sub (t + 10 + 10 * k)
      (buttons_poll ⟨t, false, false, true⟩ b).1.s_btn_ok.press_start_time > LONG_PRESS_MS := by
    intro k hk
    rw [e5a]
    have e : t + 10 + 10 * k = t + (10 + 10 * k) := by omega
    rw [e, u32_sub_add _ _ (by omega)]
    unfold LONG_PRESS_MS
    omega
  obtain ⟨i1, i2, i3, _, i5, i6⟩ :=
    ok_polls_held_quiet a (t + 10) (buttons_poll ⟨t, false, false, true⟩ b).1 e2 e5b hq
  simp only [ok_polls, buttons_events, buttons_run]
  refine ⟨?_, i2, i3, by rw [i5, e4], ?_⟩
  · rw [i1, hev, e1]
    rfl
  · rw [i6, e3]
    by_cases h0 : a = 0
    · simp [h0]
    · simp only [h0, if_false]
      omega

/-- Release of Ok after a short hold with no double-click wait pending,
followed by released polls inside the double-click window: no event, the
wait is pending afterwards. -/
theorem ok_first_release_phase (c t : Nat) (b : buttons_t)
    (hc : b.s_btn_ok.current_state = true) (hf : b.s_btn_ok.long_press_fired = false)
    (hw : b.s_btn_ok.waiting_for_double = false)
    (hq : ∀ k, k < c + 1 → ¬ u32_sub (t + 10 * k) b.s_btn_ok.last_press_time > DOUBLE_CLICK_MS) :
    buttons_events b (ok_polls t false (c + 1))
        = List.replicate (c + 1) button_event_t.BTN_EVT_NONE ∧
      (buttons_run b (ok_polls t false (c + 1))).s_btn_ok.current_state = false ∧
      (buttons_run b (ok_polls t false (c + 1))).s_btn_ok.long_press_fired = false ∧
      (buttons_run b (ok_polls t false (c + 1))).s_btn_ok.waiting_for_double = true ∧
      (buttons_run b (ok_polls t false (c + 1))).s_btn_ok.last_press_time
        = b.s_btn_ok.last_press_time := by
  obtain ⟨s1, s2, _, s4, _, s6⟩ := ok_release_step t b.s_btn_ok hc hf
  have h0 := hq 0 (Nat.succ_pos c)
  simp only [Nat.mul_zero, Nat.add_zero] at h0
  obtain ⟨e1, e2⟩ := s6 hw h0
  have hst := buttons_poll_ok_state ⟨t, false, false, false⟩ b
  have hev := buttons_poll_ok_only ⟨t, false, false, false⟩ b rfl rfl
  simp only at hst hev
  rw [← hst] at s1 s2 s4 e2
  have hq2 : (buttons_poll ⟨t, false, false, false⟩ b).1.s_btn_ok.waiting_for_double = true →
      ∀ k, k < c → ¬ u32_sub (t + 10 + 10 * k)
        (buttons_poll ⟨t, false, false, false⟩ b).1.s_btn_ok.last_press_time > DOUBLE_CLICK_MS := by
    intro _ k hk
    rw [s2]
    have := hq (k + 1) (Nat.succ_lt_succ hk)
    have e : t + 10 * (k + 1) = t + 10 + 10 * k := by omega
    rw [e] at this
    exact this
  obtain ⟨i1, i2, i3, _, i5, i6⟩ :=
    ok_polls_idle_quiet c (t + 10) (buttons_poll ⟨t, false, false, false⟩ b).1 s1 hq2
  simp only [ok_polls, buttons_events, buttons_run]
  refine ⟨?_, i2, by rw [i3, s4], by rw [i5, e2], by rw [i6, s2]⟩
  rw [i1, hev, e1]
  rfl

/-- Release of Ok after a short hold while a double-click wait is pending,
followed by released polls: the double-click event at the release, then no
event. -/
theorem ok_second_release_phase (e t : Nat) (b : buttons_t)
    (hc : b.s_btn_ok.current_state = true) (hf : b.s_btn_ok.long_press_fired = false)
    (hw : b.s_btn_ok.waiting_for_double = true) :
    buttons_events b (ok_polls t false (e + 1))
      = button_event_t.BTN_EVT_OK_DOUBLE :: List.replicate e button_event_t.BTN_EVT_NONE := by
  obtain ⟨s1, _, _, _, s5, _⟩ := ok_release_step t b.s_btn_ok hc hf
  obtain ⟨e1, e2⟩ := s5 hw
  have hst := buttons_poll_ok_state ⟨t, false, false, false⟩ b
  have hev := buttons_poll_ok_only ⟨t, false, false, false⟩ b rfl rfl
  simp only at hst hev
  rw [← hst] at s1 e2
  have hq2 : (buttons_poll ⟨t, false, false, false⟩ b).1.s_btn_ok.waiting_for_double = true →
      ∀ k, k < e → ¬ u32_sub (t + 10 + 10 * k)
        (buttons_poll ⟨t, false, false, false⟩ b).1.s_btn_ok.last_press_time > DOUBLE_CLICK_MS := by
    intro h
    rw [e2] at h
    exact absurd h (by decide)
  obtain ⟨i1, _⟩ :=
    ok_polls_idle_quiet e (t + 10) (buttons_poll ⟨t, false, false, false⟩ b).1 s1 hq2
  simp only [ok_polls, buttons_events]
  rw [i1, hev, e1]

theorem buttons_run_up_tracking (tr : List poll_input_t) :
    ∀ b : buttons_t,
      (buttons_run b tr).s_btn_up.current_state
          = level_before (fun q => q.up_pressed) b.s_btn_up.current_state tr ∧
        (buttons_run b tr).s_btn_up.last_press_time
          = last_seen_pressed (fun q => q.up_pressed) b.s_btn_up.last_press_time tr := by
  induction tr with
  | nil => intro b; exact ⟨rfl, rfl⟩
  | cons q rest ih =>
    intro b
    obtain ⟨h1, h2⟩ := buttons_poll_up_state q b
    obtain ⟨i1, i2⟩ := ih (buttons_poll q b).1
    simp only [buttons_run, level_before, last_seen_pressed]
    rw [i1, i2, h1, h2]
    exact ⟨rfl, rfl⟩

theorem buttons_run_down_tracking (tr : List poll_input_t) :
    ∀ b : buttons_t,
      (buttons_run b tr).s_btn_down.current_state
          = level_before (fun q => q.down_pressed) b.s_btn_down.current_state tr ∧
        (buttons_run b tr).s_btn_down.last_press_time
          = last_seen_pressed (fun q => q.down_pressed) b.s_btn_down.last_press_time tr := by
  induction tr with
  | nil => intro b; exact ⟨rfl, rfl⟩
  | cons q rest ih =>
    intro b
    obtain ⟨h1, h2⟩ := buttons_poll_down_state q b
    obtain ⟨i1, i2⟩ := ih (buttons_poll q b).1
    simp only [buttons_run, level_before, last_seen_pressed]
    rw [i1, i2, h1, h2]
    exact ⟨rfl, rfl⟩

theorem ok_event_not_simple (n : Nat) (p : Bool) (c : button_state_t) :
    ok_event n p c ≠ button_event_t.BTN_EVT_UP_PRESSED ∧
      ok_event n p c ≠ button_event_t.BTN_EVT_DOWN_PRESSED := by
  obtain ⟨ls, cur, lpt, pst, w, f⟩ := c
  by_cases h1 : u32_sub n lpt > DEBOUNCE_MS <;>
  by_cases h2 : u32_sub n pst > LONG_PRESS_MS <;>
  by_cases h3 : u32_sub n lpt > DOUBLE_CLICK_MS <;>
  cases p <;> cases cur <;> cases w <;> cases f <;>
  simp [ok_event, ok_block, h1, h2, h3]

theorem buttons_poll_simple_event (i : poll_input_t) (b : buttons_t) :
    ((buttons_poll i b).2 = button_event_t.BTN_EVT_UP_PRESSED →
      simple_accepts i.now i.up_pressed b.s_btn_up) ∧
    ((buttons_poll i b).2 = button_event_t.BTN_EVT_DOWN_PRESSED →
      simple_accepts i.now i.down_pressed b.s_btn_down) := by
  obtain ⟨n1, n2⟩ := ok_event_not_simple i.now i.ok_pressed b.s_btn_ok
  rw [buttons_poll_event]
  constructor
  · intro h
    split_ifs at h with h1 h2 h3
    · exact absurd h n1
    · exact h3
  · intro h
    split_ifs at h with h1 h2 h3
    · exact absurd h n2
    · exact h2

/-! ## Button polling: precedence, debounce, long press and double click -/

/-- Counterexample to C15 as stated: with accepted press edges of Up and
Down in the same call the result is the Down event, and with an accepted
press edge of Up in the call where the Ok block fires the long press the
result is the long-press event. -/
theorem buttons_precedence_counterexample :
    simple_accepts 100 true buttons_zero.s_btn_up ∧
    simple_accepts 100 true buttons_zero.s_btn_down ∧
    (buttons_poll ⟨100, true, true, false⟩ buttons_zero).2 = button_event_t.BTN_EVT_DOWN_PRESSED ∧
    simple_accepts 1200 true (buttons_run buttons_zero [⟨100, false, false, true⟩]).s_btn_up ∧
    buttons_events buttons_zero [⟨100, false, false, true⟩, ⟨1200, true, false, true⟩]
      = [button_event_t.BTN_EVT_NONE, button_event_t.BTN_EVT_OK_LONG] := by
  decide

/-- C15 (amended): the event returned by one call is the one assigned last
in source order, so the precedence is Ok, then Down, then Up: the event of
the Ok block when it assigns one, else the Down event when the Down press
edge is accepted, else the Up event when the Up press edge is accepted, else
none. -/
theorem buttons_precedence_last_wins (i : poll_input_t) (b : buttons_t) :
    (buttons_poll i b).2 =
      if ok_event i.now i.ok_pressed b.s_btn_ok ≠ button_event_t.BTN_EVT_NONE then
        ok_event i.now i.ok_pressed b.s_btn_ok
      else if simple_accepts i.now i.down_pressed b.s_btn_down then
        button_event_t.BTN_EVT_DOWN_PRESSED
      else if simple_accepts i.now i.up_pressed b.s_btn_up then
        button_event_t.BTN_EVT_UP_PRESSED
      else button_event_t.BTN_EVT_NONE :=
  buttons_poll_event i b

/-- Counterexample to C16 as stated: Up has its press edge at tick 100 and
is read released at tick 110; at tick 150, 50 ms after that edge, the level
goes from released to pressed with Down and Ok idle, and the call returns no
event.  Likewise when Up was held from tick 100 to tick 200: a press at tick
230, 130 ms after the recorded edge, returns no event, because the debounce
is measured from the last call that read the button pressed. -/
theorem up_press_not_accepted_at_50 :
    buttons_events buttons_zero
        [⟨100, true, false, false⟩, ⟨110, false, false, false⟩, ⟨150, true, false, false⟩]
      = [button_event_t.BTN_EVT_UP_PRESSED, button_event_t.BTN_EVT_NONE, button_event_t.BTN_EVT_NONE] ∧
    (buttons_run buttons_zero
        [⟨100, true, false, false⟩, ⟨110, false, false, false⟩]).s_btn_up.press_start_time = 100 ∧
    buttons_events buttons_zero
        [⟨100, true, false, false⟩, ⟨200, true, false, false⟩, ⟨210, false, false, false⟩,
          ⟨230, true, false, false⟩]
      = [button_event_t.BTN_EVT_UP_PRESSED, button_event_t.BTN_EVT_NONE, button_event_t.BTN_EVT_NONE,
          button_event_t.BTN_EVT_NONE] ∧
    (buttons_run buttons_zero
        [⟨100, true, false, false⟩, ⟨200, true, false, false⟩,
          ⟨210, false, false, false⟩]).s_btn_up.press_start_time = 100 := by
  decide

/-- C16 (amended): when the raw level of Up goes from released to pressed
and more than 50 ms have passed since the last call that read Up pressed
(`last_press_time`), and neither the Down block nor the Ok block assigns an
event in that call, the call returns the Up event; likewise for Down when
neither the Up block nor the Ok block assigns an event. -/
theorem simple_press_accepted (i : poll_input_t) (b : buttons_t) :
    (i.up_pressed = true ∧ b.s_btn_up.current_state = false ∧
        u32_sub i.now b.s_btn_up.last_press_time > 50 →
      ¬ simple_accepts i.now i.down_pressed b.s_btn_down →
      ok_event i.now i.ok_pressed b.s_btn_ok = button_event_t.BTN_EVT_NONE →
      (buttons_poll i b).2 = button_event_t.BTN_EVT_UP_PRESSED) ∧
    (i.down_pressed = true ∧ b.s_btn_down.current_state = false ∧
        u32_sub i.now b.s_btn_down.last_press_time > 50 →
      ¬ simple_accepts i.now i.up_pressed b.s_btn_up →
      ok_event i.now i.ok_pressed b.s_btn_ok = button_event_t.BTN_EVT_NONE →
      (buttons_poll i b).2 = button_event_t.BTN_EVT_DOWN_PRESSED) := by
  constructor
  · intro hup hdown hok
    have hup2 : simple_accepts i.now i.up_pressed b.s_btn_up := hup
    rw [buttons_poll_event]
    simp [hok, hdown, hup2]
  · intro hdown _ hok
    have hdown2 : simple_accepts i.now i.down_pressed b.s_btn_down := hdown
    rw [buttons_poll_event]
    simp [hok, hdown2]

/-- Witness for C16 (amended): Up pressed at tick 100, released at tick 110
and pressed again at tick 161, which is 61 ms after it was last read
pressed; Down pressed alone at tick 51 from start-up. -/
theorem simple_press_accepted_witness :
    ((⟨161, true, false, false⟩ : poll_input_t).up_pressed = true ∧
      (buttons_run buttons_zero
          [⟨100, true, false, false⟩, ⟨110, false, false, false⟩]).s_btn_up.current_state = false ∧
      u32_sub (⟨161, true, false, false⟩ : poll_input_t).now
        (buttons_run buttons_zero
          [⟨100, true, false, false⟩, ⟨110, false, false, false⟩]).s_btn_up.last_press_time > 50) ∧
    (buttons_poll ⟨161, true, false, false⟩
        (buttons_run buttons_zero [⟨100, true, false, false⟩, ⟨110, false, false, false⟩])).2
      = button_event_t.BTN_EVT_UP_PRESSED ∧
    (buttons_poll ⟨51, false, true, false⟩ buttons_zero).2 = button_event_t.BTN_EVT_DOWN_PRESSED :=
  ⟨by decide,
    (simple_press_accepted ⟨161, true, false, false⟩
      (buttons_run buttons_zero [⟨100, true, false, false⟩, ⟨110, false, false, false⟩])).1
      (by decide) (by decide) (by decide),
    (simple_press_accepted ⟨51, false, true, false⟩ buttons_zero).2
      (by decide) (by decide) (by decide)⟩

/-- C17: over any sequence of calls from any button state, a call returns
the Up event only if it reads Up pressed, the call before read it released,
and more than 50 ms have passed since the last call that read it pressed;
the same holds for the Down event and the Down button.  Hence a release, a
held button, and a re-press within 50 ms of the last pressed reading return
no such event. -/
theorem simple_debounce_only_on_accepted_edge (b : buttons_t) (tr : List poll_input_t)
    (p : poll_input_t) :
    ((buttons_poll p (buttons_run b tr)).2 = button_event_t.BTN_EVT_UP_PRESSED →
      p.up_pressed = true ∧
        level_before (fun q => q.up_pressed) b.s_btn_up.current_state tr = false ∧
        u32_sub p.now (last_seen_pressed (fun q => q.up_pressed) b.s_btn_up.last_press_time tr) > 50) ∧
    ((buttons_poll p (buttons_run b tr)).2 = button_event_t.BTN_EVT_DOWN_PRESSED →
      p.down_pressed = true ∧
        level_before (fun q => q.down_pressed) b.s_btn_down.current_state tr = false ∧
        u32_sub p.now (last_seen_pressed (fun q => q.down_pressed) b.s_btn_down.last_press_time tr)
          > 50) := by
  obtain ⟨u1, u2⟩ := buttons_run_up_tracking tr b
  obtain ⟨d1, d2⟩ := buttons_run_down_tracking tr b
  obtain ⟨s1, s2⟩ := buttons_poll_simple_event p (buttons_run b tr)
  constructor
  · intro h
    have := s1 h
    unfold simple_accepts at this
    rw [u1, u2] at this
    exact this
  · intro h
    have := s2 h
    unfold simple_accepts at this
    rw [d1, d2] at this
    exact this

/-- Witness for C17: Up pressed at tick 100, held at 110, released at 120,
bouncing back at 150 (no event) and pressed again at 250 (event). -/
theorem simple_debounce_only_on_accepted_edge_witness :
    (buttons_poll ⟨250, true, false, false⟩
        (buttons_run buttons_zero
          [⟨100, true, false, false⟩, ⟨110, true, false, false⟩, ⟨120, false, false, false⟩,
            ⟨150, true, false, false⟩, ⟨160, false, false, false⟩])).2
      = button_event_t.BTN_EVT_UP_PRESSED ∧
    ((⟨250, true, false, false⟩ : poll_input_t).up_pressed = true ∧
      level_before (fun q => q.up_pressed) buttons_zero.s_btn_up.current_state
          [⟨100, true, false, false⟩, ⟨110, true, false, false⟩, ⟨120, false, false, false⟩,
            ⟨150, true, false, false⟩, ⟨160, false, false, false⟩] = false ∧
      u32_sub (⟨250, true, false, false⟩ : poll_input_t).now
          (last_seen_pressed (fun q => q.up_pressed) buttons_zero.s_btn_up.last_press_time
            [⟨100, true, false, false⟩, ⟨110, true, false, false⟩, ⟨120, false, false, false⟩,
              ⟨150, true, false, false⟩, ⟨160, false, false, false⟩]) > 50) ∧
    buttons_events buttons_zero
        [⟨100, true, false, false⟩, ⟨110, true, false, false⟩, ⟨120, false, false, false⟩,
          ⟨150, true, false, false⟩, ⟨160, false, false, false⟩, ⟨250, true, false, false⟩]
      = [button_event_t.BTN_EVT_UP_PRESSED, button_event_t.BTN_EVT_NONE, button_event_t.BTN_EVT_NONE,
          button_event_t.BTN_EVT_NONE, button_event_t.BTN_EVT_NONE,
          button_event_t.BTN_EVT_UP_PRESSED] :=
  ⟨by decide,
    (simple_debounce_only_on_accepted_edge buttons_zero
      [⟨100, true, false, false⟩, ⟨110, true, false, false⟩, ⟨120, false, false, false⟩,
        ⟨150, true, false, false⟩, ⟨160, false, false, false⟩] ⟨250, true, false, false⟩).1
      (by decide),
    by decide⟩

/-- C18: over any sequence of polls with the raw Ok level pressed at every
poll, from any button state and at any timestamps, at most one poll returns
the long-press event. -/
theorem ok_long_at_most_once (b : buttons_t) (tr : List poll_input_t)
    (hheld : ∀ q ∈ tr, q.ok_pressed = true) :
    (buttons_events b tr).count button_event_t.BTN_EVT_OK_LONG ≤ 1 := by
  cases tr with
  | nil => simp [buttons_events]
  | cons q rest =>
    have hq : q.ok_pressed = true := hheld q (List.mem_cons_self _ _)
    have hrest : ∀ x ∈ rest, x.ok_pressed = true := fun x hx => hheld x (List.mem_cons_of_mem _ hx)
    by_cases hc : b.s_btn_ok.current_state = true
    · obtain ⟨_, _, h3, _, _⟩ := ok_held_run (q :: rest) b hheld hc
      split_ifs at h3 <;> omega
    · have hc2 : b.s_btn_ok.current_state = false := by simpa using hc
      obtain ⟨e1, e2, _⟩ := ok_edge_step q.now b.s_btn_ok hc2
      have hst := buttons_poll_ok_state q b
      rw [hq] at hst
      rw [← hst] at e2
      have hev : ¬ (buttons_poll q b).2 = button_event_t.BTN_EVT_OK_LONG := by
        intro h
        have := (buttons_poll_long_iff q b).mp h
        rw [hq, e1] at this
        exact absurd this (by decide)
      have hb : ((buttons_poll q b).2 == button_event_t.BTN_EVT_OK_LONG) = false := by
        simpa using hev
      obtain ⟨_, _, h3, _, _⟩ := ok_held_run rest (buttons_poll q b).1 hrest e2
      simp only [buttons_events, List.count_cons, hb]
      split_ifs at h3 <;> simp at h3 ⊢ <;> omega

/-- Witness for C18: Ok held over four polls from start-up, the long press
fires at the second of them only. -/
theorem ok_long_at_most_once_witness :
    (∀ q ∈ [(⟨100, false, false, true⟩ : poll_input_t), ⟨1200, false, false, true⟩,
        ⟨2400, false, false, true⟩, ⟨9000, true, false, true⟩], q.ok_pressed = true) ∧
    (buttons_events buttons_zero [⟨100, false, false, true⟩, ⟨1200, false, false, true⟩,
        ⟨2400, false, false, true⟩, ⟨9000, true, false, true⟩]).count
      button_event_t.BTN_EVT_OK_LONG ≤ 1 ∧
    buttons_events buttons_zero [⟨100, false, false, true⟩, ⟨1200, false, false, true⟩,
        ⟨2400, false, false, true⟩, ⟨9000, true, false, true⟩]
      = [button_event_t.BTN_EVT_NONE, button_event_t.BTN_EVT_OK_LONG, button_event_t.BTN_EVT_NONE,
          button_event_t.BTN_EVT_UP_PRESSED] :=
  ⟨by decide,
    ok_long_at_most_once buttons_zero [⟨100, false, false, true⟩, ⟨1200, false, false, true⟩,
        ⟨2400, false, false, true⟩, ⟨9000, true, false, true⟩] (by decide),
    by decide⟩

/-- Counterexample to C19 as stated: Ok pressed at tick 100 (accepted) and
still held at tick 1100, that is 1000 ms later, whether polled once or every
10 ms in between; no poll up to and including tick 1100 returns the
long-press event. -/
theorem ok_long_not_fired_at_1000 :
    u32_sub 1100 100 ≥ 1000 ∧
    (buttons_events buttons_zero [⟨100, false, false, true⟩, ⟨1100, false, false, true⟩]).count
      button_event_t.BTN_EVT_OK_LONG = 0 ∧
    (ok_polls 100 true 101).getLast? = some ⟨1100, false, false, true⟩ ∧
    (buttons_events buttons_zero (ok_polls 100 true 101)).count
      button_event_t.BTN_EVT_OK_LONG = 0 := by
  refine ⟨by decide, by decide, by decide, by decide⟩

/-- C19 (amended): if Ok goes down at an accepted press edge at tick t0 and
is held at every poll up to a poll at tick t with t - t0 greater than
1000 ms, then exactly one poll from the edge up to and including that poll
has returned the long-press event, after that poll the long-press flag is
set and no double-click wait is pending, and any poll that returns the
long-press event leaves no double-click wait pending. -/
theorem ok_long_fires_once_after_hold (b : buttons_t) (e : poll_input_t)
    (tr : List poll_input_t) (p : poll_input_t)
    (hidle : b.s_btn_ok.current_state = false)
    (he : e.ok_pressed = true)
    (hacc : u32_sub e.now b.s_btn_ok.last_press_time > DEBOUNCE_MS)
    (hheld : ∀ q ∈ tr, q.ok_pressed = true)
    (hp : p.ok_pressed = true)
    (hlong : u32_sub p.now e.now > LONG_PRESS_MS) :
    (buttons_events b (e :: (tr ++ [p]))).count button_event_t.BTN_EVT_OK_LONG = 1 ∧
    (buttons_run b (e :: (tr ++ [p]))).s_btn_ok.long_press_fired = true ∧
    (buttons_run b (e :: (tr ++ [p]))).s_btn_ok.waiting_for_double = false ∧
    (∀ (b2 : buttons_t) (q : poll_input_t),
      (buttons_poll q b2).2 = button_event_t.BTN_EVT_OK_LONG →
        (buttons_poll q b2).1.s_btn_ok.waiting_for_double = false) := by
  -- the edge poll
  obtain ⟨e1, e2, _, _, e5, _⟩ := ok_edge_step e.now b.s_btn_ok hidle
  obtain ⟨e5a, e5b⟩ := e5 hacc
  have hst := buttons_poll_ok_state e b
  rw [he] at hst
  rw [← hst] at e2 e5a e5b
  have hev : ¬ (buttons_poll e b).2 = button_event_t.BTN_EVT_OK_LONG := by
    intro h
    have := (buttons_poll_long_iff e b).mp h
    rw [he, e1] at this
    exact absurd this (by decide)
  have hb : ((buttons_poll e b).2 == button_event_t.BTN_EVT_OK_LONG) = false := by
    simpa using hev
  -- the held polls before the last one
  obtain ⟨t1, t2, _, _, _⟩ := ok_held_run tr (buttons_poll e b).1 hheld e2
  -- the whole hold
  have hall : ∀ q ∈ tr ++ [p], q.ok_pressed = true := by
    intro q hq
    rcases List.mem_append.mp hq with h | h
    · exact hheld q h
    · rw [List.mem_singleton.mp h]; exact hp
  obtain ⟨_, _, a3, a4, _⟩ := ok_held_run (tr ++ [p]) (buttons_poll e b).1 hall e2
  -- the last poll sets the flag if it is not set yet
  have hfin : (buttons_run (buttons_poll e b).1 (tr ++ [p])).s_btn_ok.long_press_fired = true := by
    rw [buttons_run_append]
    simp only [buttons_run]
    have hst2 := buttons_poll_ok_state p (buttons_run (buttons_poll e b).1 tr)
    rw [hp] at hst2
    rw [hst2]
    obtain ⟨_, _, s3, s4⟩ := ok_held_step p.now (buttons_run (buttons_poll e b).1 tr).s_btn_ok t1
    by_cases hf : (buttons_run (buttons_poll e b).1 tr).s_btn_ok.long_press_fired = false
    · have hcond : (buttons_run (buttons_poll e b).1 tr).s_btn_ok.long_press_fired = false ∧
          u32_sub p.now (buttons_run (buttons_poll e b).1 tr).s_btn_ok.press_start_time
            > LONG_PRESS_MS := by
        refine ⟨hf, ?_⟩
        rw [t2, e5a]
        exact hlong
      exact (s3 hcond).2.1
    · have hf2 : (buttons_run (buttons_poll e b).1 tr).s_btn_ok.long_press_fired = true := by
        simpa using hf
      have hn : ¬ ((buttons_run (buttons_poll e b).1 tr).s_btn_ok.long_press_fired = false ∧
          u32_sub p.now (buttons_run (buttons_poll e b).1 tr).s_btn_ok.press_start_time
            > LONG_PRESS_MS) := by
        intro h
        rw [hf2] at h
        exact absurd h.1 (by decide)
      rw [(s4 hn).2.1]
      exact hf2
  refine ⟨?_, ?_, ?_, ?_⟩
  · simp only [buttons_events, List.count_cons, hb]
    rw [e5b, hfin] at a3
    simpa using a3
  · simp only [buttons_run]
    exact hfin
  · simp only [buttons_run]
    exact a4 e5b hfin
  · intro b2 q hq
    rw [buttons_poll_ok_state]
    exact ok_long_clears_wait _ _ _ ((buttons_poll_long_iff q b2).mp hq)

/-- Witness for C19 (amended): press accepted at tick 100, held at ticks 600
and 1101. -/
theorem ok_long_fires_once_after_hold_witness :
    (buttons_zero.s_btn_ok.current_state = false ∧
      (⟨100, false, false, true⟩ : poll_input_t).ok_pressed = true ∧
      u32_sub (⟨100, false, false, true⟩ : poll_input_t).now buttons_zero.s_btn_ok.last_press_time
        > DEBOUNCE_MS ∧
      (∀ q ∈ [(⟨600, false, false, true⟩ : poll_input_t)], q.ok_pressed = true) ∧
      (⟨1101, false, false, true⟩ : poll_input_t).ok_pressed = true ∧
      u32_sub (⟨1101, false, false, true⟩ : poll_input_t).now
        (⟨100, false, false, true⟩ : poll_input_t).now > LONG_PRESS_MS) ∧
    (buttons_events buttons_zero
        (⟨100, false, false, true⟩ :: ([⟨600, false, false, true⟩] ++ [⟨1101, false, false, true⟩]))).count
      button_event_t.BTN_EVT_OK_LONG = 1 ∧
    buttons_events buttons_zero
        (⟨100, false, false, true⟩ :: ([⟨600, false, false, true⟩] ++ [⟨1101, false, false, true⟩]))
      = [button_event_t.BTN_EVT_NONE, button_event_t.BTN_EVT_NONE, button_event_t.BTN_EVT_OK_LONG] :=
  ⟨by decide,
    (ok_long_fires_once_after_hold buttons_zero ⟨100, false, false, true⟩
      [⟨600, false, false, true⟩] ⟨1101, false, false, true⟩
      (by decide) (by decide) (by decide) (by decide) (by decide) (by decide)).1,
    by decide⟩

/-- Counterexample to C20 as stated: from start-up, Ok is pressed at tick 100
and read pressed for 10 polls, read released at ticks 200 and 210, pressed
again at tick 220 (120 ms after the first press) and read pressed for 90
polls up to tick 1110, then released.  Each hold is shorter than 1000 ms,
but the second press edge comes 30 ms after the last pressed reading and is
not accepted, so the long-press timer still runs from tick 100: the trace
yields the long-press event at tick 1110 and no double-click event. -/
theorem double_click_lost_after_bounce :
    (buttons_events buttons_zero (double_click_trace 100 10 2 90 3)).count
        button_event_t.BTN_EVT_OK_DOUBLE = 0 ∧
    (buttons_events buttons_zero (double_click_trace 100 10 2 90 3)).count
        button_event_t.BTN_EVT_OK_LONG = 1 ∧
    (buttons_events buttons_zero (double_click_trace 100 10 2 90 3)).get? 101
        = some button_event_t.BTN_EVT_OK_LONG ∧
    (double_click_trace 100 10 2 90 3).get? 101 = some ⟨1110, false, false, true⟩ ∧
    (double_click_trace 100 10 2 90 3).get? 12 = some ⟨220, false, false, true⟩ := by
  decide

/-- C20 (amended): from an idle Ok record, polling every 10 ms with Up and
Down released, an accepted press read pressed for at most 100 polls, a
release of 5 to 40 polls (so that the second press edge comes more than
50 ms after the last pressed reading and is accepted, and within the 400 ms
window), a second press read pressed for at most 100 polls and a second
release followed by any number of released polls yield no event except one
double-click event, returned at the second release; in particular no
single-click event. -/
theorem double_click_classified (b : buttons_t) (t0 n1 g n2 m : Nat)
    (hidle : b.s_btn_ok.current_state = false ∧ b.s_btn_ok.waiting_for_double = false)
    (hacc : u32_sub t0 b.s_btn_ok.last_press_time > DEBOUNCE_MS)
    (hn1 : 1 ≤ n1 ∧ n1 ≤ 100) (hg : 5 ≤ g ∧ g ≤ 40) (hn2 : 1 ≤ n2 ∧ n2 ≤ 100) (hm : 1 ≤ m) :
    buttons_events b (double_click_trace t0 n1 g n2 m) =
      List.replicate (n1 + g + n2) button_event_t.BTN_EVT_NONE ++
        (button_event_t.BTN_EVT_OK_DOUBLE :: List.replicate (m - 1) button_event_t.BTN_EVT_NONE) := by
  obtain ⟨a, rfl⟩ : ∃ a, n1 = a + 1 := ⟨n1 - 1, by omega⟩
  obtain ⟨c, rfl⟩ : ∃ c, g = c + 1 := ⟨g - 1, by omega⟩
  obtain ⟨d, rfl⟩ : ∃ d, n2 = d + 1 := ⟨n2 - 1, by omega⟩
  obtain ⟨e, rfl⟩ : ∃ e, m = e + 1 := ⟨m - 1, by omega⟩
  -- first hold
  obtain ⟨p1, p2, p3, p4, p5⟩ := ok_press_phase a t0 b (by omega) hidle.1 hacc
  rw [hidle.2] at p4
  -- first release
  have hq1 : ∀ k, k < c + 1 → ¬ u32_sub (t0 + 10 * (a + 1) + 10 * k)
      (buttons_run b (ok_polls t0 true (a + 1))).s_btn_ok.last_press_time > DOUBLE_CLICK_MS := by
    intro k hk
    rw [p5]
    have e1 : t0 + 10 * (a + 1) + 10 * k = t0 + 10 * a + (10 + 10 * k) := by omega
    rw [e1, u32_sub_add _ _ (by omega)]
    unfold DOUBLE_CLICK_MS
    omega
  obtain ⟨q1, q2, q3, q4, q5⟩ :=
    ok_first_release_phase c (t0 + 10 * (a + 1)) (buttons_run b (ok_polls t0 true (a + 1)))
      p2 p3 p4 hq1
  rw [← buttons_run_append] at q2 q3 q4 q5
  rw [p5] at q5
  -- second hold
  have hacc2 : u32_sub (t0 + 10 * (a + 1 + (c + 1)))
      (buttons_run b (ok_polls t0 true (a + 1) ++ ok_polls (t0 + 10 * (a + 1)) false (c + 1))).s_btn_ok.last_press_time
        > DEBOUNCE_MS := by
    rw [q5]
    have e1 : t0 + 10 * (a + 1 + (c + 1)) = t0 + 10 * a + (20 + 10 * c) := by omega
    rw [e1, u32_sub_add _ _ (by omega)]
    unfold DEBOUNCE_MS
    omega
  obtain ⟨r1, r2, r3, r4, _⟩ :=
    ok_press_phase d (t0 + 10 * (a + 1 + (c + 1)))
      (buttons_run b (ok_polls t0 true (a + 1) ++ ok_polls (t0 + 10 * (a + 1)) false (c + 1)))
      (by omega) q2 hacc2
  rw [q4] at r4
  rw [← buttons_run_append] at r2 r3 r4
  -- second release
  have s1 := ok_second_release_phase e (t0 + 10 * (a + 1 + (c + 1) + (d + 1)))
    (buttons_run b ((ok_polls t0 true (a + 1) ++ ok_polls (t0 + 10 * (a + 1)) false (c + 1)) ++
      ok_polls (t0 + 10 * (a + 1 + (c + 1))) true (d + 1))) r2 r3 r4
  -- assembly
  unfold double_click_trace
  rw [buttons_events_append, p1, buttons_events_append, q1, ← buttons_run_append,
    buttons_events_append, r1, ← buttons_run_append, s1]
  simp only [Nat.add_sub_cancel]
  rw [← List.append_assoc, ← List.append_assoc, ← List.replicate_add, ← List.replicate_add]

/-- Witness for C20 (amended): press at tick 100 for 10 polls, 10 polls
released, 10 polls pressed, 5 polls released; the double-click event is
returned at the 31st poll. -/
theorem double_click_classified_witness :
    ((buttons_zero.s_btn_ok.current_state = false ∧
        buttons_zero.s_btn_ok.waiting_for_double = false) ∧
      u32_sub 100 buttons_zero.s_btn_ok.last_press_time > DEBOUNCE_MS ∧
      (1 ≤ 10 ∧ 10 ≤ 100) ∧ (5 ≤ 10 ∧ 10 ≤ 40) ∧ (1 ≤ 10 ∧ 10 ≤ 100) ∧ 1 ≤ 5) ∧
    buttons_events buttons_zero (double_click_trace 100 10 10 10 5) =
      List.replicate (10 + 10 + 10) button_event_t.BTN_EVT_NONE ++
        (button_event_t.BTN_EVT_OK_DOUBLE ::
          List.replicate (5 - 1) button_event_t.BTN_EVT_NONE) :=
  ⟨by decide,
    double_click_classified buttons_zero 100 10 10 10 5 (by decide) (by decide) (by decide)
      (by decide) (by decide) (by decide)⟩

/-! ## Single click and the release after a long press -/

theorem ok_polls_append (p : Bool) (n m : Nat) :
    ∀ t : Nat, ok_polls t p (n + m) = ok_polls t p n ++ ok_polls (t + 10 * n) p m := by
  induction n with
  | zero =>
    intro t
    simp [ok_polls]
  | succ k ih =>
    intro t
    have e : k + 1 + m = (k + m) + 1 := by omega
    rw [e]
    simp only [ok_polls, List.cons_append]
    rw [ih (t + 10)]
    have e2 : t + 10 + 10 * k = t + 10 * (k + 1) := by omega
    rw [e2]

theorem ok_polls_get (p : Bool) (n : Nat) :
    ∀ (t k : Nat), k < n → (ok_polls t p n).get? k = some ⟨t + 10 * k, false, false, p⟩ := by
  induction n with
  | zero =>
    intro t k hk
    omega
  | succ m ih =>
    intro t k hk
    cases k with
    | zero => simp [ok_polls]
    | succ j =>
      simp only [ok_polls, List.get?_cons_succ]
      rw [ih (t + 10) j (by omega)]
      have e : t + 10 + 10 * j = t + 10 * (j + 1) := by omega
      rw [e]

theorem ok_polls_length (p : Bool) (n : Nat) : ∀ t : Nat, (ok_polls t p n).length = n := by
  induction n with
  | zero => intro t; rfl
  | succ m ih =>
    intro t
    simp [ok_polls, ih]

/-- Released polls of Ok starting once the double-click window has run out
while a wait is pending: the single-click event at the first poll, then no
event. -/
theorem ok_single_timeout_phase (e t : Nat) (b : buttons_t)
    (hc : b.s_btn_ok.current_state = false) (hw : b.s_btn_ok.waiting_for_double = true)
    (ht : u32_sub t b.s_btn_ok.last_press_time > DOUBLE_CLICK_MS) :
    buttons_events b (ok_polls t false (e + 1))
      = button_event_t.BTN_EVT_OK_SINGLE :: List.replicate e button_event_t.BTN_EVT_NONE := by
  obtain ⟨s1, _, _, _, _, _, s7⟩ := ok_idle_step t b.s_btn_ok hc
  obtain ⟨e1, e2⟩ := s7 hw ht
  have hst := buttons_poll_ok_state ⟨t, false, false, false⟩ b
  have hev := buttons_poll_ok_only ⟨t, false, false, false⟩ b rfl rfl
  simp only at hst hev
  rw [← hst] at s1 e2
  have hq2 : (buttons_poll ⟨t, false, false, false⟩ b).1.s_btn_ok.waiting_for_double = true →
      ∀ k, k < e → ¬ u32_sub (t + 10 + 10 * k)
        (buttons_poll ⟨t, false, false, false⟩ b).1.s_btn_ok.last_press_time > DOUBLE_CLICK_MS := by
    intro h
    rw [e2] at h
    exact absurd h (by decide)
  obtain ⟨i1, _⟩ :=
    ok_polls_idle_quiet e (t + 10) (buttons_poll ⟨t, false, false, false⟩ b).1 s1 hq2
  simp only [ok_polls, buttons_events]
  rw [i1, hev, e1]

/-- C21: from an idle Ok record, polling every 10 ms with Up and Down
released, an accepted press read pressed for `a + 1` polls (`a ≤ 100`, so no
long press) followed by `m` released polls returns no event while `m ≤ 40`,
and for `m = 41 + e` returns the single-click event exactly once, at the 41st
released poll, and no other event: no double-click and no long-press event.
The poll that returns the single click runs at tick `t0 + 10 * a + 410`, which
is 410 ms, more than the 400 ms window, after the last poll that read the
button pressed (tick `t0 + 10 * a`). -/
theorem single_click_classified (b : buttons_t) (t0 a : Nat)
    (hidle : b.s_btn_ok.current_state = false ∧ b.s_btn_ok.waiting_for_double = false)
    (hacc : u32_sub t0 b.s_btn_ok.last_press_time > DEBOUNCE_MS) (ha : a ≤ 100) :
    (∀ m, m ≤ 40 →
      buttons_events b (single_click_trace t0 (a + 1) m)
        = List.replicate (a + 1 + m) button_event_t.BTN_EVT_NONE) ∧
    (∀ e,
      buttons_events b (single_click_trace t0 (a + 1) (41 + e))
          = List.replicate (a + 41) button_event_t.BTN_EVT_NONE ++
            (button_event_t.BTN_EVT_OK_SINGLE :: List.replicate e button_event_t.BTN_EVT_NONE) ∧
        (single_click_trace t0 (a + 1) (41 + e)).get? a = some ⟨t0 + 10 * a, false, false, true⟩ ∧
        (single_click_trace t0 (a + 1) (41 + e)).get? (a + 41)
          = some ⟨t0 + 10 * a + 410, false, false, false⟩ ∧
        u32_sub (t0 + 10 * a + 410) (t0 + 10 * a) > DOUBLE_CLICK_MS) := by
  obtain ⟨p1, p2, p3, p4, p5⟩ := ok_press_phase a t0 b ha hidle.1 hacc
  rw [hidle.2] at p4
  have hq : ∀ c, c ≤ 39 → ∀ k, k < c + 1 → ¬ u32_sub (t0 + 10 * (a + 1) + 10 * k)
      (buttons_run b (ok_polls t0 true (a + 1))).s_btn_ok.last_press_time > DOUBLE_CLICK_MS := by
    intro c hc k hk
    rw [p5]
    have e1 : t0 + 10 * (a + 1) + 10 * k = t0 + 10 * a + (10 + 10 * k) := by omega
    rw [e1, u32_sub_add _ _ (by omega)]
    unfold DOUBLE_CLICK_MS
    omega
  constructor
  · intro m hm
    unfold single_click_trace
    rw [buttons_events_append, p1]
    cases m with
    | zero => simp [ok_polls, buttons_events]
    | succ c =>
      obtain ⟨q1, _⟩ :=
        ok_first_release_phase c (t0 + 10 * (a + 1)) (buttons_run b (ok_polls t0 true (a + 1)))
          p2 p3 p4 (hq c (by omega))
      rw [q1, ← List.replicate_add]
  · intro e
    obtain ⟨q1, q2, _, q4, q5⟩ :=
      ok_first_release_phase 39 (t0 + 10 * (a + 1)) (buttons_run b (ok_polls t0 true (a + 1)))
        p2 p3 p4 (hq 39 (by omega))
    rw [← buttons_run_append] at q2 q4 q5
    rw [p5] at q5
    have ht : u32_sub (t0 + 10 * (a + 1) + 10 * 40)
        (buttons_run b (ok_polls t0 true (a + 1) ++
          ok_polls (t0 + 10 * (a + 1)) false (39 + 1))).s_btn_ok.last_press_time
          > DOUBLE_CLICK_MS := by
      rw [q5]
      have e1 : t0 + 10 * (a + 1) + 10 * 40 = t0 + 10 * a + 410 := by omega
      rw [e1, u32_sub_add _ _ (by omega)]
      decide
    have r1 := ok_single_timeout_phase e (t0 + 10 * (a + 1) + 10 * 40) _ q2 q4 ht
    refine ⟨?_, ?_, ?_, ?_⟩
    · unfold single_click_trace
      have e41 : 41 + e = 40 + (e + 1) := by omega
      rw [e41, ok_polls_append false 40 (e + 1), buttons_events_append, p1,
        buttons_events_append, q1, ← buttons_run_append, r1, ← List.append_assoc,
        ← List.replicate_add]
    · unfold single_click_trace
      rw [List.get?_eq_getElem?, List.getElem?_append_left (by rw [ok_polls_length]; omega),
        ← List.get?_eq_getElem?, ok_polls_get true (a + 1) t0 a (by omega)]
    · unfold single_click_trace
      rw [List.get?_eq_getElem?, List.getElem?_append_right (by rw [ok_polls_length]; omega),
        ← List.get?_eq_getElem?, ok_polls_length,
        ok_polls_get false (41 + e) _ _ (by omega)]
      have e2 : t0 + 10 * (a + 1) + 10 * (a + 41 - (a + 1)) = t0 + 10 * a + 410 := by omega
      rw [e2]
    · rw [u32_sub_add _ _ (by omega)]
      decide

/-- Witness for C21: press at tick 100 read pressed for 10 polls, then 45
released polls; the single click is the 51st event and the only one. -/
theorem single_click_classified_witness :
    ((buttons_zero.s_btn_ok.current_state = false ∧
        buttons_zero.s_btn_ok.waiting_for_double = false) ∧
      u32_sub 100 buttons_zero.s_btn_ok.last_press_time > DEBOUNCE_MS ∧ 9 ≤ 100) ∧
    buttons_events buttons_zero (single_click_trace 100 (9 + 1) (41 + 4))
      = List.replicate (9 + 41) button_event_t.BTN_EVT_NONE ++
        (button_event_t.BTN_EVT_OK_SINGLE :: List.replicate 4 button_event_t.BTN_EVT_NONE) ∧
    buttons_events buttons_zero (single_click_trace 100 (9 + 1) 40)
      = List.replicate (9 + 1 + 40) button_event_t.BTN_EVT_NONE :=
  ⟨by decide,
    ((single_click_classified buttons_zero 100 9 (by decide) (by decide) (by decide)).2 4).1,
    (single_click_classified buttons_zero 100 9 (by decide) (by decide) (by decide)).1 40
      (by decide)⟩

theorem ok_long_state (n : Nat) (p : Bool) (c : button_state_t)
    (h : ok_event n p c = button_event_t.BTN_EVT_OK_LONG) :
    (ok_next n p c).current_state = true ∧ (ok_next n p c).long_press_fired = true ∧
      (ok_next n p c).waiting_for_double = false := by
  obtain ⟨ls, cur, lpt, pst, w, f⟩ := c
  revert h
  by_cases h1 : u32_sub n lpt > DEBOUNCE_MS <;>
  by_cases h2 : u32_sub n pst > LONG_PRESS_MS <;>
  by_cases h3 : u32_sub n lpt > DOUBLE_CLICK_MS <;>
  cases p <;> cases cur <;> cases w <;> cases f <;>
  simp [ok_next, ok_event, ok_block, button_bookkeep, h1, h2, h3]

/-- A call without a new press edge of Ok, with no double-click wait pending
and the long press already fired if the button is down: no Ok event, and the
same holds afterwards. -/
theorem ok_quiet_step (n : Nat) (p : Bool) (c : button_state_t)
    (hw : c.waiting_for_double = false)
    (hf : c.current_state = true → c.long_press_fired = true)
    (hp : p = true → c.current_state = true) :
    ok_event n p c = button_event_t.BTN_EVT_NONE ∧
      (ok_next n p c).waiting_for_double = false ∧
      (ok_next n p c).current_state = p ∧
      ((ok_next n p c).current_state = true → (ok_next n p c).long_press_fired = true) := by
  obtain ⟨ls, cur, lpt, pst, w, f⟩ := c
  simp only at hw hf hp
  subst hw
  revert hf hp
  by_cases h1 : u32_sub n lpt > DEBOUNCE_MS <;>
  by_cases h2 : u32_sub n pst > LONG_PRESS_MS <;>
  by_cases h3 : u32_sub n lpt > DOUBLE_CLICK_MS <;>
  cases p <;> cases cur <;> cases f <;>
  simp [ok_next, ok_event, ok_block, button_bookkeep, h1, h2, h3]

theorem buttons_poll_no_click (i : poll_input_t) (b : buttons_t)
    (h : ok_event i.now i.ok_pressed b.s_btn_ok = button_event_t.BTN_EVT_NONE) :
    (buttons_poll i b).2 ≠ button_event_t.BTN_EVT_OK_SINGLE ∧
      (buttons_poll i b).2 ≠ button_event_t.BTN_EVT_OK_DOUBLE := by
  rw [buttons_poll_event, h]
  simp only [ne_eq, not_true_eq_false, if_false]
  split_ifs <;> simp

/-- A run of polls with Ok read released, from a record with no wait
pending and the long press already fired if the button was down: no call
returns a single or double click. -/
theorem ok_released_run (released : List poll_input_t) :
    ∀ b : buttons_t, (∀ q ∈ released, q.ok_pressed = false) →
      b.s_btn_ok.waiting_for_double = false →
      (b.s_btn_ok.current_state = true → b.s_btn_ok.long_press_fired = true) →
      ∀ e ∈ buttons_events b released,
        e ≠ button_event_t.BTN_EVT_OK_SINGLE ∧ e ≠ button_event_t.BTN_EVT_OK_DOUBLE := by
  induction released with
  | nil =>
    intro b _ _ _ e he
    simp [buttons_events] at he
  | cons q rest ih =>
    intro b hrel hw hf e he
    have hq : q.ok_pressed = false := hrel q (List.mem_cons_self _ _)
    obtain ⟨s1, s2, s3, s4⟩ := ok_quiet_step q.now q.ok_pressed b.s_btn_ok hw hf
      (by rw [hq]; intro h; exact absurd h (by decide))
    rw [← buttons_poll_ok_state] at s2 s3 s4
    simp only [buttons_events, List.mem_cons] at he
    rcases he with he | he
    · rw [he]
      exact buttons_poll_no_click q b s1
    · exact ih _ (fun x hx => hrel x (List.mem_cons_of_mem _ hx)) s2 s4 e he

/-- A run of polls in which Ok is read pressed, then released, with no new
press edge: from a record of a button held down with no wait pending and the
long press already fired, no call returns a single or double click. -/
theorem ok_quiet_run (held released : List poll_input_t)
    (hrel : ∀ q ∈ released, q.ok_pressed = false) :
    ∀ b : buttons_t, (∀ q ∈ held, q.ok_pressed = true) →
      b.s_btn_ok.waiting_for_double = false →
      b.s_btn_ok.long_press_fired = true →
      b.s_btn_ok.current_state = true →
      ∀ e ∈ buttons_events b (held ++ released),
        e ≠ button_event_t.BTN_EVT_OK_SINGLE ∧ e ≠ button_event_t.BTN_EVT_OK_DOUBLE := by
  induction held with
  | nil =>
    intro b _ hw hf _
    exact ok_released_run released b hrel hw (fun _ => hf)
  | cons q rest ih =>
    intro b hheld hw hf hc e he
    have hq : q.ok_pressed = true := hheld q (List.mem_cons_self _ _)
    obtain ⟨s1, s2, s3, s4⟩ := ok_quiet_step q.now q.ok_pressed b.s_btn_ok hw (fun _ => hf)
      (fun _ => hc)
    rw [← buttons_poll_ok_state] at s2 s3 s4
    rw [hq] at s3
    simp only [List.cons_append, buttons_events, List.mem_cons] at he
    rcases he with he | he
    · rw [he]
      exact buttons_poll_no_click q b s1
    · exact ih _ (fun x hx => hheld x (List.mem_cons_of_mem _ hx)) s2 (s4 s3) s3 e he

/-- C30: once a call has returned the long-press event, any number of
further calls with Ok still read pressed followed by any number of calls with
Ok read released (whatever the ticks and whatever Up and Down do) return
neither a single-click nor a double-click event: not at the release and not
later, up to the next press of Ok.  The record before the long press is
arbitrary, so a double-click wait may have been pending when the hold
started. -/
theorem no_click_after_long_press (b : buttons_t) (p0 : poll_input_t)
    (held released : List poll_input_t)
    (hlong : (buttons_poll p0 b).2 = button_event_t.BTN_EVT_OK_LONG)
    (hheld : ∀ q ∈ held, q.ok_pressed = true)
    (hrel : ∀ q ∈ released, q.ok_pressed = false) :
    ∀ e ∈ buttons_events (buttons_poll p0 b).1 (held ++ released),
      e ≠ button_event_t.BTN_EVT_OK_SINGLE ∧ e ≠ button_event_t.BTN_EVT_OK_DOUBLE := by
  obtain ⟨l1, l2, l3⟩ :=
    ok_long_state p0.now p0.ok_pressed b.s_btn_ok ((buttons_poll_long_iff p0 b).mp hlong)
  rw [← buttons_poll_ok_state] at l1 l2 l3
  exact ok_quiet_run held released hrel _ hheld l3 l2 l1

/-- Witness for C30: Ok is clicked (ticks 100 and 200), pressed again at tick
300 with the double-click wait pending, and still held at tick 1301, where
the long press is returned; two more pressed polls and three released polls
(the last one 2 s later) follow. -/
theorem no_click_after_long_press_witness :
    ((buttons_run buttons_zero [⟨100, false, false, true⟩, ⟨200, false, false, false⟩,
          ⟨300, false, false, true⟩]).s_btn_ok.waiting_for_double = true ∧
      (buttons_poll ⟨1301, false, false, true⟩
          (buttons_run buttons_zero [⟨100, false, false, true⟩, ⟨200, false, false, false⟩,
            ⟨300, false, false, true⟩])).2 = button_event_t.BTN_EVT_OK_LONG) ∧
    ∀ e ∈ buttons_events
        (buttons_poll ⟨1301, false, false, true⟩
          (buttons_run buttons_zero [⟨100, false, false, true⟩, ⟨200, false, false, false⟩,
            ⟨300, false, false, true⟩])).1
        ([⟨1310, false, false, true⟩, ⟨1320, true, false, true⟩] ++
          [⟨1330, false, false, false⟩, ⟨1340, false, true, false⟩, ⟨3340, false, false, false⟩]),
      e ≠ button_event_t.BTN_EVT_OK_SINGLE ∧ e ≠ button_event_t.BTN_EVT_OK_DOUBLE :=
  ⟨by decide,
    no_click_after_long_press
      (buttons_run buttons_zero [⟨100, false, false, true⟩, ⟨200, false, false, false⟩,
        ⟨300, false, false, true⟩])
      ⟨1301, false, false, true⟩ [⟨1310, false, false, true⟩, ⟨1320, true, false, true⟩]
      [⟨1330, false, false, false⟩, ⟨1340, false, true, false⟩, ⟨3340, false, false, false⟩]
      (by decide) (by decide) (by decide)⟩

/-! ## State machine: transitions, ignored events and gating -/

/-- C22: a state change to the current state returns the machine unchanged
(no field of the context, no motor channel, no redraw flag, no sound);
a change to a different state sets the current state to the target, sets
the redraw flag and appends exactly one click to the buzzer trace. -/
theorem fsm_change_state_signals_once (s : system_t) (d : system_state_t) :
    if s.g_ctx.current_state = d then fsm_change_state d s = s
    else
      (fsm_change_state d s).g_ctx.current_state = d ∧
        (fsm_change_state d s).g_ctx.display_dirty = true ∧
        (fsm_change_state d s).buzzer_log = s.buzzer_log ++ [buzzer_sound_t.BUZZER_CLICK] := by
  by_cases h : s.g_ctx.current_state = d
  · simp [h, fsm_change_state]
  · rw [if_neg h]
    cases hs : s.g_ctx.current_state <;> cases d <;>
      simp_all [fsm_change_state, buzzer_click, motor_stop_all]

/-- C23: a state change into the main menu from another state sets the menu
cursor to 0, and a state change into the settings mode from another state
sets the settings sub-menu to its root and the settings cursor to 0,
whatever the previous values. -/
theorem fsm_change_state_entry_actions (s : system_t) (d : system_state_t)
    (hne : s.g_ctx.current_state ≠ d) :
    (d = system_state_t.STATE_MAIN_MENU → (fsm_change_state d s).g_ctx.menu_index = 0) ∧
    (d = system_state_t.STATE_MODE_SETTINGS →
      (fsm_change_state d s).g_ctx.settings_menu = settings_menu_t.SETTINGS_MAIN ∧
        (fsm_change_state d s).g_ctx.settings_index = 0) := by
  constructor
  · intro h
    subst h
    cases hs : s.g_ctx.current_state <;>
      simp_all [fsm_change_state, buzzer_click, motor_stop_all]
  · intro h
    subst h
    cases hs : s.g_ctx.current_state <;>
      simp_all [fsm_change_state, buzzer_click, motor_stop_all]

/-- Witness for C23: from the calibration sub-menu (cursor 3) into the main
menu, and from mecanum driving with stale settings cursors into the settings
mode. -/
theorem fsm_change_state_entry_actions_witness :
    (settings_system.g_ctx.current_state ≠ system_state_t.STATE_MAIN_MENU ∧
      settings_system.g_ctx.menu_index = 3) ∧
    (fsm_change_state system_state_t.STATE_MAIN_MENU settings_system).g_ctx.menu_index = 0 ∧
    ((fsm_change_state system_state_t.STATE_MODE_SETTINGS
          { settings_system with g_ctx := { settings_system.g_ctx with
              current_state := system_state_t.STATE_MODE_MECANUM } }).g_ctx.settings_menu
        = settings_menu_t.SETTINGS_MAIN ∧
      (fsm_change_state system_state_t.STATE_MODE_SETTINGS
          { settings_system with g_ctx := { settings_system.g_ctx with
              current_state := system_state_t.STATE_MODE_MECANUM } }).g_ctx.settings_index = 0) :=
  ⟨by decide,
    (fsm_change_state_entry_actions settings_system system_state_t.STATE_MAIN_MENU (by decide)).1 rfl,
    (fsm_change_state_entry_actions
      { settings_system with g_ctx := { settings_system.g_ctx with
          current_state := system_state_t.STATE_MODE_MECANUM } }
      system_state_t.STATE_MODE_SETTINGS (by decide)).2 rfl⟩

/-- C24: the event none leaves the whole machine unchanged in every state,
and in each driving mode the events Up, Down and single click leave the
whole machine unchanged: context, motor channels, sound trace and all other
state. -/
theorem ignored_button_events (s : system_t) :
    fsm_process_button button_event_t.BTN_EVT_NONE s = s ∧
    (is_driving_mode s.g_ctx.current_state →
      fsm_process_button button_event_t.BTN_EVT_UP_PRESSED s = s ∧
        fsm_process_button button_event_t.BTN_EVT_DOWN_PRESSED s = s ∧
        fsm_process_button button_event_t.BTN_EVT_OK_SINGLE s = s) := by
  constructor
  · simp [fsm_process_button]
  · intro h
    unfold is_driving_mode at h
    rcases h with h | h | h <;>
      simp [fsm_process_button, h, mode_mecanum_handle_button, mode_rc_handle_button,
        mode_voice_handle_button]

/-- Witness for C24: RC mode at full speed. -/
theorem ignored_button_events_witness :
    is_driving_mode (driving_system system_state_t.STATE_MODE_RC 255 0 false).g_ctx.current_state ∧
    (fsm_process_button button_event_t.BTN_EVT_UP_PRESSED
          (driving_system system_state_t.STATE_MODE_RC 255 0 false)
        = driving_system system_state_t.STATE_MODE_RC 255 0 false ∧
      fsm_process_button button_event_t.BTN_EVT_DOWN_PRESSED
          (driving_system system_state_t.STATE_MODE_RC 255 0 false)
        = driving_system system_state_t.STATE_MODE_RC 255 0 false ∧
      fsm_process_button button_event_t.BTN_EVT_OK_SINGLE
          (driving_system system_state_t.STATE_MODE_RC 255 0 false)
        = driving_system system_state_t.STATE_MODE_RC 255 0 false) :=
  ⟨by decide,
    (ignored_button_events (driving_system system_state_t.STATE_MODE_RC 255 0 false)).2 (by decide)⟩

/-- C25: when, after the supervision step of a control iteration, the peer
the current mode needs is not connected (or the mode is the main menu or the
settings mode), the iteration ends there: no interpreter runs and no speeds
are applied, so the whole machine, movement, stored wheel speeds and motor
channels included, is as the supervision step left it. -/
theorem control_gated_on_liveness (s : system_t) (now : Nat)
    (h : ¬ required_peer_connected (fsm_update now s)) :
    control_task_step now s = fsm_update now s := by
  unfold required_peer_connected at h
  unfold control_task_step
  cases hs : (fsm_update now s).g_ctx.current_state <;>
    cases hj : (fsm_update now s).g_ctx.joystick_connected <;>
    cases hv : (fsm_update now s).g_ctx.voice_connected <;>
    simp_all

/-- Witness for C25: mecanum mode with the joystick timed out; the stored
speeds stay (255,255,255,255), the movement is the stop set by the timeout
handling and the motors are stopped. -/
theorem control_gated_on_liveness_witness :
    ¬ required_peer_connected
        (fsm_update 1501 (driving_system system_state_t.STATE_MODE_MECANUM 255 0 false)) ∧
    control_task_step 1501 (driving_system system_state_t.STATE_MODE_MECANUM 255 0 false)
      = fsm_update 1501 (driving_system system_state_t.STATE_MODE_MECANUM 255 0 false) ∧
    (control_task_step 1501
        (driving_system system_state_t.STATE_MODE_MECANUM 255 0 false)).g_ctx.motor_speeds
      = ⟨255, 255, 255, 255⟩ :=
  ⟨by decide,
    control_gated_on_liveness (driving_system system_state_t.STATE_MODE_MECANUM 255 0 false) 1501
      (by decide),
    by decide⟩

/-- C26: right after the supervision step evaluated at tick `now`, a peer
still marked connected has been heard within the timeout: the 32-bit
difference between `now` and its last-seen tick is at most 500. -/
theorem peer_liveness_invariant (s : system_t) (now : Nat) :
    ((fsm_update now s).g_ctx.joystick_connected = true →
      u32_sub now (fsm_update now s).g_ctx.last_joystick_time ≤ 500) ∧
    ((fsm_update now s).g_ctx.voice_connected = true →
      u32_sub now (fsm_update now s).g_ctx.last_voice_time ≤ 500) := by
  by_cases hj : s.g_ctx.joystick_connected = true ∧ u32_sub now s.g_ctx.last_joystick_time > 500 <;>
  by_cases hv : s.g_ctx.voice_connected = true ∧ u32_sub now s.g_ctx.last_voice_time > 500 <;>
  cases hs : s.g_ctx.current_state <;>
  simp [fsm_update, CONNECTION_TIMEOUT_MS, motor_stop_all, hj, hv, hs] <;>
  simp_all

/-- Witness for C26: voice mode at tick 1500 with both peers last heard at
tick 1000; both stay connected and both differences are 500. -/
theorem peer_liveness_invariant_witness :
    ((fsm_update 1500 (driving_system system_state_t.STATE_MODE_VOICE 0 0 false)).g_ctx.joystick_connected
        = true ∧
      (fsm_update 1500 (driving_system system_state_t.STATE_MODE_VOICE 0 0 false)).g_ctx.voice_connected
        = true) ∧
    u32_sub 1500
        (fsm_update 1500 (driving_system system_state_t.STATE_MODE_VOICE 0 0 false)).g_ctx.last_joystick_time
      ≤ 500 ∧
    u32_sub 1500
        (fsm_update 1500 (driving_system system_state_t.STATE_MODE_VOICE 0 0 false)).g_ctx.last_voice_time
      ≤ 500 :=
  ⟨by decide,
    (peer_liveness_invariant (driving_system system_state_t.STATE_MODE_VOICE 0 0 false) 1500).1
      (by decide),
    (peer_liveness_invariant (driving_system system_state_t.STATE_MODE_VOICE 0 0 false) 1500).2
      (by decide)⟩

/-! ## Interpreters and the emergency stop as functions of their inputs -/

theorem interpret_mecanum_reads_joystick (g1 g2 : system_context_t) (t st : Int)
    (h : g1.joystick = g2.joystick) :
    interpret_mecanum g1 t st = interpret_mecanum g2 t st := by
  simp only [interpret_mecanum, h]

theorem interpret_rc_reads_joystick (g1 g2 : system_context_t) (t st : Int)
    (h : g1.joystick = g2.joystick) :
    interpret_rc g1 t st = interpret_rc g2 t st := by
  simp only [interpret_rc, h]

theorem interpret_mecanum_not_emergency (g : system_context_t) (t st : Int)
    (hbtn : g.joystick.btn1 = false) :
    interpret_mecanum g t st ≠ movement_type_t.MOVEMENT_EMERGENCY := by
  rw [interpret_mecanum_unfold]
  simp only [hbtn, Bool.false_eq_true, if_false]
  split_ifs <;> simp

theorem mode_voice_process_movement (s : system_t) :
    (mode_voice_process s).g_ctx.movement
      = (if s.g_ctx.voice_cmd = VOICE_CMD_STOP then movement_type_t.MOVEMENT_STOP
        else if s.g_ctx.voice_cmd = VOICE_CMD_FORWARD then movement_type_t.MOVEMENT_FORWARD
        else if s.g_ctx.voice_cmd = VOICE_CMD_BACKWARD then movement_type_t.MOVEMENT_BACKWARD
        else if s.g_ctx.voice_cmd = VOICE_CMD_LEFT then movement_type_t.MOVEMENT_ROTATE_LEFT
        else if s.g_ctx.voice_cmd = VOICE_CMD_RIGHT then movement_type_t.MOVEMENT_ROTATE_RIGHT
        else movement_type_t.MOVEMENT_STOP) := by
  unfold mode_voice_process
  simp only []
  split_ifs <;> simp_all

theorem mode_voice_process_speeds (s : system_t) :
    (mode_voice_process s).g_ctx.motor_speeds
      = (match (mode_voice_process s).g_ctx.movement with
        | movement_type_t.MOVEMENT_FORWARD =>
          ⟨int16_of (s.g_ctx.voice_speed : Int), int16_of (s.g_ctx.voice_speed : Int),
            int16_of (s.g_ctx.voice_speed : Int), int16_of (s.g_ctx.voice_speed : Int)⟩
        | movement_type_t.MOVEMENT_BACKWARD =>
          ⟨int16_of (-int16_of (s.g_ctx.voice_speed : Int)),
            int16_of (-int16_of (s.g_ctx.voice_speed : Int)),
            int16_of (-int16_of (s.g_ctx.voice_speed : Int)),
            int16_of (-int16_of (s.g_ctx.voice_speed : Int))⟩
        | movement_type_t.MOVEMENT_ROTATE_LEFT =>
          ⟨int16_of (-int16_of (s.g_ctx.voice_speed : Int)), int16_of (s.g_ctx.voice_speed : Int),
            int16_of (-int16_of (s.g_ctx.voice_speed : Int)), int16_of (s.g_ctx.voice_speed : Int)⟩
        | movement_type_t.MOVEMENT_ROTATE_RIGHT =>
          ⟨int16_of (s.g_ctx.voice_speed : Int), int16_of (-int16_of (s.g_ctx.voice_speed : Int)),
            int16_of (s.g_ctx.voice_speed : Int), int16_of (-int16_of (s.g_ctx.voice_speed : Int))⟩
        | _ => ⟨0, 0, 0, 0⟩) := by
  unfold mode_voice_process
  by_cases h : (if s.g_ctx.voice_cmd = VOICE_CMD_STOP then movement_type_t.MOVEMENT_STOP
        else if s.g_ctx.voice_cmd = VOICE_CMD_FORWARD then movement_type_t.MOVEMENT_FORWARD
        else if s.g_ctx.voice_cmd = VOICE_CMD_BACKWARD then movement_type_t.MOVEMENT_BACKWARD
        else if s.g_ctx.voice_cmd = VOICE_CMD_LEFT then movement_type_t.MOVEMENT_ROTATE_LEFT
        else if s.g_ctx.voice_cmd = VOICE_CMD_RIGHT then movement_type_t.MOVEMENT_ROTATE_RIGHT
        else movement_type_t.MOVEMENT_STOP) = s.g_ctx.movement <;> rfl

/-- C27: the three interpreters are functions of the current input alone.
Two machines that carry the same joystick sample get the same movement and
the same stored wheel speeds from the mecanum step and from the RC step, and
two machines that carry the same voice command and speed get the same
movement and stored wheel speeds from the voice step, whatever their previous
movement and previous stored speeds (and whatever else differs).  In
particular a previous emergency intent does not survive: with the emergency
button of the sample released the joystick steps never leave the intent at
emergency, and the voice step never does. -/
theorem interpreters_memoryless (s1 s2 : system_t) :
    (s1.g_ctx.joystick = s2.g_ctx.joystick →
      ((mode_mecanum_process s1).g_ctx.movement = (mode_mecanum_process s2).g_ctx.movement ∧
        (mode_mecanum_process s1).g_ctx.motor_speeds
          = (mode_mecanum_process s2).g_ctx.motor_speeds) ∧
      ((mode_rc_process s1).g_ctx.movement = (mode_rc_process s2).g_ctx.movement ∧
        (mode_rc_process s1).g_ctx.motor_speeds = (mode_rc_process s2).g_ctx.motor_speeds)) ∧
    (s1.g_ctx.voice_cmd = s2.g_ctx.voice_cmd → s1.g_ctx.voice_speed = s2.g_ctx.voice_speed →
      (mode_voice_process s1).g_ctx.movement = (mode_voice_process s2).g_ctx.movement ∧
        (mode_voice_process s1).g_ctx.motor_speeds
          = (mode_voice_process s2).g_ctx.motor_speeds) ∧
    (s1.g_ctx.joystick.btn1 = false →
      (mode_mecanum_process s1).g_ctx.movement ≠ movement_type_t.MOVEMENT_EMERGENCY ∧
        (mode_rc_process s1).g_ctx.movement ≠ movement_type_t.MOVEMENT_EMERGENCY) ∧
    (mode_voice_process s1).g_ctx.movement ≠ movement_type_t.MOVEMENT_EMERGENCY := by
  refine ⟨fun h => ⟨⟨?_, ?_⟩, ?_, ?_⟩, fun hc hv => ⟨?_, ?_⟩, fun hb => ⟨?_, ?_⟩, ?_⟩
  · rw [mode_mecanum_process_movement, mode_mecanum_process_movement, h,
      interpret_mecanum_reads_joystick s1.g_ctx s2.g_ctx _ _ h]
  · rw [mode_mecanum_process_speeds, mode_mecanum_process_speeds, h,
      interpret_mecanum_reads_joystick s1.g_ctx s2.g_ctx _ _ h]
    simp only [calculate_mecanum_speeds]
  · rw [mode_rc_process_movement, mode_rc_process_movement, h,
      interpret_rc_reads_joystick s1.g_ctx s2.g_ctx _ _ h]
  · rw [mode_rc_process_speeds, mode_rc_process_speeds, h,
      interpret_rc_reads_joystick s1.g_ctx s2.g_ctx _ _ h]
    simp only [calculate_rc_speeds]
  · rw [mode_voice_process_movement, mode_voice_process_movement, hc]
  · rw [mode_voice_process_speeds, mode_voice_process_speeds, mode_voice_process_movement,
      mode_voice_process_movement, hc, hv]
  · rw [mode_mecanum_process_movement]
    exact interpret_mecanum_not_emergency _ _ _ hb
  · rw [mode_rc_process_movement]
    exact interpret_rc_not_emergency _ _ _ hb
  · rw [mode_voice_process_movement]
    split_ifs <;> simp

/-- Witness for C27: two mecanum machines with the same joystick sample
(throttle 200), one driving forward with stored speeds 255 and one right
after an emergency stop with stored speeds 0, and the same pair in voice
mode. -/
theorem interpreters_memoryless_witness :
    ((with_emergency (driving_system system_state_t.STATE_MODE_MECANUM 200 0 false)).g_ctx.movement
        ≠ (driving_system system_state_t.STATE_MODE_MECANUM 200 0 false).g_ctx.movement ∧
      (with_emergency (driving_system system_state_t.STATE_MODE_MECANUM 200 0 false)).g_ctx.motor_speeds
        ≠ (driving_system system_state_t.STATE_MODE_MECANUM 200 0 false).g_ctx.motor_speeds) ∧
    (((mode_mecanum_process
            (with_emergency (driving_system system_state_t.STATE_MODE_MECANUM 200 0 false))).g_ctx.movement
          = (mode_mecanum_process
              (driving_system system_state_t.STATE_MODE_MECANUM 200 0 false)).g_ctx.movement ∧
        (mode_mecanum_process
            (with_emergency
              (driving_system system_state_t.STATE_MODE_MECANUM 200 0 false))).g_ctx.motor_speeds
          = (mode_mecanum_process
              (driving_system system_state_t.STATE_MODE_MECANUM 200 0 false)).g_ctx.motor_speeds) ∧
      ((mode_rc_process
            (with_emergency (driving_system system_state_t.STATE_MODE_MECANUM 200 0 false))).g_ctx.movement
          = (mode_rc_process
              (driving_system system_state_t.STATE_MODE_MECANUM 200 0 false)).g_ctx.movement ∧
        (mode_rc_process
            (with_emergency
              (driving_system system_state_t.STATE_MODE_MECANUM 200 0 false))).g_ctx.motor_speeds
          = (mode_rc_process
              (driving_system system_state_t.STATE_MODE_MECANUM 200 0 false)).g_ctx.motor_speeds)) ∧
    ((mode_voice_process (with_emergency (voice_system 1 200))).g_ctx.movement
        = (mode_voice_process (voice_system 1 200)).g_ctx.movement ∧
      (mode_voice_process (with_emergency (voice_system 1 200))).g_ctx.motor_speeds
        = (mode_voice_process (voice_system 1 200)).g_ctx.motor_speeds) ∧
    ((mode_mecanum_process
          (with_emergency (driving_system system_state_t.STATE_MODE_MECANUM 200 0 false))).g_ctx.movement
        ≠ movement_type_t.MOVEMENT_EMERGENCY ∧
      (mode_rc_process
          (with_emergency (driving_system system_state_t.STATE_MODE_MECANUM 200 0 false))).g_ctx.movement
        ≠ movement_type_t.MOVEMENT_EMERGENCY) :=
  ⟨by decide,
    (interpreters_memoryless
      (with_emergency (driving_system system_state_t.STATE_MODE_MECANUM 200 0 false))
      (driving_system system_state_t.STATE_MODE_MECANUM 200 0 false)).1 rfl,
    (interpreters_memoryless (with_emergency (voice_system 1 200)) (voice_system 1 200)).2.1 rfl rfl,
    (interpreters_memoryless
      (with_emergency (driving_system system_state_t.STATE_MODE_MECANUM 200 0 false))
      (driving_system system_state_t.STATE_MODE_MECANUM 200 0 false)).2.2.1 rfl⟩

/-- C28: in each driving mode, handling the long press twice in a row gives
the same operating mode (the one before), the same movement intent
(emergency), the same stored wheel speeds and the same motor outputs (every
channel stopped) as handling it once; the second handling changes nothing but
the sound trace, which gets a second error sound. -/
theorem emergency_stop_idempotent (s : system_t)
    (h : is_driving_mode s.g_ctx.current_state) :
    (fsm_process_button button_event_t.BTN_EVT_OK_LONG
        (fsm_process_button button_event_t.BTN_EVT_OK_LONG s)).g_ctx
      = (fsm_process_button button_event_t.BTN_EVT_OK_LONG s).g_ctx ∧
    { fsm_process_button button_event_t.BTN_EVT_OK_LONG
        (fsm_process_button button_event_t.BTN_EVT_OK_LONG s) with
      buzzer_log := (fsm_process_button button_event_t.BTN_EVT_OK_LONG s).buzzer_log }
      = fsm_process_button button_event_t.BTN_EVT_OK_LONG s ∧
    (fsm_process_button button_event_t.BTN_EVT_OK_LONG s).g_ctx.current_state
      = s.g_ctx.current_state ∧
    (fsm_process_button button_event_t.BTN_EVT_OK_LONG s).g_ctx.movement
      = movement_type_t.MOVEMENT_EMERGENCY ∧
    motors_stopped (fsm_process_button button_event_t.BTN_EVT_OK_LONG s) ∧
    motors_stopped (fsm_process_button button_event_t.BTN_EVT_OK_LONG
      (fsm_process_button button_event_t.BTN_EVT_OK_LONG s)) := by
  unfold is_driving_mode at h
  rcases h with h | h | h <;>
    simp [fsm_process_button, h, mode_mecanum_handle_button, mode_rc_handle_button,
      mode_voice_handle_button, motor_stop_all, buzzer_error, motors_stopped, motor_out_stopped,
      set_motor_zero]

/-- Witness for C28: voice mode driving forward at 200; the stored speeds
stay (255,255,255,255) after one and after two long presses. -/
theorem emergency_stop_idempotent_witness :
    is_driving_mode (voice_system 1 200).g_ctx.current_state ∧
    (fsm_process_button button_event_t.BTN_EVT_OK_LONG
        (fsm_process_button button_event_t.BTN_EVT_OK_LONG (voice_system 1 200))).g_ctx
      = (fsm_process_button button_event_t.BTN_EVT_OK_LONG (voice_system 1 200)).g_ctx ∧
    (fsm_process_button button_event_t.BTN_EVT_OK_LONG (voice_system 1 200)).g_ctx.motor_speeds
      = ⟨255, 255, 255, 255⟩ :=
  ⟨by decide, (emergency_stop_idempotent (voice_system 1 200) (by decide)).1, by decide⟩

/-! ## Frames from the peers -/

/-- C29: a frame of the joystick size received at time `now` stores the
decoded sample, sets the joystick last-seen time to `now` and the joystick
flag to true, sets the redraw flag when the joystick was not connected and
leaves it as it was otherwise, and changes nothing else (so the voice flag,
time, command and speed are untouched).  A frame of 1 or 2 bytes stores the
first byte as voice command, 150 (1 byte) or the second byte (2 bytes) as
voice speed, sets the voice last-seen time to `now` and the voice flag to
true, sets the redraw flag when the voice peer was not connected and leaves
it otherwise, and changes nothing else (so the joystick flag, time and sample
are untouched).  A frame of any other length leaves the machine unchanged. -/
theorem on_data_recv_updates_liveness (now : Nat) (data : List Nat) (s : system_t) :
    (data.length = sizeof_joystick_data_t →
      on_data_recv now data s =
        { s with g_ctx := { s.g_ctx with
            joystick := joystick_of_frame data
            last_joystick_time := now
            joystick_connected := true
            display_dirty :=
              if s.g_ctx.joystick_connected = false then true else s.g_ctx.display_dirty } }) ∧
    (data.length = 1 ∨ data.length = 2 →
      on_data_recv now data s =
        { s with g_ctx := { s.g_ctx with
            voice_cmd := frame_byte data 0
            voice_speed := if data.length = 2 then frame_byte data 1 else 150
            last_voice_time := now
            voice_connected := true
            display_dirty :=
              if s.g_ctx.voice_connected = false then true else s.g_ctx.display_dirty } }) ∧
    (data.length ≠ sizeof_joystick_data_t → data.length ≠ 1 → data.length ≠ 2 →
      on_data_recv now data s = s) := by
  refine ⟨fun h => ?_, fun h => ?_, fun h1 h2 h3 => ?_⟩
  · cases hc : s.g_ctx.joystick_connected <;> simp [on_data_recv, h, hc]
  · have h12 : data.length ≠ sizeof_joystick_data_t := by
      unfold sizeof_joystick_data_t
      omega
    cases hc : s.g_ctx.voice_connected <;>
      simp [on_data_recv, h, hc, h12, VOICE_DEFAULT_SPEED]
  · simp [on_data_recv, h1, h2, h3]

/-- Witness for C29: on a machine with both peers disconnected and no redraw
pending, a 12-byte joystick frame (throttle 200, steering -3, button 1 set), a
1-byte and a 2-byte voice frame, and a 3-byte frame. -/
theorem on_data_recv_updates_liveness_witness :
    (on_data_recv 5000 [200, 0, 253, 255, 0, 0, 0, 0, 1, 0, 7, 0] disconnected_system).g_ctx
      = { disconnected_system.g_ctx with
          joystick := ⟨200, -3, 0, 0, true, false, 7⟩
          last_joystick_time := 5000
          joystick_connected := true
          display_dirty := true } ∧
    (on_data_recv 5000 [3] disconnected_system).g_ctx
      = { disconnected_system.g_ctx with
          voice_cmd := 3
          voice_speed := 150
          last_voice_time := 5000
          voice_connected := true
          display_dirty := true } ∧
    (on_data_recv 5000 [3, 90] (driving_system system_state_t.STATE_MODE_VOICE 0 0 false)).g_ctx
      = { (driving_system system_state_t.STATE_MODE_VOICE 0 0 false).g_ctx with
          voice_cmd := 3
          voice_speed := 90
          last_voice_time := 5000 } ∧
    on_data_recv 5000 [1, 2, 3] disconnected_system = disconnected_system :=
  ⟨by
      rw [(on_data_recv_updates_liveness 5000 [200, 0, 253, 255, 0, 0, 0, 0, 1, 0, 7, 0]
        disconnected_system).1 (by decide)]
      decide,
    by
      rw [(on_data_recv_updates_liveness 5000 [3] disconnected_system).2.1 (by decide)]
      decide,
    by
      rw [(on_data_recv_updates_liveness 5000 [3, 90]
        (driving_system system_state_t.STATE_MODE_VOICE 0 0 false)).2.1 (by decide)]
      decide,
    (on_data_recv_updates_liveness 5000 [1, 2, 3] disconnected_system).2.2
      (by decide) (by decide) (by decide)⟩

/-! ## Calibration, stored speeds and the RC standstill -/

theorem tdiv_scale_bounds (speed : Int) (cal : Nat) (hc : cal ≤ 255) :
    (0 ≤ speed → 0 ≤ Int.tdiv (speed * (cal : Int)) 255 ∧
      Int.tdiv (speed * (cal : Int)) 255 ≤ speed) ∧
    (speed ≤ 0 → speed ≤ Int.tdiv (speed * (cal : Int)) 255 ∧
      Int.tdiv (speed * (cal : Int)) 255 ≤ 0) := by
  have hpos : ∀ x : Int, 0 ≤ x → 0 ≤ Int.tdiv (x * (cal : Int)) 255 ∧
      Int.tdiv (x * (cal : Int)) 255 ≤ x := by
    intro x hx
    have h0 : 0 ≤ x * (cal : Int) := Int.mul_nonneg hx (Int.ofNat_nonneg cal)
    have h1 : x * (cal : Int) ≤ x * 255 :=
      Int.mul_le_mul_of_nonneg_left (by omega) hx
    rw [Int.tdiv_eq_ediv h0 (by decide)]
    generalize x * (cal : Int) = p at h0 h1
    omega
  constructor
  · exact hpos speed
  · intro hs
    have e : speed * (cal : Int) = -((-speed) * (cal : Int)) := by ring
    rw [e, Int.neg_tdiv]
    have := hpos (-speed) (by omega)
    omega

/-- C31: for a speed in [-255, 255] and a calibration value in [0, 255],
`set_motor` works with `calibrated = speed * cal / 255` truncated toward zero
(the 16-bit store does not change it): pins (1,0) and duty `calibrated` when
it is positive, pins (0,1) and duty `-calibrated` when negative, pins (0,0)
and duty 0 when zero.  The duty is the magnitude of `calibrated`, which is at
most the magnitude of the speed, itself at most 255; the two pins are never
both high; with the calibration 255 `calibrated` is the speed. -/
theorem set_motor_calibration_scale (speed : Int) (cal : Nat)
    (hs : -255 ≤ speed ∧ speed ≤ 255) (hc : cal ≤ 255) :
    set_motor speed cal =
      (if Int.tdiv (speed * (cal : Int)) 255 > 0 then
        ⟨true, false, Int.tdiv (speed * (cal : Int)) 255⟩
      else if Int.tdiv (speed * (cal : Int)) 255 < 0 then
        ⟨false, true, -Int.tdiv (speed * (cal : Int)) 255⟩
      else ⟨false, false, 0⟩) ∧
    (set_motor speed cal).duty = c_abs (Int.tdiv (speed * (cal : Int)) 255) ∧
    c_abs (Int.tdiv (speed * (cal : Int)) 255) ≤ c_abs speed ∧ c_abs speed ≤ 255 ∧
    ¬ ((set_motor speed cal).in1 = true ∧ (set_motor speed cal).in2 = true) ∧
    (cal = 255 → Int.tdiv (speed * (cal : Int)) 255 = speed) := by
  obtain ⟨b1, b2⟩ := tdiv_scale_bounds speed cal hc
  have hw : int16_of (Int.tdiv (speed * (cal : Int)) 255) = Int.tdiv (speed * (cal : Int)) 255 := by
    apply int16_of_small
    by_cases h0 : 0 ≤ speed
    · have := b1 h0
      omega
    · have := b2 (by omega)
      omega
  have hcal : cal = 255 → Int.tdiv (speed * (cal : Int)) 255 = speed := by
    intro h
    subst h
    exact Int.mul_tdiv_cancel speed (by decide)
  have h1 : set_motor speed cal =
      (if Int.tdiv (speed * (cal : Int)) 255 > 0 then
        ⟨true, false, Int.tdiv (speed * (cal : Int)) 255⟩
      else if Int.tdiv (speed * (cal : Int)) 255 < 0 then
        ⟨false, true, -Int.tdiv (speed * (cal : Int)) 255⟩
      else ⟨false, false, 0⟩) := by
    unfold set_motor
    simp only [hw]
  refine ⟨h1, ?_, ?_, ?_, ?_, hcal⟩
  · rw [h1]
    unfold c_abs
    split_ifs <;> simp only [] <;> omega
  · unfold c_abs
    by_cases h0 : 0 ≤ speed
    · have := b1 h0
      split_ifs <;> omega
    · have := b2 (by omega)
      split_ifs <;> omega
  · unfold c_abs
    split_ifs <;> omega
  · rw [h1]
    split_ifs <;> simp

/-- Witness for C31: speed -200 with calibration 128 gives calibrated -100
(the exact quotient is -100.39), reverse pins and duty 100; with calibration
255 the speed -200 is passed through. -/
theorem set_motor_calibration_scale_witness :
    ((-255 : Int) ≤ -200 ∧ (-200 : Int) ≤ 255) ∧ 128 ≤ 255 ∧
    set_motor (-200) 128 = ⟨false, true, 100⟩ ∧
    Int.tdiv ((-200 : Int) * ((255 : Nat) : Int)) 255 = -200 :=
  ⟨by decide, by decide,
    by
      rw [(set_motor_calibration_scale (-200) 128 (by decide) (by decide)).1]
      decide,
    (set_motor_calibration_scale (-200) 255 (by decide) (by decide)).2.2.2.2.2 rfl⟩

/-- C33: the paths that stop the motors leave the stored wheel-speed record
alone.  A state change keeps the stored speeds and the stored movement; the
supervision step keeps the stored speeds; the double-click and long-press
handlers of the three driving modes keep the stored speeds.  Meanwhile the
motor channels are at zero: after a state change out of a driving mode,
after the supervision step when the peer the mode needs timed out, and after
either handler. -/
theorem stop_keeps_stored_speeds (s : system_t) (d : system_state_t) (now : Nat)
    (evt : button_event_t) :
    ((fsm_change_state d s).g_ctx.motor_speeds = s.g_ctx.motor_speeds ∧
      (fsm_change_state d s).g_ctx.movement = s.g_ctx.movement ∧
      (is_driving_mode s.g_ctx.current_state → s.g_ctx.current_state ≠ d →
        motors_stopped (fsm_change_state d s))) ∧
    ((fsm_update now s).g_ctx.motor_speeds = s.g_ctx.motor_speeds ∧
      (required_peer_timed_out now s → motors_stopped (fsm_update now s))) ∧
    (evt = button_event_t.BTN_EVT_OK_DOUBLE ∨ evt = button_event_t.BTN_EVT_OK_LONG →
      ((mode_mecanum_handle_button evt s).g_ctx.motor_speeds = s.g_ctx.motor_speeds ∧
        motors_stopped (mode_mecanum_handle_button evt s)) ∧
      ((mode_rc_handle_button evt s).g_ctx.motor_speeds = s.g_ctx.motor_speeds ∧
        motors_stopped (mode_rc_handle_button evt s)) ∧
      ((mode_voice_handle_button evt s).g_ctx.motor_speeds = s.g_ctx.motor_speeds ∧
        motors_stopped (mode_voice_handle_button evt s))) := by
  have hch : ∀ (x : system_t) (t : system_state_t),
      (fsm_change_state t x).g_ctx.motor_speeds = x.g_ctx.motor_speeds ∧
        (fsm_change_state t x).g_ctx.movement = x.g_ctx.movement ∧
        (fsm_change_state t x).out_fl = (if x.g_ctx.current_state ≠ t ∧
            is_driving_mode x.g_ctx.current_state then motor_out_stopped else x.out_fl) ∧
        (fsm_change_state t x).out_fr = (if x.g_ctx.current_state ≠ t ∧
            is_driving_mode x.g_ctx.current_state then motor_out_stopped else x.out_fr) ∧
        (fsm_change_state t x).out_bl = (if x.g_ctx.current_state ≠ t ∧
            is_driving_mode x.g_ctx.current_state then motor_out_stopped else x.out_bl) ∧
        (fsm_change_state t x).out_br = (if x.g_ctx.current_state ≠ t ∧
            is_driving_mode x.g_ctx.current_state then motor_out_stopped else x.out_br) := by
    intro x t
    cases hs : x.g_ctx.current_state <;> cases t <;>
      simp [fsm_change_state, buzzer_click, motor_stop_all, set_motor_zero, is_driving_mode, hs]
  refine ⟨⟨(hch s d).1, (hch s d).2.1, ?_⟩, ⟨?_, ?_⟩, ?_⟩
  · intro hdrv hne
    obtain ⟨_, _, o1, o2, o3, o4⟩ := hch s d
    unfold motors_stopped
    rw [o1, o2, o3, o4]
    simp [hdrv, hne]
  · by_cases hj : s.g_ctx.joystick_connected = true ∧
        u32_sub now s.g_ctx.last_joystick_time > 500 <;>
    by_cases hv : s.g_ctx.voice_connected = true ∧ u32_sub now s.g_ctx.last_voice_time > 500 <;>
    cases hs : s.g_ctx.current_state <;>
    simp [fsm_update, CONNECTION_TIMEOUT_MS, motor_stop_all, hj, hv, hs]
  · by_cases hj : s.g_ctx.joystick_connected = true ∧
        u32_sub now s.g_ctx.last_joystick_time > 500 <;>
    by_cases hv : s.g_ctx.voice_connected = true ∧ u32_sub now s.g_ctx.last_voice_time > 500 <;>
    cases hs : s.g_ctx.current_state <;>
    simp [fsm_update, CONNECTION_TIMEOUT_MS, motors_stopped, motor_stop_all, set_motor_zero,
      required_peer_timed_out, joystick_timed_out, voice_timed_out, hj, hv, hs]
  · intro hev
    have hst : ∀ x : system_t, motors_stopped (motor_stop_all x) := by
      intro x
      simp [motors_stopped, motor_stop_all, set_motor_zero]
    have hdbl : ∀ x : system_t,
        (fsm_change_state system_state_t.STATE_MAIN_MENU (motor_stop_all x)).g_ctx.motor_speeds
            = x.g_ctx.motor_speeds ∧
          motors_stopped (fsm_change_state system_state_t.STATE_MAIN_MENU (motor_stop_all x)) := by
      intro x
      obtain ⟨a1, _, o1, o2, o3, o4⟩ := hch (motor_stop_all x) system_state_t.STATE_MAIN_MENU
      refine ⟨by rw [a1]; rfl, ?_⟩
      unfold motors_stopped
      rw [o1, o2, o3, o4]
      have := hst x
      unfold motors_stopped at this
      obtain ⟨m1, m2, m3, m4⟩ := this
      rw [m1, m2, m3, m4]
      simp
    rcases hev with h | h <;> subst h
    · exact ⟨hdbl s, hdbl s, hdbl s⟩
    · simp [mode_mecanum_handle_button, mode_rc_handle_button, mode_voice_handle_button,
        buzzer_error, motors_stopped, motor_stop_all, set_motor_zero]

/-- Witness for C33: RC mode driving forward with stored speeds 255. -/
theorem stop_keeps_stored_speeds_witness :
    (is_driving_mode (driving_system system_state_t.STATE_MODE_RC 255 0 false).g_ctx.current_state ∧
      required_peer_timed_out 1501 (driving_system system_state_t.STATE_MODE_RC 255 0 false)) ∧
    motors_stopped (fsm_change_state system_state_t.STATE_MAIN_MENU
      (driving_system system_state_t.STATE_MODE_RC 255 0 false)) ∧
    motors_stopped (fsm_update 1501 (driving_system system_state_t.STATE_MODE_RC 255 0 false)) ∧
    ((mode_rc_handle_button button_event_t.BTN_EVT_OK_LONG
          (driving_system system_state_t.STATE_MODE_RC 255 0 false)).g_ctx.motor_speeds
        = ⟨255, 255, 255, 255⟩ ∧
      motors_stopped (mode_rc_handle_button button_event_t.BTN_EVT_OK_LONG
        (driving_system system_state_t.STATE_MODE_RC 255 0 false))) :=
  ⟨by decide,
    (stop_keeps_stored_speeds (driving_system system_state_t.STATE_MODE_RC 255 0 false)
      system_state_t.STATE_MAIN_MENU 1501 button_event_t.BTN_EVT_OK_LONG).1.2.2
      (by decide) (by decide),
    (stop_keeps_stored_speeds (driving_system system_state_t.STATE_MODE_RC 255 0 false)
      system_state_t.STATE_MAIN_MENU 1501 button_event_t.BTN_EVT_OK_LONG).2.1.2 (by decide),
    ((stop_keeps_stored_speeds (driving_system system_state_t.STATE_MODE_RC 255 0 false)
      system_state_t.STATE_MAIN_MENU 1501 button_event_t.BTN_EVT_OK_LONG).2.2
      (Or.inr rfl)).2.1⟩

/-- Off the deadzone edge the RC step stores zero speeds whenever it yields
stop: for every sample whose axes have a magnitude other than 25. -/
theorem rc_stop_standstill_off_edge (s : system_t)
    (het : c_abs s.g_ctx.joystick.throttle ≠ 25) (hes : c_abs s.g_ctx.joystick.steering ≠ 25)
    (hstop : (mode_rc_process s).g_ctx.movement = movement_type_t.MOVEMENT_STOP) :
    (mode_rc_process s).g_ctx.motor_speeds = ⟨0, 0, 0, 0⟩ := by
  rw [mode_rc_process_movement] at hstop
  rw [mode_rc_process_speeds, hstop]
  have hz : deadzoned s.g_ctx.joystick.throttle = 0 ∧ deadzoned s.g_ctx.joystick.steering = 0 := by
    cases hb : s.g_ctx.joystick.btn1
    · have hne : ¬ rc_deadzone_edge s.g_ctx.joystick.throttle s.g_ctx.joystick.steering := by
        unfold rc_deadzone_edge
        exact fun h => h.elim het hes
      rw [(interpret_rc_vs_spec s.g_ctx _ _ hb).1 hne] at hstop
      unfold rc_intent_spec at hstop
      split_ifs at hstop with h0
      exact h0
    · rw [interpret_rc_unfold] at hstop
      simp [hb] at hstop
  rw [rc_speeds_exact_when_no_wrap _ _ _ (by simp) (by rw [hz.1, hz.2]; decide)
    (by rw [hz.1, hz.2]; decide), hz.1, hz.2]
  decide

/-- C34 (the code departs from the claim): with throttle 25 and steering 0,
and with throttle 0 and steering 25, both within [-255, 255] and with the
emergency button clear, the RC step yields the movement stop and stores the
wheel speeds (25, 25, 25, 25) and (25, -25, 25, -25): the robot is told to
move while the intent reads stop. -/
theorem rc_stop_with_wheels_driven :
    (mode_rc_process (driving_system system_state_t.STATE_MODE_RC 25 0 false)).g_ctx.movement
        = movement_type_t.MOVEMENT_STOP ∧
      (mode_rc_process (driving_system system_state_t.STATE_MODE_RC 25 0 false)).g_ctx.motor_speeds
        = ⟨25, 25, 25, 25⟩ ∧
    (mode_rc_process (driving_system system_state_t.STATE_MODE_RC 0 25 false)).g_ctx.movement
        = movement_type_t.MOVEMENT_STOP ∧
      (mode_rc_process (driving_system system_state_t.STATE_MODE_RC 0 25 false)).g_ctx.motor_speeds
        = ⟨25, -25, 25, -25⟩ ∧
    (control_task_step 1010 (driving_system system_state_t.STATE_MODE_RC 25 0 false)).out_fl
        = ⟨true, false, 25⟩ := by
  decide

/-! ## Start-up and contact bounce -/

/-- C32 (the code departs from the claim): the initialisation sequence of
`app_main` loads the stored record into `g_ctx.settings` and never passes it
to the motor driver, so for every storage content the four calibration
multipliers used by `motor_apply_speeds` are still the initialiser 255.  With
a stored calibration of 125 on the two back wheels (what thirteen presses of
Down in the calibration sub-menu and `Save & Exit` leave in storage) the
settings record reads 125, the driver uses 255, and a speed of 200 is driven
at duty 200 on the back-left wheel where the stored calibration gives 98. -/
theorem startup_ignores_persisted_calibration (flash : nvs_flash_t) :
    ((app_main_init flash power_on_system).g_ctx.settings = nvs_storage_load flash ∧
      (app_main_init flash power_on_system).s_cal_fl = 255 ∧
      (app_main_init flash power_on_system).s_cal_fr = 255 ∧
      (app_main_init flash power_on_system).s_cal_bl = 255 ∧
      (app_main_init flash power_on_system).s_cal_br = 255) ∧
    (nvs_storage_load (nvs_flash_of ⟨255, 80, 255, 255, 125, 125⟩)
        = ⟨255, 80, 255, 255, 125, 125⟩ ∧
      (app_main_init (nvs_flash_of ⟨255, 80, 255, 255, 125, 125⟩)
          power_on_system).g_ctx.settings.motor_cal_bl = 125 ∧
      (app_main_init (nvs_flash_of ⟨255, 80, 255, 255, 125, 125⟩) power_on_system).s_cal_bl
        = 255 ∧
      (motor_apply_speeds ⟨200, 200, 200, 200⟩
          (app_main_init (nvs_flash_of ⟨255, 80, 255, 255, 125, 125⟩) power_on_system)).out_bl
        = ⟨true, false, 200⟩ ∧
      set_motor 200 125 = ⟨true, false, 98⟩) := by
  refine ⟨⟨rfl, rfl, rfl, rfl, rfl⟩, ?_⟩
  decide

/-- C35 (the code departs from the claim): from start-up, polling every
10 ms, Ok is read pressed from tick 100 for 10 polls, released for one poll
(tick 200), pressed again from tick 210 for 9 polls and released from tick
300 on.  The second press edge comes 20 ms after the last pressed reading
and is rejected by the debounce check, yet the two release edges are both
taken: the call at tick 300 returns the double click and no single click
follows.  The same click without the glitch (pressed for the 20 polls from
tick 100) returns the single click at tick 700. -/
theorem bounced_click_gives_double :
    buttons_events buttons_zero (double_click_trace 100 10 1 9 45)
      = List.replicate 20 button_event_t.BTN_EVT_NONE ++
        (button_event_t.BTN_EVT_OK_DOUBLE :: List.replicate 44 button_event_t.BTN_EVT_NONE) ∧
    buttons_events buttons_zero (single_click_trace 100 20 45)
      = List.replicate 60 button_event_t.BTN_EVT_NONE ++
        (button_event_t.BTN_EVT_OK_SINGLE :: List.replicate 4 button_event_t.BTN_EVT_NONE) ∧
    ¬ u32_sub 210 190 > DEBOUNCE_MS := by
  decide

/-! ## Invariants of the button-driven state machine -/

theorem fsm_change_state_current (d : system_state_t) (x : system_t) :
    (fsm_change_state d x).g_ctx.current_state = d := by
  cases hs : x.g_ctx.current_state <;> cases d <;>
    simp [fsm_change_state, buzzer_click, motor_stop_all, hs]

theorem fsm_change_state_menu_index (d : system_state_t) (x : system_t) :
    (fsm_change_state d x).g_ctx.menu_index
      = (if x.g_ctx.current_state ≠ d ∧ d = system_state_t.STATE_MAIN_MENU then 0
        else x.g_ctx.menu_index) := by
  cases hs : x.g_ctx.current_state <;> cases d <;>
    simp [fsm_change_state, buzzer_click, motor_stop_all, hs]

theorem fsm_change_state_settings_index (d : system_state_t) (x : system_t) :
    (fsm_change_state d x).g_ctx.settings_index
      = (if x.g_ctx.current_state ≠ d ∧ d = system_state_t.STATE_MODE_SETTINGS then 0
        else x.g_ctx.settings_index) := by
  cases hs : x.g_ctx.current_state <;> cases d <;>
    simp [fsm_change_state, buzzer_click, motor_stop_all, hs]

theorem fsm_change_state_settings_menu (d : system_state_t) (x : system_t) :
    (fsm_change_state d x).g_ctx.settings_menu
      = (if x.g_ctx.current_state ≠ d ∧ d = system_state_t.STATE_MODE_SETTINGS then
          settings_menu_t.SETTINGS_MAIN
        else x.g_ctx.settings_menu) := by
  cases hs : x.g_ctx.current_state <;> cases d <;>
    simp [fsm_change_state, buzzer_click, motor_stop_all, hs]

theorem fsm_change_state_settings (d : system_state_t) (x : system_t) :
    (fsm_change_state d x).g_ctx.settings = x.g_ctx.settings ∧
      (fsm_change_state d x).s_motor_running = x.s_motor_running := by
  cases hs : x.g_ctx.current_state <;> cases d <;>
    simp [fsm_change_state, buzzer_click, motor_stop_all, hs]

/-- One button event keeps the menu cursor within [0, 3] and the settings
cursor within [0, 4]. -/
theorem fsm_process_button_cursors (evt : button_event_t) (s : system_t)
    (hm : 0 ≤ s.g_ctx.menu_index ∧ s.g_ctx.menu_index ≤ 3)
    (hi : 0 ≤ s.g_ctx.settings_index ∧ s.g_ctx.settings_index ≤ 4) :
    (0 ≤ (fsm_process_button evt s).g_ctx.menu_index ∧
      (fsm_process_button evt s).g_ctx.menu_index ≤ 3) ∧
    (0 ≤ (fsm_process_button evt s).g_ctx.settings_index ∧
      (fsm_process_button evt s).g_ctx.settings_index ≤ 4) := by
  cases hs : s.g_ctx.current_state
  case STATE_MODE_SETTINGS =>
    cases hsm : s.g_ctx.settings_menu <;> cases evt <;>
    simp only [fsm_process_button, mode_settings_handle_button,
      handle_main_menu, handle_brightness, handle_volume, handle_motor_cal, handle_motor_test,
      get_current_cal, hs, hsm, SETTINGS_ITEMS, reduceCtorEq, if_true, if_false] <;>
    (try split_ifs) <;>
    (try simp only [fsm_change_state_menu_index, fsm_change_state_settings_index, buzzer_click,
      motor_stop_all, nvs_storage_save, motor_set_calibration, display_set_brightness,
      buzzer_set_volume, motor_apply_speeds, motor_test, set_current_cal]) <;>
    (try split_ifs) <;> (try simp only []) <;> (try omega)
  all_goals
    cases evt <;>
    simp only [fsm_process_button, mode_menu_handle_button, mode_mecanum_handle_button,
      mode_rc_handle_button, mode_voice_handle_button,
      hs, MENU_ITEMS, reduceCtorEq, if_true, if_false] <;>
    (try split_ifs) <;>
    (try simp only [fsm_change_state_menu_index, fsm_change_state_settings_index, buzzer_click,
      buzzer_error, motor_stop_all]) <;>
    (try split_ifs) <;> (try omega)

theorem fsm_change_state_outs (d : system_state_t) (x : system_t) :
    (fsm_change_state d x).out_fl = (if x.g_ctx.current_state ≠ d ∧
        is_driving_mode x.g_ctx.current_state then motor_out_stopped else x.out_fl) ∧
    (fsm_change_state d x).out_fr = (if x.g_ctx.current_state ≠ d ∧
        is_driving_mode x.g_ctx.current_state then motor_out_stopped else x.out_fr) ∧
    (fsm_change_state d x).out_bl = (if x.g_ctx.current_state ≠ d ∧
        is_driving_mode x.g_ctx.current_state then motor_out_stopped else x.out_bl) ∧
    (fsm_change_state d x).out_br = (if x.g_ctx.current_state ≠ d ∧
        is_driving_mode x.g_ctx.current_state then motor_out_stopped else x.out_br) := by
  cases hs : x.g_ctx.current_state <;> cases d <;>
    simp [fsm_change_state, buzzer_click, motor_stop_all, set_motor_zero, is_driving_mode, hs]

set_option maxHeartbeats 4000000 in
/-- One button event keeps the front calibration values, provided the
calibration sub-menu is open only with the settings cursor at 2 or 3; and
that proviso holds again afterwards. -/
theorem fsm_process_button_front_cal (evt : button_event_t) (s : system_t)
    (hc : s.g_ctx.current_state = system_state_t.STATE_MODE_SETTINGS →
      s.g_ctx.settings_menu = settings_menu_t.SETTINGS_MOTOR_CAL →
      s.g_ctx.settings_index = 2 ∨ s.g_ctx.settings_index = 3) :
    ((fsm_process_button evt s).g_ctx.current_state = system_state_t.STATE_MODE_SETTINGS →
      (fsm_process_button evt s).g_ctx.settings_menu = settings_menu_t.SETTINGS_MOTOR_CAL →
      (fsm_process_button evt s).g_ctx.settings_index = 2 ∨
        (fsm_process_button evt s).g_ctx.settings_index = 3) ∧
    (fsm_process_button evt s).g_ctx.settings.motor_cal_fl = s.g_ctx.settings.motor_cal_fl ∧
    (fsm_process_button evt s).g_ctx.settings.motor_cal_fr = s.g_ctx.settings.motor_cal_fr := by
  cases hs : s.g_ctx.current_state
  case STATE_MODE_SETTINGS =>
    cases hsm : s.g_ctx.settings_menu
    case SETTINGS_MOTOR_CAL =>
      have h23 := hc hs hsm
      cases evt <;>
      simp only [fsm_process_button, mode_settings_handle_button,
        handle_main_menu, handle_brightness, handle_volume, handle_motor_cal, handle_motor_test,
        get_current_cal, hs, hsm, SETTINGS_ITEMS, reduceCtorEq, if_true, if_false] <;>
      (try split_ifs) <;>
      (try simp only [fsm_change_state_current, fsm_change_state_settings_index,
        fsm_change_state_settings_menu, fsm_change_state_settings, buzzer_click,
        motor_stop_all, nvs_storage_save, motor_set_calibration, display_set_brightness,
        buzzer_set_volume, motor_apply_speeds, motor_test, set_current_cal]) <;>
      (try split_ifs) <;>
      (try simp [hs, hsm]) <;>
      (try omega)
    all_goals
      cases evt <;>
      simp only [fsm_process_button, mode_settings_handle_button,
        handle_main_menu, handle_brightness, handle_volume, handle_motor_cal, handle_motor_test,
        get_current_cal, hs, hsm, SETTINGS_ITEMS, reduceCtorEq, if_true, if_false] <;>
      (try split_ifs) <;>
      (try simp only [fsm_change_state_current, fsm_change_state_settings_index,
        fsm_change_state_settings_menu, fsm_change_state_settings, buzzer_click,
        motor_stop_all, nvs_storage_save, motor_set_calibration, display_set_brightness,
        buzzer_set_volume, motor_apply_speeds, motor_test, set_current_cal]) <;>
      (try split_ifs) <;>
      (try simp [hs, hsm]) <;>
      (try omega)
  all_goals
    cases evt <;>
    simp only [fsm_process_button, mode_menu_handle_button, mode_mecanum_handle_button,
      mode_rc_handle_button, mode_voice_handle_button,
      hs, MENU_ITEMS, reduceCtorEq, if_true, if_false] <;>
    (try split_ifs) <;>
    (try simp only [fsm_change_state_current, fsm_change_state_settings_index,
      fsm_change_state_settings_menu, fsm_change_state_settings, buzzer_click,
      buzzer_error, motor_stop_all]) <;>
    (try simp [hs])

set_option maxHeartbeats 4000000 in
/-- One button event keeps the motor-test flag confined to the motor-test
sub-menu of the settings mode, and keeps the motors stopped while the flag is
clear. -/
theorem fsm_process_button_motor_test (evt : button_event_t) (s : system_t)
    (hr : s.s_motor_running = true →
      s.g_ctx.current_state = system_state_t.STATE_MODE_SETTINGS ∧
        s.g_ctx.settings_menu = settings_menu_t.SETTINGS_MOTOR_TEST) :
    ((fsm_process_button evt s).s_motor_running = true →
      (fsm_process_button evt s).g_ctx.current_state = system_state_t.STATE_MODE_SETTINGS ∧
        (fsm_process_button evt s).g_ctx.settings_menu = settings_menu_t.SETTINGS_MOTOR_TEST) ∧
    ((s.s_motor_running = false → motors_stopped s) →
      (fsm_process_button evt s).s_motor_running = false →
      motors_stopped (fsm_process_button evt s)) := by
  cases hrun : s.s_motor_running
  case true =>
    obtain ⟨hs, hsm⟩ := hr hrun
    cases evt <;>
      simp only [fsm_process_button, mode_settings_handle_button, handle_motor_test, hs, hsm,
        reduceCtorEq, if_true, if_false] <;>
      (try split_ifs) <;>
      simp_all [buzzer_click, motor_stop_all, motors_stopped, set_motor_zero]
  case false =>
    cases hs : s.g_ctx.current_state
    case STATE_MODE_SETTINGS =>
      cases hsm : s.g_ctx.settings_menu <;> cases evt <;>
      simp only [fsm_process_button, mode_settings_handle_button,
        handle_main_menu, handle_brightness, handle_volume, handle_motor_cal, handle_motor_test,
        get_current_cal, hs, hsm, hrun, SETTINGS_ITEMS, reduceCtorEq, if_true, if_false,
        Bool.false_eq_true] <;>
      (try split_ifs) <;>
      (try simp only [fsm_change_state_current, fsm_change_state_settings_menu,
        fsm_change_state_settings, buzzer_click,
        motor_stop_all, nvs_storage_save, motor_set_calibration, display_set_brightness,
        buzzer_set_volume, motor_apply_speeds, motor_test, set_current_cal]) <;>
      (try split_ifs) <;>
      (try simp [hs, hsm, hrun, motors_stopped, set_motor_zero, fsm_change_state_outs,
        is_driving_mode])
    all_goals
      cases evt <;>
      simp only [fsm_process_button, mode_menu_handle_button, mode_mecanum_handle_button,
        mode_rc_handle_button, mode_voice_handle_button,
        hs, MENU_ITEMS, reduceCtorEq, if_true, if_false] <;>
      (try split_ifs) <;>
      (try simp only [fsm_change_state_current, fsm_change_state_settings_menu,
        fsm_change_state_settings, buzzer_click, buzzer_error, motor_stop_all]) <;>
      (try simp [hs, hrun, motors_stopped, set_motor_zero, fsm_change_state_outs,
        is_driving_mode])

/-- Operating mode after one button event, for every machine state: the
main menu is left only by a single click, into the mode under the cursor; a
driving mode is left only by a double click, into the main menu; the
settings mode is left only into the main menu. -/
theorem fsm_process_button_mode_change (evt : button_event_t) (s : system_t) :
    ((fsm_process_button evt s).g_ctx.current_state ≠ s.g_ctx.current_state →
      s.g_ctx.current_state = system_state_t.STATE_MAIN_MENU ∨
        (fsm_process_button evt s).g_ctx.current_state = system_state_t.STATE_MAIN_MENU) ∧
    (s.g_ctx.current_state = system_state_t.STATE_MAIN_MENU →
      (evt ≠ button_event_t.BTN_EVT_OK_SINGLE →
        (fsm_process_button evt s).g_ctx.current_state = system_state_t.STATE_MAIN_MENU) ∧
      (evt = button_event_t.BTN_EVT_OK_SINGLE →
        (s.g_ctx.menu_index = 0 →
          (fsm_process_button evt s).g_ctx.current_state = system_state_t.STATE_MODE_MECANUM) ∧
        (s.g_ctx.menu_index = 1 →
          (fsm_process_button evt s).g_ctx.current_state = system_state_t.STATE_MODE_RC) ∧
        (s.g_ctx.menu_index = 2 →
          (fsm_process_button evt s).g_ctx.current_state = system_state_t.STATE_MODE_VOICE) ∧
        (s.g_ctx.menu_index = 3 →
          (fsm_process_button evt s).g_ctx.current_state
            = system_state_t.STATE_MODE_SETTINGS))) ∧
    (is_driving_mode s.g_ctx.current_state →
      (evt ≠ button_event_t.BTN_EVT_OK_DOUBLE →
        (fsm_process_button evt s).g_ctx.current_state = s.g_ctx.current_state) ∧
      (evt = button_event_t.BTN_EVT_OK_DOUBLE →
        (fsm_process_button evt s).g_ctx.current_state = system_state_t.STATE_MAIN_MENU)) := by
  cases hs : s.g_ctx.current_state
  case STATE_MODE_SETTINGS =>
    cases hsm : s.g_ctx.settings_menu <;> cases evt <;>
    simp only [fsm_process_button, mode_settings_handle_button,
      handle_main_menu, handle_brightness, handle_volume, handle_motor_cal, handle_motor_test,
      get_current_cal, hs, hsm, SETTINGS_ITEMS, reduceCtorEq, if_true, if_false] <;>
    (try split_ifs) <;>
    (try simp only [fsm_change_state_current, buzzer_click,
      motor_stop_all, nvs_storage_save, motor_set_calibration, display_set_brightness,
      buzzer_set_volume, motor_apply_speeds, motor_test, set_current_cal]) <;>
    (try split_ifs) <;>
    (try simp [hs, is_driving_mode])
  all_goals
    cases evt <;>
    simp only [fsm_process_button, mode_menu_handle_button, mode_mecanum_handle_button,
      mode_rc_handle_button, mode_voice_handle_button,
      hs, MENU_ITEMS, reduceCtorEq, if_true, if_false] <;>
    (try split_ifs) <;>
    (try simp only [fsm_change_state_current, buzzer_click, buzzer_error, motor_stop_all]) <;>
    (try simp [hs, is_driving_mode]) <;>
    (try omega)

theorem fsm_run_cursors (evts : List button_event_t) :
    ∀ s : system_t,
      (0 ≤ s.g_ctx.menu_index ∧ s.g_ctx.menu_index ≤ 3) →
      (0 ≤ s.g_ctx.settings_index ∧ s.g_ctx.settings_index ≤ 4) →
      (0 ≤ (fsm_run s evts).g_ctx.menu_index ∧ (fsm_run s evts).g_ctx.menu_index ≤ 3) ∧
        (0 ≤ (fsm_run s evts).g_ctx.settings_index ∧
          (fsm_run s evts).g_ctx.settings_index ≤ 4) := by
  induction evts with
  | nil =>
    intro s hm hi
    exact ⟨hm, hi⟩
  | cons e rest ih =>
    intro s hm hi
    obtain ⟨a, b⟩ := fsm_process_button_cursors e s hm hi
    exact ih _ a b

theorem fsm_run_front_cal (evts : List button_event_t) :
    ∀ s : system_t,
      (s.g_ctx.current_state = system_state_t.STATE_MODE_SETTINGS →
        s.g_ctx.settings_menu = settings_menu_t.SETTINGS_MOTOR_CAL →
        s.g_ctx.settings_index = 2 ∨ s.g_ctx.settings_index = 3) →
      ((fsm_run s evts).g_ctx.current_state = system_state_t.STATE_MODE_SETTINGS →
        (fsm_run s evts).g_ctx.settings_menu = settings_menu_t.SETTINGS_MOTOR_CAL →
        (fsm_run s evts).g_ctx.settings_index = 2 ∨ (fsm_run s evts).g_ctx.settings_index = 3) ∧
      (fsm_run s evts).g_ctx.settings.motor_cal_fl = s.g_ctx.settings.motor_cal_fl ∧
      (fsm_run s evts).g_ctx.settings.motor_cal_fr = s.g_ctx.settings.motor_cal_fr := by
  induction evts with
  | nil =>
    intro s h
    exact ⟨h, rfl, rfl⟩
  | cons e rest ih =>
    intro s h
    obtain ⟨a, b, c⟩ := fsm_process_button_front_cal e s h
    obtain ⟨a2, b2, c2⟩ := ih _ a
    exact ⟨a2, b2.trans b, c2.trans c⟩

theorem fsm_run_motor_test (evts : List button_event_t) :
    ∀ s : system_t,
      (s.s_motor_running = true →
        s.g_ctx.current_state = system_state_t.STATE_MODE_SETTINGS ∧
          s.g_ctx.settings_menu = settings_menu_t.SETTINGS_MOTOR_TEST) →
      ((fsm_run s evts).s_motor_running = true →
        (fsm_run s evts).g_ctx.current_state = system_state_t.STATE_MODE_SETTINGS ∧
          (fsm_run s evts).g_ctx.settings_menu = settings_menu_t.SETTINGS_MOTOR_TEST) ∧
      ((s.s_motor_running = false → motors_stopped s) →
        (fsm_run s evts).s_motor_running = false → motors_stopped (fsm_run s evts)) := by
  induction evts with
  | nil =>
    intro s h
    exact ⟨h, fun x => x⟩
  | cons e rest ih =>
    intro s h
    obtain ⟨a, b⟩ := fsm_process_button_motor_test e s h
    obtain ⟨a2, b2⟩ := ih _ a
    exact ⟨a2, fun hm => b2 (b hm)⟩

theorem motor_test_g_ctx (motor_id speed : Int) (s : system_t) :
    (motor_test motor_id speed s).g_ctx = s.g_ctx := by
  unfold motor_test
  simp only []
  split_ifs <;> rfl

/-- The motor-test sub-menu is left only with the motors stopped and the
flag clear: an event after which the machine is no longer in that sub-menu
of the settings mode has stopped all four channels. -/
theorem handle_motor_test_exit (evt : button_event_t) (s : system_t)
    (hs : s.g_ctx.current_state = system_state_t.STATE_MODE_SETTINGS)
    (hsm : s.g_ctx.settings_menu = settings_menu_t.SETTINGS_MOTOR_TEST)
    (hx : ¬ ((fsm_process_button evt s).g_ctx.current_state = system_state_t.STATE_MODE_SETTINGS ∧
      (fsm_process_button evt s).g_ctx.settings_menu = settings_menu_t.SETTINGS_MOTOR_TEST)) :
    (fsm_process_button evt s).s_motor_running = false ∧
      motors_stopped (fsm_process_button evt s) := by
  revert hx
  cases evt <;>
    simp only [fsm_process_button, mode_settings_handle_button, handle_motor_test, hs, hsm,
      reduceCtorEq, if_true, if_false] <;>
    (try split_ifs) <;>
    simp_all [buzzer_click, motor_stop_all, motors_stopped, set_motor_zero, motor_apply_speeds,
      motor_test_g_ctx]

/-- C36: from `fsm_init` on any machine state (so with any settings values)
and after any sequence of button events, the front-left and front-right
calibration values of the settings record are the initial ones, and the
motor-calibration sub-menu of the settings mode is open only with the
settings cursor at 2 or 3 (back-left, back-right). -/
theorem front_calibration_unreachable (s0 : system_t) (evts : List button_event_t) :
    (fsm_run (fsm_init s0) evts).g_ctx.settings.motor_cal_fl = s0.g_ctx.settings.motor_cal_fl ∧
    (fsm_run (fsm_init s0) evts).g_ctx.settings.motor_cal_fr = s0.g_ctx.settings.motor_cal_fr ∧
    ((fsm_run (fsm_init s0) evts).g_ctx.current_state = system_state_t.STATE_MODE_SETTINGS →
      (fsm_run (fsm_init s0) evts).g_ctx.settings_menu = settings_menu_t.SETTINGS_MOTOR_CAL →
      (fsm_run (fsm_init s0) evts).g_ctx.settings_index = 2 ∨
        (fsm_run (fsm_init s0) evts).g_ctx.settings_index = 3) := by
  obtain ⟨a, b, c⟩ := fsm_run_front_cal evts (fsm_init s0)
    (by intro h; simp [fsm_init] at h)
  exact ⟨b, c, a⟩

/-- Witness for C36: from start-up, down three times and a click enter the
settings mode, down twice and a click open the calibration sub-menu with the
cursor at 2; down lowers the back-left value, a click moves to 3, up and down
act on the back-right value, and the last click leaves with the cursor at 0.
The front values stay 255. -/
theorem front_calibration_unreachable_witness :
    (fsm_run (fsm_init boot_system)
        [button_event_t.BTN_EVT_DOWN_PRESSED, button_event_t.BTN_EVT_DOWN_PRESSED,
          button_event_t.BTN_EVT_DOWN_PRESSED, button_event_t.BTN_EVT_OK_SINGLE,
          button_event_t.BTN_EVT_DOWN_PRESSED, button_event_t.BTN_EVT_DOWN_PRESSED,
          button_event_t.BTN_EVT_OK_SINGLE, button_event_t.BTN_EVT_DOWN_PRESSED,
          button_event_t.BTN_EVT_OK_SINGLE, button_event_t.BTN_EVT_DOWN_PRESSED,
          button_event_t.BTN_EVT_DOWN_PRESSED]).g_ctx.settings
      = ⟨255, 80, 255, 255, 245, 235⟩ ∧
    ((fsm_run (fsm_init boot_system)
        [button_event_t.BTN_EVT_DOWN_PRESSED, button_event_t.BTN_EVT_DOWN_PRESSED,
          button_event_t.BTN_EVT_DOWN_PRESSED, button_event_t.BTN_EVT_OK_SINGLE,
          button_event_t.BTN_EVT_DOWN_PRESSED, button_event_t.BTN_EVT_DOWN_PRESSED,
          button_event_t.BTN_EVT_OK_SINGLE, button_event_t.BTN_EVT_DOWN_PRESSED,
          button_event_t.BTN_EVT_OK_SINGLE, button_event_t.BTN_EVT_DOWN_PRESSED,
          button_event_t.BTN_EVT_DOWN_PRESSED]).g_ctx.settings_index = 2 ∨
      (fsm_run (fsm_init boot_system)
        [button_event_t.BTN_EVT_DOWN_PRESSED, button_event_t.BTN_EVT_DOWN_PRESSED,
          button_event_t.BTN_EVT_DOWN_PRESSED, button_event_t.BTN_EVT_OK_SINGLE,
          button_event_t.BTN_EVT_DOWN_PRESSED, button_event_t.BTN_EVT_DOWN_PRESSED,
          button_event_t.BTN_EVT_OK_SINGLE, button_event_t.BTN_EVT_DOWN_PRESSED,
          button_event_t.BTN_EVT_OK_SINGLE, button_event_t.BTN_EVT_DOWN_PRESSED,
          button_event_t.BTN_EVT_DOWN_PRESSED]).g_ctx.settings_index = 3) :=
  ⟨by decide,
    (front_calibration_unreachable boot_system
      [button_event_t.BTN_EVT_DOWN_PRESSED, button_event_t.BTN_EVT_DOWN_PRESSED,
        button_event_t.BTN_EVT_DOWN_PRESSED, button_event_t.BTN_EVT_OK_SINGLE,
        button_event_t.BTN_EVT_DOWN_PRESSED, button_event_t.BTN_EVT_DOWN_PRESSED,
        button_event_t.BTN_EVT_OK_SINGLE, button_event_t.BTN_EVT_DOWN_PRESSED,
        button_event_t.BTN_EVT_OK_SINGLE, button_event_t.BTN_EVT_DOWN_PRESSED,
        button_event_t.BTN_EVT_DOWN_PRESSED]).2.2 (by decide) (by decide)⟩

/-- C37: from `fsm_init` on a machine state with the motor-test flag clear
and after any sequence of button events, the flag is set only in the
motor-test sub-menu of the settings mode; an event that takes the machine
out of that sub-menu (or out of the settings mode) leaves the flag clear and
all four motor channels stopped; and when the motors were stopped at the
start, they are stopped whenever the flag is clear. -/
theorem motor_test_cannot_be_left_running (s0 : system_t) (evts : List button_event_t)
    (h0 : s0.s_motor_running = false) :
    ((fsm_run (fsm_init s0) evts).s_motor_running = true →
      (fsm_run (fsm_init s0) evts).g_ctx.current_state = system_state_t.STATE_MODE_SETTINGS ∧
        (fsm_run (fsm_init s0) evts).g_ctx.settings_menu
          = settings_menu_t.SETTINGS_MOTOR_TEST) ∧
    (∀ evt : button_event_t,
      (fsm_run (fsm_init s0) evts).g_ctx.current_state = system_state_t.STATE_MODE_SETTINGS →
      (fsm_run (fsm_init s0) evts).g_ctx.settings_menu = settings_menu_t.SETTINGS_MOTOR_TEST →
      ¬ ((fsm_run (fsm_init s0) (evts ++ [evt])).g_ctx.current_state
            = system_state_t.STATE_MODE_SETTINGS ∧
          (fsm_run (fsm_init s0) (evts ++ [evt])).g_ctx.settings_menu
            = settings_menu_t.SETTINGS_MOTOR_TEST) →
      (fsm_run (fsm_init s0) (evts ++ [evt])).s_motor_running = false ∧
        motors_stopped (fsm_run (fsm_init s0) (evts ++ [evt]))) ∧
    (motors_stopped s0 → (fsm_run (fsm_init s0) evts).s_motor_running = false →
      motors_stopped (fsm_run (fsm_init s0) evts)) := by
  have hrun : ∀ (l1 l2 : List button_event_t) (s : system_t),
      fsm_run s (l1 ++ l2) = fsm_run (fsm_run s l1) l2 := by
    intro l1
    induction l1 with
    | nil => intro l2 s; rfl
    | cons e rest ih =>
      intro l2 s
      show fsm_run (fsm_process_button e s) (rest ++ l2) = _
      rw [ih]
      rfl
  obtain ⟨a, b⟩ := fsm_run_motor_test evts (fsm_init s0)
    (by intro h; simp [fsm_init, h0] at h)
  refine ⟨a, ?_, ?_⟩
  · intro evt hs hsm hx
    rw [hrun] at hx ⊢
    exact handle_motor_test_exit evt _ hs hsm hx
  · intro hm
    exact b (fun _ => hm)

/-- Witness for C37: from start-up into the motor-test sub-menu, a click
starts the front-left motor, a double click leaves the sub-menu with the
motors stopped. -/
theorem motor_test_cannot_be_left_running_witness :
    (boot_system.s_motor_running = false ∧ motors_stopped boot_system) ∧
    ((fsm_run (fsm_init boot_system)
        [button_event_t.BTN_EVT_DOWN_PRESSED, button_event_t.BTN_EVT_DOWN_PRESSED,
          button_event_t.BTN_EVT_DOWN_PRESSED, button_event_t.BTN_EVT_OK_SINGLE,
          button_event_t.BTN_EVT_DOWN_PRESSED, button_event_t.BTN_EVT_DOWN_PRESSED,
          button_event_t.BTN_EVT_DOWN_PRESSED, button_event_t.BTN_EVT_OK_SINGLE,
          button_event_t.BTN_EVT_OK_SINGLE]).s_motor_running = true ∧
      (fsm_run (fsm_init boot_system)
        [button_event_t.BTN_EVT_DOWN_PRESSED, button_event_t.BTN_EVT_DOWN_PRESSED,
          button_event_t.BTN_EVT_DOWN_PRESSED, button_event_t.BTN_EVT_OK_SINGLE,
          button_event_t.BTN_EVT_DOWN_PRESSED, button_event_t.BTN_EVT_DOWN_PRESSED,
          button_event_t.BTN_EVT_DOWN_PRESSED, button_event_t.BTN_EVT_OK_SINGLE,
          button_event_t.BTN_EVT_OK_SINGLE]).out_fl = ⟨true, false, 150⟩) ∧
    ((fsm_run (fsm_init boot_system)
        ([button_event_t.BTN_EVT_DOWN_PRESSED, button_event_t.BTN_EVT_DOWN_PRESSED,
          button_event_t.BTN_EVT_DOWN_PRESSED, button_event_t.BTN_EVT_OK_SINGLE,
          button_event_t.BTN_EVT_DOWN_PRESSED, button_event_t.BTN_EVT_DOWN_PRESSED,
          button_event_t.BTN_EVT_DOWN_PRESSED, button_event_t.BTN_EVT_OK_SINGLE,
          button_event_t.BTN_EVT_OK_SINGLE] ++ [button_event_t.BTN_EVT_OK_DOUBLE])).s_motor_running
        = false ∧
      motors_stopped (fsm_run (fsm_init boot_system)
        ([button_event_t.BTN_EVT_DOWN_PRESSED, button_event_t.BTN_EVT_DOWN_PRESSED,
          button_event_t.BTN_EVT_DOWN_PRESSED, button_event_t.BTN_EVT_OK_SINGLE,
          button_event_t.BTN_EVT_DOWN_PRESSED, button_event_t.BTN_EVT_DOWN_PRESSED,
          button_event_t.BTN_EVT_DOWN_PRESSED, button_event_t.BTN_EVT_OK_SINGLE,
          button_event_t.BTN_EVT_OK_SINGLE] ++ [button_event_t.BTN_EVT_OK_DOUBLE]))) :=
  ⟨by decide, by decide,
    (motor_test_cannot_be_left_running boot_system
      [button_event_t.BTN_EVT_DOWN_PRESSED, button_event_t.BTN_EVT_DOWN_PRESSED,
        button_event_t.BTN_EVT_DOWN_PRESSED, button_event_t.BTN_EVT_OK_SINGLE,
        button_event_t.BTN_EVT_DOWN_PRESSED, button_event_t.BTN_EVT_DOWN_PRESSED,
        button_event_t.BTN_EVT_DOWN_PRESSED, button_event_t.BTN_EVT_OK_SINGLE,
        button_event_t.BTN_EVT_OK_SINGLE] (by decide)).2.1
      button_event_t.BTN_EVT_OK_DOUBLE (by decide) (by decide) (by decide)⟩

/-- C38: after `fsm_init` the machine is in the main menu, and for the state
`s` reached from there by any sequence of button events and any further
event: if the event changes the operating mode, the mode before or the mode
after is the main menu; in the main menu only a single click changes the
mode, into mecanum, RC, voice or settings for the menu cursor 0, 1, 2, 3;
in a driving mode only a double click changes the mode, into the main
menu. -/
theorem mode_changes_pass_through_menu (s0 : system_t) (evts : List button_event_t)
    (evt : button_event_t) :
    (fsm_init s0).g_ctx.current_state = system_state_t.STATE_MAIN_MENU ∧
    ((fsm_process_button evt (fsm_run (fsm_init s0) evts)).g_ctx.current_state
        ≠ (fsm_run (fsm_init s0) evts).g_ctx.current_state →
      (fsm_run (fsm_init s0) evts).g_ctx.current_state = system_state_t.STATE_MAIN_MENU ∨
        (fsm_process_button evt (fsm_run (fsm_init s0) evts)).g_ctx.current_state
          = system_state_t.STATE_MAIN_MENU) ∧
    ((fsm_run (fsm_init s0) evts).g_ctx.current_state = system_state_t.STATE_MAIN_MENU →
      (evt ≠ button_event_t.BTN_EVT_OK_SINGLE →
        (fsm_process_button evt (fsm_run (fsm_init s0) evts)).g_ctx.current_state
          = system_state_t.STATE_MAIN_MENU) ∧
      (evt = button_event_t.BTN_EVT_OK_SINGLE →
        ((fsm_run (fsm_init s0) evts).g_ctx.menu_index = 0 →
          (fsm_process_button evt (fsm_run (fsm_init s0) evts)).g_ctx.current_state
            = system_state_t.STATE_MODE_MECANUM) ∧
        ((fsm_run (fsm_init s0) evts).g_ctx.menu_index = 1 →
          (fsm_process_button evt (fsm_run (fsm_init s0) evts)).g_ctx.current_state
            = system_state_t.STATE_MODE_RC) ∧
        ((fsm_run (fsm_init s0) evts).g_ctx.menu_index = 2 →
          (fsm_process_button evt (fsm_run (fsm_init s0) evts)).g_ctx.current_state
            = system_state_t.STATE_MODE_VOICE) ∧
        ((fsm_run (fsm_init s0) evts).g_ctx.menu_index = 3 →
          (fsm_process_button evt (fsm_run (fsm_init s0) evts)).g_ctx.current_state
            = system_state_t.STATE_MODE_SETTINGS))) ∧
    (is_driving_mode (fsm_run (fsm_init s0) evts).g_ctx.current_state →
      (evt ≠ button_event_t.BTN_EVT_OK_DOUBLE →
        (fsm_process_button evt (fsm_run (fsm_init s0) evts)).g_ctx.current_state
          = (fsm_run (fsm_init s0) evts).g_ctx.current_state) ∧
      (evt = button_event_t.BTN_EVT_OK_DOUBLE →
        (fsm_process_button evt (fsm_run (fsm_init s0) evts)).g_ctx.current_state
          = system_state_t.STATE_MAIN_MENU)) :=
  ⟨rfl, fsm_process_button_mode_change evt (fsm_run (fsm_init s0) evts)⟩

/-- Witness for C38: from start-up, down and a single click enter the RC
mode (cursor 1); there a double click returns to the main menu. -/
theorem mode_changes_pass_through_menu_witness :
    (fsm_run (fsm_init boot_system) [button_event_t.BTN_EVT_DOWN_PRESSED]).g_ctx.menu_index = 1 ∧
    (fsm_process_button button_event_t.BTN_EVT_OK_SINGLE
        (fsm_run (fsm_init boot_system) [button_event_t.BTN_EVT_DOWN_PRESSED])).g_ctx.current_state
      = system_state_t.STATE_MODE_RC ∧
    (fsm_process_button button_event_t.BTN_EVT_OK_DOUBLE
        (fsm_run (fsm_init boot_system)
          [button_event_t.BTN_EVT_DOWN_PRESSED,
            button_event_t.BTN_EVT_OK_SINGLE])).g_ctx.current_state
      = system_state_t.STATE_MAIN_MENU :=
  ⟨by decide,
    (((mode_changes_pass_through_menu boot_system [button_event_t.BTN_EVT_DOWN_PRESSED]
      button_event_t.BTN_EVT_OK_SINGLE).2.2.1 (by decide)).2 rfl).2.1 (by decide),
    ((mode_changes_pass_through_menu boot_system
      [button_event_t.BTN_EVT_DOWN_PRESSED, button_event_t.BTN_EVT_OK_SINGLE]
      button_event_t.BTN_EVT_OK_DOUBLE).2.2.2 (by decide)).2 rfl⟩

/-- C39: from `fsm_init` on any machine state and after any sequence of
button events the menu cursor is within [0, 3] and the settings cursor
within [0, 4] (so both stay far from the limits of an `int8_t`); hence a
single click in the main menu always enters one of the four modes, and a
single click in the root of the settings menu always opens a sub-menu or
leaves through the last entry. -/
theorem menu_cursors_stay_in_range (s0 : system_t) (evts : List button_event_t) :
    (0 ≤ (fsm_run (fsm_init s0) evts).g_ctx.menu_index ∧
      (fsm_run (fsm_init s0) evts).g_ctx.menu_index ≤ 3) ∧
    (0 ≤ (fsm_run (fsm_init s0) evts).g_ctx.settings_index ∧
      (fsm_run (fsm_init s0) evts).g_ctx.settings_index ≤ 4) ∧
    ((fsm_run (fsm_init s0) evts).g_ctx.current_state = system_state_t.STATE_MAIN_MENU →
      (fsm_process_button button_event_t.BTN_EVT_OK_SINGLE
          (fsm_run (fsm_init s0) evts)).g_ctx.current_state
        ≠ system_state_t.STATE_MAIN_MENU) ∧
    ((fsm_run (fsm_init s0) evts).g_ctx.current_state = system_state_t.STATE_MODE_SETTINGS →
      (fsm_run (fsm_init s0) evts).g_ctx.settings_menu = settings_menu_t.SETTINGS_MAIN →
      (fsm_process_button button_event_t.BTN_EVT_OK_SINGLE
          (fsm_run (fsm_init s0) evts)).g_ctx.settings_menu ≠ settings_menu_t.SETTINGS_MAIN ∨
        (fsm_process_button button_event_t.BTN_EVT_OK_SINGLE
          (fsm_run (fsm_init s0) evts)).g_ctx.current_state
          = system_state_t.STATE_MAIN_MENU) := by
  obtain ⟨hm, hi⟩ := fsm_run_cursors evts (fsm_init s0) (by simp [fsm_init]) (by simp [fsm_init])
  refine ⟨hm, hi, ?_, ?_⟩
  · intro hs
    generalize fsm_run (fsm_init s0) evts = s at *
    have h4 : s.g_ctx.menu_index = 0 ∨ s.g_ctx.menu_index = 1 ∨ s.g_ctx.menu_index = 2 ∨
        s.g_ctx.menu_index = 3 := by omega
    rcases h4 with h | h | h | h <;>
      simp [fsm_process_button, mode_menu_handle_button, hs, h, fsm_change_state_current]
  · intro hs hsm
    generalize fsm_run (fsm_init s0) evts = s at *
    have h5 : s.g_ctx.settings_index = 0 ∨ s.g_ctx.settings_index = 1 ∨
        s.g_ctx.settings_index = 2 ∨ s.g_ctx.settings_index = 3 ∨ s.g_ctx.settings_index = 4 := by
      omega
    rcases h5 with h | h | h | h | h <;>
      simp [fsm_process_button, mode_settings_handle_button, handle_main_menu, hs, hsm, h,
        fsm_change_state_current, buzzer_click]

/-- Witness for C39: at start-up, up does not take the menu cursor below 0;
four times down stop at 3; entering the settings mode and pressing down five
times stops the settings cursor at 4. -/
theorem menu_cursors_stay_in_range_witness :
    (fsm_run (fsm_init boot_system) [button_event_t.BTN_EVT_UP_PRESSED]).g_ctx.menu_index = 0 ∧
    (fsm_run (fsm_init boot_system)
        [button_event_t.BTN_EVT_DOWN_PRESSED, button_event_t.BTN_EVT_DOWN_PRESSED,
          button_event_t.BTN_EVT_DOWN_PRESSED, button_event_t.BTN_EVT_DOWN_PRESSED]).g_ctx.menu_index
      = 3 ∧
    (fsm_process_button button_event_t.BTN_EVT_OK_SINGLE
        (fsm_run (fsm_init boot_system)
          [button_event_t.BTN_EVT_DOWN_PRESSED, button_event_t.BTN_EVT_DOWN_PRESSED,
            button_event_t.BTN_EVT_DOWN_PRESSED,
            button_event_t.BTN_EVT_DOWN_PRESSED])).g_ctx.current_state
      ≠ system_state_t.STATE_MAIN_MENU :=
  ⟨by decide, by decide,
    (menu_cursors_stay_in_range boot_system
      [button_event_t.BTN_EVT_DOWN_PRESSED, button_event_t.BTN_EVT_DOWN_PRESSED,
        button_event_t.BTN_EVT_DOWN_PRESSED, button_event_t.BTN_EVT_DOWN_PRESSED]).2.2.1
      (by decide)⟩

/-! ## Left-right mirror symmetry of the joystick policies -/

theorem deadzoned_neg (v : Int) :
    deadzoned (-v) = -deadzoned v ∧ c_abs (deadzoned (-v)) = c_abs (deadzoned v) := by
  unfold deadzoned c_abs
  split_ifs <;> omega

theorem interpret_mecanum_mirror (g : system_context_t) (t st : Int)
    (ht : -255 ≤ t ∧ t ≤ 255) (hb : g.joystick.btn1 = false) :
    interpret_mecanum g t (-st) = mirror_movement (interpret_mecanum g t st) := by
  rw [interpret_mecanum_unfold, interpret_mecanum_unfold]
  obtain ⟨dneg, cneg⟩ := deadzoned_neg st
  rw [cneg, dneg]
  simp only [hb, Bool.false_eq_true, if_false]
  have hx := c_abs_deadzoned_bounds t ht
  have hy0 : 0 ≤ c_abs (deadzoned st) := by
    unfold c_abs
    split_ifs <;> omega
  have hr := f32_ratio_gt_iff_int (c_abs (deadzoned st)) (c_abs (deadzoned t)) hy0
    (by omega) (by omega)
  have hc0 : deadzoned st = 0 → c_abs (deadzoned st) = 0 := by
    intro h
    rw [h]
    rfl
  generalize float32.gt (float32.div (float32.of_nat (c_abs (deadzoned st)).toNat)
    (float32.of_nat (c_abs (deadzoned t) + 1).toNat)) DIAGONAL_RATIO = G at *
  generalize c_abs (deadzoned st) = cy at *
  generalize c_abs (deadzoned t) = cx at *
  generalize deadzoned st = y at *
  generalize deadzoned t = x at *
  rcases lt_trichotomy y 0 with h | h | h
  · have h1 : ¬ y > 0 := by omega
    have h2 : y ≠ 0 := by omega
    have h3 : -y > 0 := by omega
    have h4 : -y ≠ 0 := by omega
    simp only [h1, h2, h3, h4, and_false, if_false, if_true]
    split_ifs <;> rfl
  · subst h
    have hG : ¬ G = true := by
      intro hg
      have := hr.mp hg
      have := hc0 rfl
      omega
    have hcy : cy = 0 := hc0 rfl
    simp only [hG, neg_zero, if_false]
    split_ifs <;> first | rfl | contradiction | (exfalso; omega)
  · have h1 : y > 0 := h
    have h2 : y ≠ 0 := by omega
    have h3 : ¬ -y > 0 := by omega
    have h4 : -y ≠ 0 := by omega
    simp only [h1, h2, h3, h4, and_false, if_false, if_true]
    split_ifs <;> rfl

theorem interpret_rc_mirror (g : system_context_t) (t st : Int)
    (hb : g.joystick.btn1 = false) :
    interpret_rc g t (-st) = mirror_movement (interpret_rc g t st) := by
  rw [interpret_rc_unfold, interpret_rc_unfold]
  obtain ⟨dneg, cneg⟩ := deadzoned_neg st
  rw [cneg, dneg]
  simp only [hb, Bool.false_eq_true, if_false]
  have hc0 : deadzoned st = 0 → ¬ c_abs (deadzoned st) > 25 := by
    intro h
    rw [h]
    decide
  generalize c_abs (deadzoned st) = cy at *
  generalize c_abs (deadzoned t) = cx at *
  generalize deadzoned st = y at *
  generalize deadzoned t = x at *
  rcases lt_trichotomy y 0 with h | h | h
  · have h1 : ¬ y > 0 := by omega
    have h2 : y ≠ 0 := by omega
    have h3 : -y > 0 := by omega
    have h4 : -y ≠ 0 := by omega
    simp only [h1, h2, h3, h4, and_false, if_false, if_true]
    split_ifs <;> rfl
  · subst h
    have hG := hc0 rfl
    simp only [hG, neg_zero, if_false]
    split_ifs <;> rfl
  · have h1 : y > 0 := h
    have h2 : y ≠ 0 := by omega
    have h3 : ¬ -y > 0 := by omega
    have h4 : -y ≠ 0 := by omega
    simp only [h1, h2, h3, h4, and_false, if_false, if_true]
    split_ifs <;> rfl

theorem mecanum_sign_pattern_mirror (m : movement_type_t) :
    mecanum_sign_pattern (mirror_movement m) =
      ((mecanum_sign_pattern m).2.1, (mecanum_sign_pattern m).1,
        (mecanum_sign_pattern m).2.2.2, (mecanum_sign_pattern m).2.2.1) := by
  cases m <;> rfl

theorem with_axes_joystick (t st : Int) (s : system_t) :
    (with_axes t st s).g_ctx.joystick.throttle = t ∧
      (with_axes t st s).g_ctx.joystick.steering = st ∧
      (with_axes t st s).g_ctx.joystick.btn1 = false := ⟨rfl, rfl, rfl⟩

theorem mode_mecanum_process_mirror (s : system_t) (t st : Int)
    (ht : -255 ≤ t ∧ t ≤ 255) (hs : -255 ≤ st ∧ st ≤ 255) :
    (mode_mecanum_process (with_axes t (-st) s)).g_ctx.movement
        = mirror_movement (mode_mecanum_process (with_axes t st s)).g_ctx.movement ∧
      (mode_mecanum_process (with_axes t (-st) s)).g_ctx.motor_speeds
        = mirror_speeds (mode_mecanum_process (with_axes t st s)).g_ctx.motor_speeds := by
  obtain ⟨a1, a2, a3⟩ := with_axes_joystick t st s
  obtain ⟨b1, b2, b3⟩ := with_axes_joystick t (-st) s
  have hm : interpret_mecanum (with_axes t (-st) s).g_ctx t (-st)
      = mirror_movement (interpret_mecanum (with_axes t st s).g_ctx t st) := by
    rw [← interpret_mecanum_mirror (with_axes t st s).g_ctx t st ht a3]
    simp only [interpret_mecanum, a3, b3]
  have hmag : mecanum_magnitude t (-st) = mecanum_magnitude t st := by
    unfold mecanum_magnitude
    rw [(deadzoned_neg st).2]
  refine ⟨?_, ?_⟩
  · rw [mode_mecanum_process_movement, mode_mecanum_process_movement, a1, a2, b1, b2, hm]
  · rw [mode_mecanum_process_speeds, mode_mecanum_process_speeds, a1, a2, b1, b2, hm,
      calculate_mecanum_speeds_in_range _ _ _ ht (by omega),
      calculate_mecanum_speeds_in_range _ _ _ ht hs, hmag]
    simp only [mecanum_sign_pattern_mirror, mirror_speeds]

theorem mode_rc_process_mirror (s : system_t) (t st : Int)
    (ht : -255 ≤ t ∧ t ≤ 255) (hs : -255 ≤ st ∧ st ≤ 255) :
    (mode_rc_process (with_axes t (-st) s)).g_ctx.movement
        = mirror_movement (mode_rc_process (with_axes t st s)).g_ctx.movement ∧
      (mode_rc_process (with_axes t (-st) s)).g_ctx.motor_speeds
        = mirror_speeds (mode_rc_process (with_axes t st s)).g_ctx.motor_speeds := by
  obtain ⟨a1, a2, a3⟩ := with_axes_joystick t st s
  obtain ⟨b1, b2, b3⟩ := with_axes_joystick t (-st) s
  have hm : interpret_rc (with_axes t (-st) s).g_ctx t (-st)
      = mirror_movement (interpret_rc (with_axes t st s).g_ctx t st) := by
    rw [← interpret_rc_mirror (with_axes t st s).g_ctx t st a3]
    simp only [interpret_rc, a3, b3]
  obtain ⟨dneg, _⟩ := deadzoned_neg st
  have dt := deadzoned_bounds t ht
  have ds := deadzoned_bounds st hs
  refine ⟨?_, ?_⟩
  · rw [mode_rc_process_movement, mode_rc_process_movement, a1, a2, b1, b2, hm]
  · rw [mode_rc_process_speeds, mode_rc_process_speeds, a1, a2, b1, b2,
      rc_speeds_exact_when_no_wrap _ _ _
        (by exact interpret_rc_not_emergency _ _ _ b3) (by rw [dneg]; omega) (by rw [dneg]; omega),
      rc_speeds_exact_when_no_wrap _ _ _
        (by exact interpret_rc_not_emergency _ _ _ a3) (by omega) (by omega), dneg]
    simp only [mirror_speeds, sub_neg_eq_add, ← sub_eq_add_neg]

/-- C40: for throttle and steering within [-255, 255] and the emergency
button clear, the mecanum step and the RC step on the sample with the
steering negated yield the mirror image of what they yield on the sample
itself: the movement with left and right exchanged (strafe, rotate and turn
pairs; stop, forward and backward unchanged) and the stored wheel speeds
(fl, fr, bl, br) turned into (fr, fl, br, bl), whatever the rest of the
machine state. -/
theorem joystick_policies_mirror (s : system_t) (t st : Int)
    (ht : -255 ≤ t ∧ t ≤ 255) (hs : -255 ≤ st ∧ st ≤ 255) :
    ((mode_mecanum_process (with_axes t (-st) s)).g_ctx.movement
        = mirror_movement (mode_mecanum_process (with_axes t st s)).g_ctx.movement ∧
      (mode_mecanum_process (with_axes t (-st) s)).g_ctx.motor_speeds
        = mirror_speeds (mode_mecanum_process (with_axes t st s)).g_ctx.motor_speeds) ∧
    ((mode_rc_process (with_axes t (-st) s)).g_ctx.movement
        = mirror_movement (mode_rc_process (with_axes t st s)).g_ctx.movement ∧
      (mode_rc_process (with_axes t (-st) s)).g_ctx.motor_speeds
        = mirror_speeds (mode_rc_process (with_axes t st s)).g_ctx.motor_speeds) :=
  ⟨mode_mecanum_process_mirror s t st ht hs, mode_rc_process_mirror s t st ht hs⟩

/-- Witness for C40: throttle 100 with steering 200 and -200: the mecanum
step rotates right with (100,-100,100,-100) and left with
(-100,100,-100,100); the RC step turns right with (255,-100,255,-100) and
left with (-100,255,-100,255). -/
theorem joystick_policies_mirror_witness :
    (((-255 : Int) ≤ 100 ∧ (100 : Int) ≤ 255) ∧ ((-255 : Int) ≤ 200 ∧ (200 : Int) ≤ 255)) ∧
    ((mode_mecanum_process (with_axes 100 200 boot_system)).g_ctx.movement
        = movement_type_t.MOVEMENT_ROTATE_RIGHT ∧
      (mode_mecanum_process (with_axes 100 200 boot_system)).g_ctx.motor_speeds
        = ⟨100, -100, 100, -100⟩ ∧
      (mode_rc_process (with_axes 100 200 boot_system)).g_ctx.movement
        = movement_type_t.MOVEMENT_TURN_RIGHT ∧
      (mode_rc_process (with_axes 100 200 boot_system)).g_ctx.motor_speeds
        = ⟨255, -100, 255, -100⟩) ∧
    ((mode_mecanum_process (with_axes 100 (-200) boot_system)).g_ctx.movement
        = mirror_movement (mode_mecanum_process (with_axes 100 200 boot_system)).g_ctx.movement ∧
      (mode_mecanum_process (with_axes 100 (-200) boot_system)).g_ctx.motor_speeds
        = mirror_speeds (mode_mecanum_process (with_axes 100 200 boot_system)).g_ctx.motor_speeds) ∧
    ((mode_rc_process (with_axes 100 (-200) boot_system)).g_ctx.movement
        = mirror_movement (mode_rc_process (with_axes 100 200 boot_system)).g_ctx.movement ∧
      (mode_rc_process (with_axes 100 (-200) boot_system)).g_ctx.motor_speeds
        = mirror_speeds (mode_rc_process (with_axes 100 200 boot_system)).g_ctx.motor_speeds) :=
  ⟨by decide, by decide,
    (joystick_policies_mirror boot_system 100 200 (by decide) (by decide)).1,
    (joystick_policies_mirror boot_system 100 200 (by decide) (by decide)).2⟩

end MiniOS
